import Mathlib

/-!
Verification of the yang-tools YANG parser/resolver (TypeScript sources under
src/). The TypeScript code is embedded shallowly: mutable builder objects
become explicitly threaded state, the shared error/warning collections become
an explicit `Log` value, thrown `Error`s become `Except String`, JavaScript
`Map`s become association lists with insertion-order semantics, and the
unbounded mutual recursion of the per-statement mapping functions is made
total with an explicit fuel argument (every claim is evaluated with ample
fuel; fuel exhaustion is reported as a distinguished error string that never
occurs in any run appearing in a theorem).

Numeric YANG arguments are modelled as `Int`: every numeric literal exercised
by the claims is an integer, and `parseFloatJS`/`parseIntJS` below model the
JavaScript parsing functions on (signed) integer literals, returning `none`
(JavaScript `NaN`) on anything that does not start with an integer literal.
-/

namespace YangTools

/-! ## JavaScript string primitives

The JavaScript string operations the sources rely on (`trim`,
`toLowerCase`, `split` with a non-empty separator string, and the `<`
string comparison) are modelled explicitly over character lists, so that
every theorem below evaluates inside the kernel. -/

/-- Does `sep` occur as a prefix of the character list? -/
def charListIsPrefix : List Char → List Char → Bool
  | [], _ => true
  | _ :: _, [] => false
  | a :: as, b :: bs => a == b && charListIsPrefix as bs

/-- Split worker: scan left to right, cutting at each (leftmost, non
overlapping) occurrence of `sep`. The fuel is one more than the length of
the scanned list, which suffices for every non-empty separator. -/
def splitOnAuxJS (sep : List Char) : Nat → List Char → List Char → List (List Char)
  | 0, s, acc => [acc.reverse ++ s]
  | _ + 1, [], acc => [acc.reverse]
  | fuel + 1, c :: rest, acc =>
    if charListIsPrefix sep (c :: rest) then
      acc.reverse :: splitOnAuxJS sep fuel ((c :: rest).drop sep.length) []
    else splitOnAuxJS sep fuel rest (c :: acc)

/-- JavaScript `s.split(sep)` for a non-empty separator string. -/
def splitOnJS (s sep : String) : List String :=
  (splitOnAuxJS sep.data (s.data.length + 1) s.data []).map String.mk

/-- JavaScript `s.trim()` (on the whitespace the sources encounter). -/
def trimJS (s : String) : String :=
  String.mk (((s.data.dropWhile Char.isWhitespace).reverse.dropWhile Char.isWhitespace).reverse)

/-- JavaScript `s.toLowerCase()` (on the ASCII arguments encountered). -/
def toLowerJS (s : String) : String :=
  String.mk (s.data.map Char.toLower)

/-- Lexicographic comparison of character lists by code point, the
JavaScript `<` on strings. -/
def charListLt : List Char → List Char → Bool
  | [], [] => false
  | [], _ :: _ => true
  | _ :: _, [] => false
  | a :: as, b :: bs =>
    if a.toNat < b.toNat then true
    else if b.toNat < a.toNat then false
    else charListLt as bs

/-- JavaScript `a < b` on strings. -/
def strLtJS (a b : String) : Bool := charListLt a.data b.data

/-- Decimal digits of a natural number (fuel-indexed, kernel-reducible). -/
def natDigits : Nat → Nat → List Char
  | 0, _ => []
  | fuel + 1, n =>
    if n < 10 then [Char.ofNat (48 + n)]
    else natDigits fuel (n / 10) ++ [Char.ofNat (48 + n % 10)]

/-- Decimal rendering of a natural number (the `${...}` interpolation of a
non-negative JS number), kernel-reducible unlike `Nat.repr`. -/
def natToString (n : Nat) : String := String.mk (natDigits (n + 1) n)

/-! ## Statement layer (yang-stmt-parser.ts) -/

/-- Source position of a token / statement (yang-stmt-scanner Position). -/
structure Position where
  line : Nat
  column : Nat
  offset : Nat
deriving DecidableEq, Repr

/-- Metadata attached to every parsed statement (yang-stmt-parser.ts). -/
structure Metadata where
  source : String
  position : Position
  length : Nat
deriving DecidableEq, Repr

/-- Terminal symbols of the token scanner (yang-stmt-scanner TermSymbol).
The scanner itself is not part of src/; only the symbol kinds and the token
shape are needed by the statement parser. -/
inductive TermSymbol where
  | lcurly
  | rcurly
  | identifier
  | identifierRef
  | statementTerminator
  | str
  | stringConcat
  | invalid
  | endOfInput
deriving DecidableEq, Repr

/-- Rendering of a terminal symbol, used in syntax-error messages.
Modelled from the spec: the scanner (not under src/) names its symbols
left-brace, right-brace, identifier, identifier-ref, statement-terminator,
string, string-concat, invalid, end-of-input. -/
def TermSymbol.render : TermSymbol → String
  | .lcurly => "left-brace"
  | .rcurly => "right-brace"
  | .identifier => "identifier"
  | .identifierRef => "identifier-ref"
  | .statementTerminator => "statement-terminator"
  | .str => "string"
  | .stringConcat => "string-concat"
  | .invalid => "invalid"
  | .endOfInput => "end-of-input"

/-- A scanner token. `value` carries the (unescaped) string value of a
string token; for other tokens it equals the lexeme. -/
structure Token where
  symbol : TermSymbol
  position : Position
  length : Nat
  lexeme : String
  value : String
deriving DecidableEq, Repr

/-- A parsed generic YANG statement (yang-stmt-parser YangStatement).
The TypeScript `arg` has type `string | boolean` where the parser only ever
stores a string or `false` ("no argument"); this is modelled as
`Option String`. -/
structure YangStatement where
  prf : String
  kw : String
  arg : Option String
  substmts : List YangStatement
  metadata : Metadata
deriving Repr

/-- A fatal syntax error (yang-stmt-parser SyntaxError): `message` is the
`line:column:` prefixed text computed in the constructor. -/
structure StmtSyntaxError where
  sourceRef : String
  message : String
deriving DecidableEq, Repr

/-- SyntaxError construction: prefixes the failing token's position. -/
def mkSyntaxError (sourceRef : String) (message : String) (token : Token) : StmtSyntaxError :=
  { sourceRef := sourceRef
    message := natToString token.position.line ++ ":" ++
      natToString token.position.column ++ ":" ++ message }

/-- The token that the scanner yields forever once the input is exhausted. -/
def eofToken : Token :=
  { symbol := .endOfInput, position := ⟨0, 0, 0⟩, length := 0, lexeme := "", value := "" }

/-- Parser state (yang-stmt-parser ParserState): the source reference and the
not-yet-consumed token stream; `lookAhead` is the head of the stream. -/
structure ParserState where
  source : String
  tokens : List Token
deriving Repr

def ParserState.lookAhead (st : ParserState) : Token :=
  st.tokens.headD eofToken

def ParserState.nextSymbol (st : ParserState) : TermSymbol :=
  st.lookAhead.symbol

/-- ParserState.match: consume the look-ahead when it has the expected
symbol, otherwise fail like `ParserState.fail`. (`match` is a Lean keyword,
hence the name.) -/
def ParserState.matchToken (st : ParserState) (symbol : TermSymbol) :
    Except StmtSyntaxError (Token × ParserState) :=
  if st.lookAhead.symbol ≠ symbol then
    .error (mkSyntaxError st.source
      ("Expected a " ++ symbol.render ++ " but got " ++ st.lookAhead.symbol.render) st.lookAhead)
  else
    .ok (st.lookAhead, { st with tokens := st.tokens.tail })

/-- JavaScript `Array.prototype.join()` with no argument: the default
separator is `","` (this is what `strings.join()` in parseOptArg performs). -/
def joinJS (strings : List String) : String :=
  String.intercalate "," strings

/-- parseIdentifier: an identifier token gives prf `""`; an identifier-ref
token is split at `:` into prefix and keyword. -/
def parseIdentifier (st : ParserState) :
    Except StmtSyntaxError ((String × String × Position) × ParserState) := do
  let position := st.lookAhead.position
  if st.nextSymbol = .identifier then
    let kw := st.lookAhead.lexeme
    let (_, st) ← st.matchToken st.nextSymbol
    return ((("" : String), kw, position), st)
  else if st.nextSymbol = .identifierRef then
    -- TS: const [ prf, kw ] = lexeme.split(':'); the scanner guarantees a colon
    let parts := splitOnJS st.lookAhead.lexeme ":"
    let prfKw : String × String :=
      match parts with
      | p :: k :: _ => (p, k)
      | _ => (st.lookAhead.lexeme, "")
    let (_, st) ← st.matchToken .identifierRef
    return ((prfKw.1, prfKw.2, position), st)
  else
    .error (mkSyntaxError st.source
      ("Expected an identifier, but got " ++ st.nextSymbol.render) st.lookAhead)

/-- The string-concatenation loop of parseOptArg: after the first string
token, consume `+ string` pairs, collecting the string values. -/
def parseConcatTail (fuel : Nat) (st : ParserState) (strings : List String) :
    Except StmtSyntaxError (List String × ParserState) :=
  match fuel with
  | 0 => .error (mkSyntaxError st.source "out of fuel" st.lookAhead)
  | fuel + 1 =>
    if st.lookAhead.symbol = .stringConcat then do
      let (_, st) ← st.matchToken .stringConcat
      let (tok, st) ← st.matchToken .str
      parseConcatTail fuel st (strings ++ [tok.value])
    else
      .ok (strings, st)

/-- parseOptArg: a leading string token starts a `+`-concatenation chain whose
values are combined with `strings.join()` — i.e. joined with the default
separator `","` — while a bare identifier / identifier-ref is taken verbatim;
anything else means "no argument" (`false` in TS, `none` here). -/
def parseOptArg (fuel : Nat) (st : ParserState) :
    Except StmtSyntaxError (Option String × ParserState) := do
  if st.nextSymbol = .str then
    let (tok, st) ← st.matchToken .str
    let (strings, st) ← parseConcatTail fuel st [tok.value]
    return (some (joinJS strings), st)
  else if st.nextSymbol = .identifier ∨ st.nextSymbol = .identifierRef then
    let (tok, st) ← st.matchToken st.nextSymbol
    return (some tok.lexeme, st)
  else
    return (none, st)

mutual

/-- parseStatement: keyword, optional argument, then `;` or `{ ... }`. -/
def parseStatement (fuel : Nat) (st : ParserState) :
    Except StmtSyntaxError (YangStatement × ParserState) :=
  match fuel with
  | 0 => .error (mkSyntaxError st.source "out of fuel" st.lookAhead)
  | fuel + 1 => do
    let ((prf, kw, kwPosition), st) ← parseIdentifier st
    let (arg, st) ← parseOptArg fuel st
    let ((substmts, endPosition), st) ← parseOptStatementBody fuel st
    let length := endPosition.offset - kwPosition.offset
    return ({ prf := prf, kw := kw, arg := arg, substmts := substmts,
              metadata := { source := st.source, position := kwPosition, length := length } }, st)

/-- parseOptStatementBody: `;` ends the statement, `{` opens a body. -/
def parseOptStatementBody (fuel : Nat) (st : ParserState) :
    Except StmtSyntaxError ((List YangStatement × Position) × ParserState) :=
  match fuel with
  | 0 => .error (mkSyntaxError st.source "out of fuel" st.lookAhead)
  | fuel + 1 =>
    if st.nextSymbol = .statementTerminator then do
      let position := st.lookAhead.position
      let (_, st) ← st.matchToken .statementTerminator
      return (([], position), st)
    else if st.nextSymbol = .lcurly then
      parseStatementBody fuel st
    else
      .error (mkSyntaxError st.source
        ("Expected a statement terminator or body, but got " ++ st.nextSymbol.render) st.lookAhead)

/-- parseStatementBody: `{ statement* }`, returning the substatements and the
position of the closing brace. -/
def parseStatementBody (fuel : Nat) (st : ParserState) :
    Except StmtSyntaxError ((List YangStatement × Position) × ParserState) :=
  match fuel with
  | 0 => .error (mkSyntaxError st.source "out of fuel" st.lookAhead)
  | fuel + 1 => do
    let (_, st) ← st.matchToken .lcurly
    parseStatementLoop fuel st []

/-- The `while (nextSymbol !== RCurly)` loop of parseStatementBody. -/
def parseStatementLoop (fuel : Nat) (st : ParserState) (acc : List YangStatement) :
    Except StmtSyntaxError ((List YangStatement × Position) × ParserState) :=
  match fuel with
  | 0 => .error (mkSyntaxError st.source "out of fuel" st.lookAhead)
  | fuel + 1 =>
    if st.nextSymbol ≠ .rcurly then do
      let (stmt, st) ← parseStatement fuel st
      parseStatementLoop fuel st (acc ++ [stmt])
    else do
      let endPosition := st.lookAhead.position
      let (_, st) ← st.matchToken .rcurly
      return ((acc, endPosition), st)

end

/-- parse (yang-stmt-parser.ts): parse one statement from a token stream. -/
def parseStmtTree (fuel : Nat) (sourceRef : String) (tokens : List Token) :
    Except StmtSyntaxError YangStatement :=
  (parseStatement fuel { source := sourceRef, tokens := tokens }).map (·.1)

/-! ## Mapper support types (yang-ast.ts, yang-ast-builders.ts) -/

/-- yang-ast Status (a TS string enum). -/
inductive Status where
  | current
  | deprecated
  | obsolete
deriving DecidableEq, Repr

/-- The string value of a Status member (Status.Current = "current", ...). -/
def Status.value : Status → String
  | .current => "current"
  | .deprecated => "deprecated"
  | .obsolete => "obsolete"

/-- yang-ast PatternModifier (a TS string enum with one member). -/
inductive PatternModifier where
  | invertMatch
deriving DecidableEq, Repr

/-- The string value of a PatternModifier member (InvertMatch = "invert-match"). -/
def PatternModifier.value : PatternModifier → String
  | .invertMatch => "invert-match"

/-- yang-ast UnknownStatement: a preserved unrecognized statement, with its
substatements preserved recursively. (TS field `prefix` is called
`prefixName` here.) -/
inductive UnknownStatement where
  | mk (metadata : Metadata) (prefixName : Option String) (keyword : String)
      (argument : Option String) (subStatements : List UnknownStatement)
deriving Repr

def UnknownStatement.metadata : UnknownStatement → Metadata
  | .mk m _ _ _ _ => m

def UnknownStatement.prefixName : UnknownStatement → Option String
  | .mk _ p _ _ _ => p

def UnknownStatement.keyword : UnknownStatement → String
  | .mk _ _ k _ _ => k

def UnknownStatement.argument : UnknownStatement → Option String
  | .mk _ _ _ a _ => a

def UnknownStatement.subStatements : UnknownStatement → List UnknownStatement
  | .mk _ _ _ _ s => s

/-- The shared error and warning collections (yang-ast-builders
MessageCollection, one for errors and one for warnings, shared by a context
and all contexts pushed from it). -/
structure Log where
  errors : List String := []
  warnings : List String := []
deriving DecidableEq, Repr

/-- yang-ast-builders Context: the current statement plus the parent chain.
The shared message collections are threaded separately as `Log`. -/
inductive Context where
  | mk (stmt : YangStatement) (parent : Option Context)

def Context.stmt : Context → YangStatement
  | .mk s _ => s

def Context.parent : Context → Option Context
  | .mk _ p => p

/-- Context.pushContext: a child context sharing the parent's collections. -/
def Context.push (ctx : Context) (stmt : YangStatement) : Context :=
  .mk stmt (some ctx)

/-- yang-ast-parser fqKeyword: `prefix:kw` when prefixed, else `kw`. -/
def fqKeyword (stmt : YangStatement) : String :=
  if stmt.prf ≠ "" then stmt.prf ++ ":" ++ stmt.kw else stmt.kw

/-- The private Context.argument(): trimmed string argument, or the
`<unnamed kw>` sentinel when the argument is absent. -/
def Context.argumentName (ctx : Context) : String :=
  match ctx.stmt.arg with
  | some a => trimJS a
  | none => "<unnamed " ++ ctx.stmt.kw ++ ">"

/-- Context.name: the `/kw=arg/kw=arg` path built along the parent chain. -/
def Context.name : Context → String
  | .mk stmt parent =>
    let thisName := if stmt.prf ≠ "" then stmt.prf ++ ":" ++ stmt.kw else stmt.kw
    let thisArg := if thisName = "" then "" else "=" ++ (Context.mk stmt parent).argumentName
    match parent with
    | some p => p.name ++ "/" ++ thisName ++ thisArg
    | none => "/" ++ thisName ++ thisArg

/-- `context.parentContext?.name ?? "/"` as used by the expect* helpers. -/
def Context.parentName (ctx : Context) : String :=
  match ctx.parent with
  | some p => p.name
  | none => "/"

/-- Context.addError: messages are prefixed `line:column:`. -/
def Context.addError (ctx : Context) (message : String) (log : Log) : Log :=
  { log with errors := log.errors ++
      [natToString ctx.stmt.metadata.position.line ++ ":" ++
        natToString ctx.stmt.metadata.position.column ++ ":" ++ message] }

/-- Context.addWarning: messages are prefixed `line:column:`. -/
def Context.addWarning (ctx : Context) (message : String) (log : Log) : Log :=
  { log with warnings := log.warnings ++
      [natToString ctx.stmt.metadata.position.line ++ ":" ++
        natToString ctx.stmt.metadata.position.column ++ ":" ++ message] }

/-! ### Value accumulators (yang-ast-builders.ts)

A `ValueBuilder<T>`'s mutable `_values` array becomes an explicit
`List α` threaded through the mapping functions; `add` appends. -/

/-- ValueBuilder.add: push the value. -/
def valueBuilderAdd (values : List α) (value : α) : List α :=
  values ++ [value]

/-- OptionalValueBuilder.build: `_values.length === 1 ? _values[0] : null`. -/
def optionalValueBuild (values : List α) : Option α :=
  match values with
  | [v] => some v
  | _ => none

/-- RequiredValueBuilder.build: the single value, else the sentinel. -/
def requiredValueBuild (sentinelValueOnError : α) (values : List α) : α :=
  match values with
  | [v] => v
  | _ => sentinelValueOnError

/-- RequiredValueBuilder.isSet: `_values.length === 1`. -/
def requiredValueIsSet (values : List α) : Bool :=
  values.length == 1

/-- RequiredValueBuilder.get: `_values[0]!` — only called after `isSet()`;
totalized with the builder's sentinel. -/
def requiredValueGet (sentinelValueOnError : α) (values : List α) : α :=
  values.headD sentinelValueOnError

/-- MultiValueBuilder.build: all values in add order. -/
def multiValueBuild (values : List α) : List α :=
  values

/-- OptionalBuilder<T>.get().build(): the single added node, else null
(`BuilderIdentity(null)`); node builders are stored already built. -/
def optionalBuilderBuild (builders : List α) : Option α :=
  match builders with
  | [v] => some v
  | _ => none

/-- RequiredBuilder<T>.get().build(): the single added node, else the
sentinel node. -/
def requiredBuilderBuild (sentinelValueOnError : α) (builders : List α) : α :=
  match builders with
  | [v] => v
  | _ => sentinelValueOnError

/-! ### JavaScript number parsing (integer fragment)

`parseFloat` / `parseInt` are modelled on (signed) decimal integer literals:
the longest leading run of digits after an optional sign is parsed, and the
result is `none` (JavaScript `NaN`) when there is no leading digit. This is
exact for every numeric literal the YANG mapper claims exercise; fractional
literals are out of scope of this development. -/

/-- The longest leading digit run and its numeric value. -/
def leadingDigits : List Char → Option Nat → Option Nat
  | c :: rest, acc =>
    if c.isDigit then
      leadingDigits rest (some ((acc.getD 0) * 10 + (c.toNat - '0'.toNat)))
    else acc
  | [], acc => acc

/-- JavaScript `parseInt(str)` on integer literals (sign + digit prefix). -/
def parseIntJS (s : String) : Option Int :=
  match s.data with
  | '-' :: rest => (leadingDigits rest none).map (fun n => -(n : Int))
  | '+' :: rest => (leadingDigits rest none).map (fun n => (n : Int))
  | cs => (leadingDigits cs none).map (fun n => (n : Int))

/-- JavaScript `parseFloat(str)` restricted to integer literals; a fractional
part is not modelled (no claim exercises one). -/
def parseFloatJS (s : String) : Option Int :=
  parseIntJS s

/-! ### Generic rule-table dispatch (yang-ast-parser.ts lines 127-230) -/

/-- How a scalar rule's value builder accumulates: which ValueBuilder class
the TS rule table put in the slot. -/
inductive ValueBuilderKind where
  | optional
  | required
  | multi
deriving DecidableEq, Repr

/-- isScalarBuilder: every ValueBuilder except MultiValueBuilder. -/
def isScalarBuilder (kind : ValueBuilderKind) : Bool :=
  kind != .multi

/-- A scalar slot of a ParseRule: the class of the target ValueBuilder and
its `add` action on the threaded builder state `σ`. -/
structure ScalarRule (σ : Type) (α : Type) where
  kind : ValueBuilderKind
  add : σ → α → σ

/-- A nested-node handler: receives the pushed sub-context and updates the
builder state and log; it may throw (Except.error) like the TS code. -/
def Handler (σ : Type) : Type :=
  Context → σ → Log → Except String (σ × Log)

/-- yang-ast-parser ParseRule: a child-keyword rule with eight optional
handler slots, of which a well-formed rule sets exactly one. -/
structure ParseRule (σ : Type) where
  kw : String
  patternModifierBuilder : Option (ScalarRule σ PatternModifier) := none
  stringValueBuilder : Option (ScalarRule σ String) := none
  defaultStringValue : Option String := none
  booleanValueBuilder : Option (ScalarRule σ Bool) := none
  numberValueBuilder : Option (ScalarRule σ Int) := none
  statusValueBuilder : Option (ScalarRule σ Status) := none
  parseOne : Option (Handler σ) := none
  parseZeroOrMore : Option (Handler σ) := none
  parseZeroOrOne : Option (Handler σ) := none

/-- The number of handler slots a rule sets (the `handlers.reduce` count in
parseKeywordSubStatements, in the same slot order). -/
def ParseRule.handlerCount (rule : ParseRule σ) : Nat :=
  (if rule.stringValueBuilder.isSome then 1 else 0) +
  (if rule.booleanValueBuilder.isSome then 1 else 0) +
  (if rule.numberValueBuilder.isSome then 1 else 0) +
  (if rule.statusValueBuilder.isSome then 1 else 0) +
  (if rule.patternModifierBuilder.isSome then 1 else 0) +
  (if rule.parseOne.isSome then 1 else 0) +
  (if rule.parseZeroOrMore.isSome then 1 else 0) +
  (if rule.parseZeroOrOne.isSome then 1 else 0)

/-- yang-ast-parser expectString: a present string argument is added
verbatim; an absent argument records an error. -/
def expectString (ctx : Context) (vb : ScalarRule σ String) (s : σ) (log : Log) : σ × Log :=
  match ctx.stmt.arg with
  | none =>
    (s, ctx.addError ("Expected a non-empty string argument for statement '" ++
      fqKeyword ctx.stmt ++ "' in '" ++ ctx.parentName ++ "'.") log)
  | some a => (vb.add s a, log)

/-- yang-ast-parser expectBoolean: case-insensitive `true` / `false`. -/
def expectBoolean (ctx : Context) (vb : ScalarRule σ Bool) (s : σ) (log : Log) : σ × Log :=
  match ctx.stmt.arg with
  | none =>
    (s, ctx.addError ("Expected a non-empty string argument for statement '" ++
      fqKeyword ctx.stmt ++ "' in '" ++ ctx.parentName ++ "'.") log)
  | some a =>
    if toLowerJS (trimJS a) = "true" then (vb.add s true, log)
    else if toLowerJS (trimJS a) = "false" then (vb.add s false, log)
    else
      (s, ctx.addError ("Expected a boolean argument for statement '" ++
        fqKeyword ctx.stmt ++ "' in '" ++ ctx.parentName ++ "', but got '" ++ a ++ "'.") log)

/-- yang-ast-parser expectStatus: one of `current`/`deprecated`/`obsolete`. -/
def expectStatus (ctx : Context) (vb : ScalarRule σ Status) (s : σ) (log : Log) : σ × Log :=
  match ctx.stmt.arg with
  | none =>
    (s, ctx.addError ("Expected a non-empty string argument for statement '" ++
      fqKeyword ctx.stmt ++ "' in '" ++ ctx.parentName ++ "'.") log)
  | some a =>
    if toLowerJS (trimJS a) = Status.current.value then (vb.add s .current, log)
    else if toLowerJS (trimJS a) = Status.deprecated.value then (vb.add s .deprecated, log)
    else if toLowerJS (trimJS a) = Status.obsolete.value then (vb.add s .obsolete, log)
    else
      (s, ctx.addError ("Expected a status argument for statement '" ++
        fqKeyword ctx.stmt ++ "' in '" ++ ctx.parentName ++ "', but got '" ++ a ++ "'.") log)

/-- yang-ast-parser expectPatternModifier: only `invert-match`. -/
def expectPatternModifier (ctx : Context) (vb : ScalarRule σ PatternModifier) (s : σ) (log : Log) :
    σ × Log :=
  match ctx.stmt.arg with
  | none =>
    (s, ctx.addError ("Expected a non-empty string argument for statement '" ++
      fqKeyword ctx.stmt ++ "' in '" ++ ctx.parentName ++ "'.") log)
  | some a =>
    if toLowerJS (trimJS a) = PatternModifier.invertMatch.value then (vb.add s .invertMatch, log)
    else
      (s, ctx.addError ("Expected a pattern modifier argument for statement '" ++
        fqKeyword ctx.stmt ++ "' in '" ++ ctx.parentName ++ "', but got '" ++ a ++ "'.") log)

/-- yang-ast-parser expectNumber: `parseFloat` of the trimmed argument. -/
def expectNumber (ctx : Context) (vb : ScalarRule σ Int) (s : σ) (log : Log) : σ × Log :=
  match ctx.stmt.arg with
  | none =>
    (s, ctx.addError ("Expected a non-empty string argument for statement '" ++
      fqKeyword ctx.stmt ++ "' in '" ++ ctx.parentName ++ "'.") log)
  | some a =>
    match parseFloatJS (trimJS a) with
    | some n => (vb.add s n, log)
    | none =>
      (s, ctx.addError ("Expected a numeric argument for statement '" ++
        fqKeyword ctx.stmt ++ "' in '" ++ ctx.parentName ++ "', but got '" ++ a ++ "'.") log)

mutual

/-- yang-ast-parser makeUnknownStatement: the statement and, recursively,
all of its substatements, preserved verbatim. -/
def makeUnknownStatement : YangStatement → UnknownStatement
  | .mk prf kw arg substmts metadata =>
    .mk metadata (if prf = "" then none else some prf) kw arg
      (makeUnknownStatements substmts)

/-- `stmt.substmts.map(sub => makeUnknownStatement(sub))`. -/
def makeUnknownStatements : List YangStatement → List UnknownStatement
  | [] => []
  | s :: rest => makeUnknownStatement s :: makeUnknownStatements rest

end

/-- The `keywordsSeen` map (a JS `Map<string, number>`): association list in
insertion order; `get(k) ?? 0`. -/
def seenGetD (seen : List (String × Nat)) (k : String) : Nat :=
  match seen.find? (fun e => e.1 == k) with
  | some e => e.2
  | none => 0

/-- `keywordsSeen.set(k, v)`: replace in place, or append a new entry. -/
def seenSet (seen : List (String × Nat)) (k : String) (v : Nat) : List (String × Nat) :=
  match seen with
  | [] => [(k, v)]
  | e :: rest => if e.1 == k then (k, v) :: rest else e :: seenSet rest k v

/-- The handler-application block of the dispatch step (the `if (rule...)`
chain of lines 174-189): the present slots are applied in the source
order — string, boolean, number, status, pattern-modifier, zero-or-one,
zero-or-more, one (for a well-formed rule exactly one is present). -/
def applyRuleHandlers (rule : ParseRule σ) (subCtx : Context) (s : σ) (log : Log) :
    Except String (σ × Log) :=
  let (s, log) := match rule.stringValueBuilder with
    | some vb => expectString subCtx vb s log
    | none => (s, log)
  let (s, log) := match rule.booleanValueBuilder with
    | some vb => expectBoolean subCtx vb s log
    | none => (s, log)
  let (s, log) := match rule.numberValueBuilder with
    | some vb => expectNumber subCtx vb s log
    | none => (s, log)
  let (s, log) := match rule.statusValueBuilder with
    | some vb => expectStatus subCtx vb s log
    | none => (s, log)
  let (s, log) := match rule.patternModifierBuilder with
    | some vb => expectPatternModifier subCtx vb s log
    | none => (s, log)
  match (match rule.parseZeroOrOne with
         | some h => h subCtx s log
         | none => .ok (s, log)) with
  | .error e => .error e
  | .ok (s, log) =>
    match (match rule.parseZeroOrMore with
           | some h => h subCtx s log
           | none => .ok (s, log)) with
    | .error e => .error e
    | .ok (s, log) =>
      match rule.parseOne with
      | some h => h subCtx s log
      | none => .ok (s, log)

/-- The per-child dispatch step of parseKeywordSubStatements (lines
153-198): an unprefixed child matching a rule is handed to that rule's
single handler (after the misconfiguration check throws on any other
handler count); any other child is recorded as an unknown statement. -/
def dispatchChild (ctx : Context) (rules : List (ParseRule σ)) (subStmt : YangStatement)
    (acc : List UnknownStatement × List (String × Nat) × σ × Log) :
    Except String (List UnknownStatement × List (String × Nat) × σ × Log) :=
  let (unknowns, seen, s, log) := acc
  let fqkw := fqKeyword subStmt
  let kwCount := seenGetD seen fqkw
  let seen := seenSet seen fqkw (kwCount + 1)
  if subStmt.prf = "" then
    match rules.find? (fun r => r.kw == subStmt.kw) with
    | some rule =>
      if rule.handlerCount ≠ 1 then
        .error ("Misconfigured parser rule for key word " ++ rule.kw ++ "!")
      else
        match applyRuleHandlers rule (ctx.push subStmt) s log with
        | .error e => .error e
        | .ok (s, log) => .ok (unknowns, seen, s, log)
    | none => .ok (unknowns ++ [makeUnknownStatement subStmt], seen, s, log)
  else
    .ok (unknowns ++ [makeUnknownStatement subStmt], seen, s, log)

/-- The cardinality re-check of parseKeywordSubStatements (lines 200-229).
The source computes `isScalar` by OR-ing the five scalar-builder tests with
`rule.parseOne !== undefined`; the following source line
`rule.parseZeroOrOne !== undefined;` is a separate no-op expression
statement (automatic semicolon insertion after the missing `||`), so
zero-or-one handler rules are NOT classified as scalar, which is mirrored
here. -/
def checkRuleCardinality (ctx : Context) (seen : List (String × Nat)) (acc : σ × Log)
    (rule : ParseRule σ) : σ × Log :=
  let (s, log) := acc
  let isScalar :=
    (match rule.booleanValueBuilder with | some vb => isScalarBuilder vb.kind | none => false) ||
    (match rule.stringValueBuilder with | some vb => isScalarBuilder vb.kind | none => false) ||
    (match rule.patternModifierBuilder with | some vb => isScalarBuilder vb.kind | none => false) ||
    (match rule.numberValueBuilder with | some vb => isScalarBuilder vb.kind | none => false) ||
    (match rule.statusValueBuilder with | some vb => isScalarBuilder vb.kind | none => false) ||
    rule.parseOne.isSome
  let isRequired :=
    (match rule.stringValueBuilder with | some vb => vb.kind == .required | none => false) ||
    rule.parseOne.isSome
  let kwCount := seenGetD seen rule.kw
  if isScalar then
    if isRequired && kwCount == 0 then
      -- hasDefaultValue = rule.stringValueBuilder && rule.defaultStringValue !== undefined
      match rule.stringValueBuilder, rule.defaultStringValue with
      | some vb, some d =>
        (vb.add s d, ctx.addWarning ("Statement '" ++ rule.kw ++ "' defaults to '" ++ d ++
          "' in '" ++ ctx.name ++ "'.") log)
      | _, _ =>
        (s, ctx.addError ("Required statement '" ++ rule.kw ++ "' not found in '" ++
          ctx.name ++ "'.") log)
    else if kwCount > 1 then
      (s, ctx.addError ("Statement '" ++ rule.kw ++ "' repeated " ++ natToString (kwCount - 1) ++
        " times in '" ++ ctx.name ++ "'.") log)
    else (s, log)
  else (s, log)

/-- yang-ast-parser parseKeywordSubStatements: dispatch every child in source
order, then re-check cardinality for every rule. -/
def parseKeywordSubStatements (ctx : Context) (unknownStatements : List UnknownStatement)
    (parseRules : List (ParseRule σ)) (s : σ) (log : Log) :
    Except String (List UnknownStatement × σ × Log) :=
  match ctx.stmt.substmts.foldlM (fun acc subStmt => dispatchChild ctx parseRules subStmt acc)
      (unknownStatements, ([] : List (String × Nat)), s, log) with
  | .error e => .error e
  | .ok (unknowns, seen, s, log) =>
    let (s, log) :=
      parseRules.foldl (fun acc rule => checkRuleCardinality ctx seen acc rule) (s, log)
    .ok (unknowns, s, log)

/-- yang-ast-parser createBuilder: the builder's identifier argument is the
trimmed string argument; an absent argument records an error and yields the
`<unnamed fq-keyword>` sentinel. -/
def createBuilderName (ctx : Context) (log : Log) : String × Log :=
  match ctx.stmt.arg with
  | some a => (trimJS a, log)
  | none =>
    ("<unnamed " ++ fqKeyword ctx.stmt ++ ">",
      ctx.addError ("Expected a non-empty string argument for statement '" ++
        ctx.stmt.kw ++ "' in '" ++ ctx.parentName ++ "'.") log)

/-- yang-ast-parser createBuilderNoArg: a present string argument only emits
a warning (the statement takes no argument). -/
def createBuilderNoArgCheck (ctx : Context) (log : Log) : Log :=
  match ctx.stmt.arg with
  | some _ =>
    ctx.addWarning ("Did not expect a non-empty string argument for statement '" ++
      ctx.stmt.kw ++ "' in '" ++ ctx.parentName ++ "'.") log
  | none => log

/-! ## Typed model nodes (yang-ast.ts)

TS interface names are kept except for two clashes with Lean:
`Type` is modelled as `YType` and `List` as `YList`. TS `T | null` fields
become `Option T`. Every node ends with its AstNode base fields
(`metadata`, `unknownStatements`). -/

structure When where
  xpath : String
  description : Option String
  reference : Option String
  metadata : Metadata
  unknownStatements : List UnknownStatement

structure Must where
  xpath : String
  errorAppTag : Option String
  errorMessage : Option String
  description : Option String
  reference : Option String
  metadata : Metadata
  unknownStatements : List UnknownStatement

structure Revision where
  value : String
  description : Option String
  reference : Option String
  metadata : Metadata
  unknownStatements : List UnknownStatement

/-- yang-ast Import. (TS field `prefix` is called `pfx` here.) -/
structure Import where
  identifier : String
  pfx : String
  revision : Option String
  description : Option String
  reference : Option String
  metadata : Metadata
  unknownStatements : List UnknownStatement

structure Include where
  identifier : String
  revision : Option String
  description : Option String
  reference : Option String
  metadata : Metadata
  unknownStatements : List UnknownStatement

structure Argument where
  identifier : String
  yinElement : Option Bool
  metadata : Metadata
  unknownStatements : List UnknownStatement

structure Extension where
  identifier : String
  argument : Option Argument
  status : Option Status
  description : Option String
  reference : Option String
  metadata : Metadata
  unknownStatements : List UnknownStatement

structure Feature where
  identifier : String
  ifFeatures : List String
  status : Option Status
  description : Option String
  reference : Option String
  metadata : Metadata
  unknownStatements : List UnknownStatement

structure Identity where
  identifier : String
  bases : List String
  ifFeatures : List String
  status : Option Status
  description : Option String
  reference : Option String
  metadata : Metadata
  unknownStatements : List UnknownStatement

structure Bit where
  identifier : String
  position : Int
  ifFeatures : List String
  status : Option Status
  description : Option String
  reference : Option String
  metadata : Metadata
  unknownStatements : List UnknownStatement

structure Enum where
  name : String
  value : Int
  status : Option Status
  description : Option String
  reference : Option String
  metadata : Metadata
  unknownStatements : List UnknownStatement

/-- A range/length boundary: `number | "min" | "max"`. -/
inductive Boundary where
  | num (n : Int)
  | bmin
  | bmax
deriving DecidableEq, Repr

structure RangeSpecification where
  lowerBound : Boundary
  upperBound : Option Boundary
deriving DecidableEq, Repr

structure LengthSpecification where
  lowerBound : Boundary
  upperBound : Option Boundary
deriving DecidableEq, Repr

structure Range where
  specifications : List RangeSpecification
  errorAppTag : Option String
  errorMessage : Option String
  description : Option String
  reference : Option String
  metadata : Metadata
  unknownStatements : List UnknownStatement

structure Length where
  specifications : List LengthSpecification
  errorAppTag : Option String
  errorMessage : Option String
  description : Option String
  reference : Option String
  metadata : Metadata
  unknownStatements : List UnknownStatement

structure Pattern where
  specification : String
  modifier : Option PatternModifier
  errorAppTag : Option String
  errorMessage : Option String
  description : Option String
  reference : Option String
  metadata : Metadata
  unknownStatements : List UnknownStatement

/-- yang-ast Type (named YType: `Type` is a Lean universe): self-recursive
through `unionTypes`. Constructor argument order follows the TS interface. -/
inductive YType where
  | mk (identifier : String) (range : Option Range) (fractionDigits : Option Int)
      (length : Option Length) (patterns : List Pattern) (path : Option String)
      (bits : List Bit) (enums : List Enum) (bases : List String)
      (unionTypes : List YType) (requireInstance : Option Bool)
      (metadata : Metadata) (unknownStatements : List UnknownStatement)

def YType.identifier : YType → String
  | .mk i _ _ _ _ _ _ _ _ _ _ _ _ => i

def YType.enums : YType → List Enum
  | .mk _ _ _ _ _ _ _ e _ _ _ _ _ => e

def YType.bits : YType → List Bit
  | .mk _ _ _ _ _ _ b _ _ _ _ _ _ => b

def YType.length : YType → Option Length
  | .mk _ _ _ l _ _ _ _ _ _ _ _ _ => l

structure Typedef where
  identifier : String
  type : YType
  units : Option String
  dflt : Option String   -- TS field: default
  status : Option Status
  description : Option String
  reference : Option String
  metadata : Metadata
  unknownStatements : List UnknownStatement

structure DeviationItem where
  code : String
  units : Option String
  musts : List Must
  uniques : List String
  defaults : List String
  config : Option Bool
  mandatory : Option Bool
  minElements : Option Int
  maxElements : Option Int
  type : Option YType
  metadata : Metadata
  unknownStatements : List UnknownStatement

structure Deviation where
  target : String
  description : Option String
  reference : Option String
  items : List DeviationItem
  metadata : Metadata
  unknownStatements : List UnknownStatement

structure Refine where
  target : String
  ifFeatures : List String
  musts : List Must
  presence : Option String
  defaults : List String
  config : Option Bool
  mandatory : Option Bool
  minElements : Option Int
  maxElements : Option Int
  description : Option String
  reference : Option String
  metadata : Metadata
  unknownStatements : List UnknownStatement

structure Leaf where
  identifier : String
  when : Option When
  ifFeatures : List String
  type : YType
  units : Option String
  musts : List Must
  dflt : Option String   -- TS field: default
  config : Option Bool
  mandatory : Option Bool
  status : Option Status
  description : Option String
  reference : Option String
  metadata : Metadata
  unknownStatements : List UnknownStatement

structure LeafList where
  identifier : String
  when : Option When
  ifFeatures : List String
  type : YType
  units : Option String
  musts : List Must
  dflt : List String   -- TS field: default
  config : Option Bool
  minElements : Option Int
  maxElements : Option Int
  orderedBy : Option String
  status : Option Status
  description : Option String
  reference : Option String
  metadata : Metadata
  unknownStatements : List UnknownStatement

structure AnyData where
  identifier : String
  when : Option When
  ifFeatures : List String
  musts : List Must
  config : Option Bool
  mandatory : Option Bool
  status : Option Status
  description : Option String
  reference : Option String
  metadata : Metadata
  unknownStatements : List UnknownStatement

structure AnyXml where
  identifier : String
  when : Option When
  ifFeatures : List String
  musts : List Must
  config : Option Bool
  mandatory : Option Bool
  status : Option Status
  description : Option String
  reference : Option String
  metadata : Metadata
  unknownStatements : List UnknownStatement

/-! The mutually recursive part of the data model (yang-ast.ts `List` is
modelled as `YList`). Lean structures cannot be mutually recursive, so these
are one-constructor inductives; constructor argument order follows the TS
interface, ending with metadata and unknownStatements. The TS unions
`DataDefinition`, `Choice.cases`'s element type, `Augmentation.statements`'s
element type and `Typedef | Grouping` become tagged wrapper inductives. -/

mutual

inductive Uses where
  | mk (grouping : String) (when : Option When) (ifFeatures : List String)
      (status : Option Status) (description : Option String) (reference : Option String)
      (refines : List Refine) (augmentations : List Augmentation)
      (metadata : Metadata) (unknownStatements : List UnknownStatement)

inductive Container where
  | mk (identifier : String) (when : Option When) (ifFeatures : List String)
      (presence : Option String) (config : Option Bool) (status : Option Status)
      (description : Option String) (reference : Option String)
      (typedefsOrGroupings : List TypedefOrGrouping)
      (dataDefinitions : List DataDefinition)
      (actions : List Action) (notifications : List Notification)
      (metadata : Metadata) (unknownStatements : List UnknownStatement)

inductive YList where
  | mk (identifier : String) (when : Option When) (ifFeatures : List String)
      (musts : List Must) (key : Option String) (uniques : List String)
      (config : Option Bool) (minElements : Option Int) (maxElements : Option Int)
      (orderedBy : Option String) (status : Option Status)
      (description : Option String) (reference : Option String)
      (typedefsOrGroupings : List TypedefOrGrouping)
      (dataDefinitions : List DataDefinition)
      (actions : List Action) (notifications : List Notification)
      (metadata : Metadata) (unknownStatements : List UnknownStatement)

inductive Choice where
  | mk (identifier : String) (when : Option When) (ifFeatures : List String)
      (dflt : Option String) (config : Option Bool) (mandatory : Option Bool)
      (status : Option Status) (description : Option String) (reference : Option String)
      (cases : List ChoiceCase)
      (metadata : Metadata) (unknownStatements : List UnknownStatement)

inductive Case where
  | mk (identifier : String) (when : Option When) (ifFeatures : List String)
      (status : Option Status) (description : Option String) (reference : Option String)
      (dataDefinitions : List DataDefinition)
      (metadata : Metadata) (unknownStatements : List UnknownStatement)

inductive Grouping where
  | mk (identifier : String) (status : Option Status) (description : Option String)
      (reference : Option String)
      (typedefsOrGroupings : List TypedefOrGrouping)
      (dataDefinitions : List DataDefinition)
      (actions : List Action) (notifications : List Notification)
      (metadata : Metadata) (unknownStatements : List UnknownStatement)

inductive Action where
  | mk (identifier : String) (ifFeatures : List String) (status : Option Status)
      (description : Option String) (reference : Option String)
      (typedefsOrGroupings : List TypedefOrGrouping)
      (input : Option Input) (output : Option Output)
      (metadata : Metadata) (unknownStatements : List UnknownStatement)

inductive Notification where
  | mk (identifier : String) (ifFeatures : List String) (musts : List Must)
      (status : Option Status) (description : Option String) (reference : Option String)
      (typedefsOrGroupings : List TypedefOrGrouping)
      (dataDefinitions : List DataDefinition)
      (metadata : Metadata) (unknownStatements : List UnknownStatement)

inductive Input where
  | mk (musts : List Must) (typedefsOrGroupings : List TypedefOrGrouping)
      (dataDefinitions : List DataDefinition)
      (metadata : Metadata) (unknownStatements : List UnknownStatement)

inductive Output where
  | mk (musts : List Must) (typedefsOrGroupings : List TypedefOrGrouping)
      (dataDefinitions : List DataDefinition)
      (metadata : Metadata) (unknownStatements : List UnknownStatement)

inductive Augmentation where
  | mk (target : String) (when : Option When) (ifFeatures : List String)
      (status : Option Status) (description : Option String) (reference : Option String)
      (statements : List AugStatement)
      (metadata : Metadata) (unknownStatements : List UnknownStatement)

/-- The union Uses | Container | Leaf | LeafList | List | Choice | AnyData
| AnyXml (the `construct` discriminator becomes the constructor tag). -/
inductive DataDefinition where
  | uses (u : Uses)
  | container (c : Container)
  | leaf (l : Leaf)
  | leafList (l : LeafList)
  | list (l : YList)
  | choice (c : Choice)
  | anyData (a : AnyData)
  | anyXml (a : AnyXml)

/-- The element union of Choice.cases. -/
inductive ChoiceCase where
  | case (c : Case)
  | choice (c : Choice)
  | container (c : Container)
  | leaf (l : Leaf)
  | leafList (l : LeafList)
  | list (l : YList)
  | anyData (a : AnyData)
  | anyXml (a : AnyXml)

/-- The element union of Augmentation.statements. -/
inductive AugStatement where
  | dataDef (d : DataDefinition)
  | case (c : Case)
  | action (a : Action)
  | notif (n : Notification)

/-- The union Typedef | Grouping. -/
inductive TypedefOrGrouping where
  | typedef (t : Typedef)
  | grouping (g : Grouping)

end

def Container.identifier : Container → String
  | .mk i _ _ _ _ _ _ _ _ _ _ _ _ _ => i

def Container.when : Container → Option When
  | .mk _ w _ _ _ _ _ _ _ _ _ _ _ _ => w

def Container.dataDefinitions : Container → List DataDefinition
  | .mk _ _ _ _ _ _ _ _ _ d _ _ _ _ => d

def Container.unknownStatements : Container → List UnknownStatement
  | .mk _ _ _ _ _ _ _ _ _ _ _ _ _ u => u

structure Rpc where
  identifier : String
  ifFeatures : List String
  status : Option Status
  description : Option String
  reference : Option String
  typedefsOrGroupings : List TypedefOrGrouping
  input : Option Input
  output : Option Output
  metadata : Metadata
  unknownStatements : List UnknownStatement

/-- The element union of Module.body / Submodule.body. -/
inductive ModuleBodyElement where
  | extension (e : Extension)
  | feature (f : Feature)
  | identity (i : Identity)
  | typedef (t : Typedef)
  | grouping (g : Grouping)
  | dataDef (d : DataDefinition)
  | augmentation (a : Augmentation)
  | rpc (r : Rpc)
  | notif (n : Notification)
  | deviation (d : Deviation)

/-- yang-ast Module. (TS field `prefix` is called `pfx` here.) -/
structure Module where
  name : String
  pfx : String
  yangVersion : String
  namespace_ : String   -- TS field: namespace (a Lean keyword)
  organization : Option String
  contact : Option String
  reference : Option String
  description : Option String
  revisions : List Revision
  imports : List Import
  includes : List Include
  body : List ModuleBodyElement
  metadata : Metadata
  unknownStatements : List UnknownStatement

structure Submodule where
  name : String
  yangVersion : String
  belongsTo : String
  organization : Option String
  contact : Option String
  reference : Option String
  description : Option String
  revisions : List Revision
  imports : List Import
  includes : List Include
  body : List ModuleBodyElement
  metadata : Metadata
  unknownStatements : List UnknownStatement

/-- The `Module | Submodule` union produced by the parse entry point,
tagged like the TS `construct` field. -/
inductive ModuleOrSubmodule where
  | module (m : Module)
  | submodule (s : Submodule)

/-- The TS `construct` discriminator of a parsed top-level node. -/
def ModuleOrSubmodule.construct : ModuleOrSubmodule → String
  | .module _ => "module"
  | .submodule _ => "submodule"

/-! ## Per-statement mapping functions (yang-ast-parser.ts)

Each TS builder class becomes a `...BuilderState` structure holding the
`_values` list of every scalar ValueBuilder field and the already-built
nodes of every node-builder field (sub-builders are immutable once added,
so adding the built node is equivalent to adding the builder); `build()`
becomes an explicit function of the state, the node's identifier argument
and the metadata/unknown-statements base fields. -/

structure RevisionBuilderState where
  description : List String := []
  reference : List String := []

/-- yang-ast-parser parseRevision. -/
def parseRevision (ctx : Context) (log : Log) : Except String (Revision × Log) := do
  let (value, log) := createBuilderName ctx log
  let rules : List (ParseRule RevisionBuilderState) :=
    [ { kw := "description", stringValueBuilder :=
          some ⟨.optional, fun b v => { b with description := valueBuilderAdd b.description v }⟩ },
      { kw := "reference", stringValueBuilder :=
          some ⟨.optional, fun b v => { b with reference := valueBuilderAdd b.reference v }⟩ } ]
  let (unknowns, b, log) ← parseKeywordSubStatements ctx [] rules {} log
  return ({ value := value
            description := optionalValueBuild b.description
            reference := optionalValueBuild b.reference
            metadata := ctx.stmt.metadata
            unknownStatements := unknowns }, log)

structure WhenBuilderState where
  description : List String := []
  reference : List String := []

/-- yang-ast-parser parseWhen. -/
def parseWhen (ctx : Context) (log : Log) : Except String (When × Log) := do
  let (xpath, log) := createBuilderName ctx log
  let rules : List (ParseRule WhenBuilderState) :=
    [ { kw := "description", stringValueBuilder :=
          some ⟨.optional, fun b v => { b with description := valueBuilderAdd b.description v }⟩ },
      { kw := "reference", stringValueBuilder :=
          some ⟨.optional, fun b v => { b with reference := valueBuilderAdd b.reference v }⟩ } ]
  let (unknowns, b, log) ← parseKeywordSubStatements ctx [] rules {} log
  return ({ xpath := xpath
            description := optionalValueBuild b.description
            reference := optionalValueBuild b.reference
            metadata := ctx.stmt.metadata
            unknownStatements := unknowns }, log)

structure MustBuilderState where
  errorAppTag : List String := []
  errorMessage : List String := []
  description : List String := []
  reference : List String := []

/-- yang-ast-parser parseMust. -/
def parseMust (ctx : Context) (log : Log) : Except String (Must × Log) := do
  let (xpath, log) := createBuilderName ctx log
  let rules : List (ParseRule MustBuilderState) :=
    [ { kw := "error-app-tag", stringValueBuilder :=
          some ⟨.optional, fun b v => { b with errorAppTag := valueBuilderAdd b.errorAppTag v }⟩ },
      { kw := "error-message", stringValueBuilder :=
          some ⟨.optional, fun b v => { b with errorMessage := valueBuilderAdd b.errorMessage v }⟩ },
      { kw := "description", stringValueBuilder :=
          some ⟨.optional, fun b v => { b with description := valueBuilderAdd b.description v }⟩ },
      { kw := "reference", stringValueBuilder :=
          some ⟨.optional, fun b v => { b with reference := valueBuilderAdd b.reference v }⟩ } ]
  let (unknowns, b, log) ← parseKeywordSubStatements ctx [] rules {} log
  return ({ xpath := xpath
            errorAppTag := optionalValueBuild b.errorAppTag
            errorMessage := optionalValueBuild b.errorMessage
            description := optionalValueBuild b.description
            reference := optionalValueBuild b.reference
            metadata := ctx.stmt.metadata
            unknownStatements := unknowns }, log)

structure ImportBuilderState where
  pfx : List String := []   -- TS field: prefix (a RequiredValueBuilder)
  revision : List String := []
  description : List String := []
  reference : List String := []

/-- yang-ast-parser parseImport. -/
def parseImport (ctx : Context) (log : Log) : Except String (Import × Log) := do
  let (identifier, log) := createBuilderName ctx log
  let rules : List (ParseRule ImportBuilderState) :=
    [ { kw := "prefix", stringValueBuilder :=
          some ⟨.required, fun b v => { b with pfx := valueBuilderAdd b.pfx v }⟩ },
      { kw := "revision", stringValueBuilder :=
          some ⟨.optional, fun b v => { b with revision := valueBuilderAdd b.revision v }⟩ },
      { kw := "description", stringValueBuilder :=
          some ⟨.optional, fun b v => { b with description := valueBuilderAdd b.description v }⟩ },
      { kw := "reference", stringValueBuilder :=
          some ⟨.optional, fun b v => { b with reference := valueBuilderAdd b.reference v }⟩ } ]
  let (unknowns, b, log) ← parseKeywordSubStatements ctx [] rules {} log
  return ({ identifier := identifier
            pfx := requiredValueBuild "" b.pfx
            revision := optionalValueBuild b.revision
            description := optionalValueBuild b.description
            reference := optionalValueBuild b.reference
            metadata := ctx.stmt.metadata
            unknownStatements := unknowns }, log)

structure IncludeBuilderState where
  revision : List String := []
  description : List String := []
  reference : List String := []

/-- yang-ast-parser parseInclude. -/
def parseInclude (ctx : Context) (log : Log) : Except String (Include × Log) := do
  let (identifier, log) := createBuilderName ctx log
  let rules : List (ParseRule IncludeBuilderState) :=
    [ { kw := "revision", stringValueBuilder :=
          some ⟨.optional, fun b v => { b with revision := valueBuilderAdd b.revision v }⟩ },
      { kw := "description", stringValueBuilder :=
          some ⟨.optional, fun b v => { b with description := valueBuilderAdd b.description v }⟩ },
      { kw := "reference", stringValueBuilder :=
          some ⟨.optional, fun b v => { b with reference := valueBuilderAdd b.reference v }⟩ } ]
  let (unknowns, b, log) ← parseKeywordSubStatements ctx [] rules {} log
  return ({ identifier := identifier
            revision := optionalValueBuild b.revision
            description := optionalValueBuild b.description
            reference := optionalValueBuild b.reference
            metadata := ctx.stmt.metadata
            unknownStatements := unknowns }, log)

structure ArgumentBuilderState where
  yinElement : List Bool := []

/-- yang-ast-parser parseArgument. -/
def parseArgument (ctx : Context) (log : Log) : Except String (Argument × Log) := do
  let (identifier, log) := createBuilderName ctx log
  let rules : List (ParseRule ArgumentBuilderState) :=
    [ { kw := "yin-element", booleanValueBuilder :=
          some ⟨.optional, fun b v => { b with yinElement := valueBuilderAdd b.yinElement v }⟩ } ]
  let (unknowns, b, log) ← parseKeywordSubStatements ctx [] rules {} log
  return ({ identifier := identifier
            yinElement := optionalValueBuild b.yinElement
            metadata := ctx.stmt.metadata
            unknownStatements := unknowns }, log)

structure ExtensionBuilderState where
  argument : List Argument := []   -- OptionalBuilder<Argument>
  status : List Status := []
  description : List String := []
  reference : List String := []

/-- yang-ast-parser parseExtension. -/
def parseExtension (ctx : Context) (log : Log) : Except String (Extension × Log) := do
  let (identifier, log) := createBuilderName ctx log
  let rules : List (ParseRule ExtensionBuilderState) :=
    [ { kw := "argument", parseZeroOrOne := some (fun ctx s log =>
          (parseArgument ctx log).map (fun r =>
            ({ s with argument := valueBuilderAdd s.argument r.1 }, r.2))) },
      { kw := "status", statusValueBuilder :=
          some ⟨.optional, fun b v => { b with status := valueBuilderAdd b.status v }⟩ },
      { kw := "description", stringValueBuilder :=
          some ⟨.optional, fun b v => { b with description := valueBuilderAdd b.description v }⟩ },
      { kw := "reference", stringValueBuilder :=
          some ⟨.optional, fun b v => { b with reference := valueBuilderAdd b.reference v }⟩ } ]
  let (unknowns, b, log) ← parseKeywordSubStatements ctx [] rules {} log
  return ({ identifier := identifier
            argument := optionalBuilderBuild b.argument
            status := optionalValueBuild b.status
            description := optionalValueBuild b.description
            reference := optionalValueBuild b.reference
            metadata := ctx.stmt.metadata
            unknownStatements := unknowns }, log)

structure FeatureBuilderState where
  ifFeatures : List String := []
  status : List Status := []
  description : List String := []
  reference : List String := []

/-- yang-ast-parser parseFeature. -/
def parseFeature (ctx : Context) (log : Log) : Except String (Feature × Log) := do
  let (identifier, log) := createBuilderName ctx log
  let rules : List (ParseRule FeatureBuilderState) :=
    [ { kw := "if-feature", stringValueBuilder :=
          some ⟨.multi, fun b v => { b with ifFeatures := valueBuilderAdd b.ifFeatures v }⟩ },
      { kw := "status", statusValueBuilder :=
          some ⟨.optional, fun b v => { b with status := valueBuilderAdd b.status v }⟩ },
      { kw := "description", stringValueBuilder :=
          some ⟨.optional, fun b v => { b with description := valueBuilderAdd b.description v }⟩ },
      { kw := "reference", stringValueBuilder :=
          some ⟨.optional, fun b v => { b with reference := valueBuilderAdd b.reference v }⟩ } ]
  let (unknowns, b, log) ← parseKeywordSubStatements ctx [] rules {} log
  return ({ identifier := identifier
            ifFeatures := multiValueBuild b.ifFeatures
            status := optionalValueBuild b.status
            description := optionalValueBuild b.description
            reference := optionalValueBuild b.reference
            metadata := ctx.stmt.metadata
            unknownStatements := unknowns }, log)

structure IdentityBuilderState where
  bases : List String := []
  ifFeatures : List String := []
  status : List Status := []
  description : List String := []
  reference : List String := []

/-- yang-ast-parser parseIdentity. -/
def parseIdentity (ctx : Context) (log : Log) : Except String (Identity × Log) := do
  let (identifier, log) := createBuilderName ctx log
  let rules : List (ParseRule IdentityBuilderState) :=
    [ { kw := "base", stringValueBuilder :=
          some ⟨.multi, fun b v => { b with bases := valueBuilderAdd b.bases v }⟩ },
      { kw := "if-feature", stringValueBuilder :=
          some ⟨.multi, fun b v => { b with ifFeatures := valueBuilderAdd b.ifFeatures v }⟩ },
      { kw := "status", statusValueBuilder :=
          some ⟨.optional, fun b v => { b with status := valueBuilderAdd b.status v }⟩ },
      { kw := "description", stringValueBuilder :=
          some ⟨.optional, fun b v => { b with description := valueBuilderAdd b.description v }⟩ },
      { kw := "reference", stringValueBuilder :=
          some ⟨.optional, fun b v => { b with reference := valueBuilderAdd b.reference v }⟩ } ]
  let (unknowns, b, log) ← parseKeywordSubStatements ctx [] rules {} log
  return ({ identifier := identifier
            bases := multiValueBuild b.bases
            ifFeatures := multiValueBuild b.ifFeatures
            status := optionalValueBuild b.status
            description := optionalValueBuild b.description
            reference := optionalValueBuild b.reference
            metadata := ctx.stmt.metadata
            unknownStatements := unknowns }, log)

structure EnumBuilderState where
  value : List Int := []   -- RequiredValueBuilder<number>(0)
  status : List Status := []
  reference : List String := []
  description : List String := []

/-- yang-ast-parser parseEnum: returns the built enum and `nextEnumValue`.
An unset explicit value is filled with the current counter; the next value
is the (explicit or filled) value plus one. -/
def parseEnum (ctx : Context) (currentEnumValue : Int) (log : Log) :
    Except String (Enum × Int × Log) := do
  let (name, log) := createBuilderName ctx log
  let rules : List (ParseRule EnumBuilderState) :=
    [ { kw := "value", numberValueBuilder :=
          some ⟨.required, fun b v => { b with value := valueBuilderAdd b.value v }⟩ },
      { kw := "status", statusValueBuilder :=
          some ⟨.optional, fun b v => { b with status := valueBuilderAdd b.status v }⟩ },
      { kw := "description", stringValueBuilder :=
          some ⟨.optional, fun b v => { b with description := valueBuilderAdd b.description v }⟩ },
      { kw := "reference", stringValueBuilder :=
          some ⟨.optional, fun b v => { b with reference := valueBuilderAdd b.reference v }⟩ } ]
  let (unknowns, b, log) ← parseKeywordSubStatements ctx [] rules {} log
  let b := if ¬requiredValueIsSet b.value then
      { b with value := valueBuilderAdd b.value currentEnumValue }
    else b
  let nextEnumValue := requiredValueGet 0 b.value + 1
  return (({ name := name
             value := requiredValueBuild 0 b.value
             status := optionalValueBuild b.status
             description := optionalValueBuild b.description
             reference := optionalValueBuild b.reference
             metadata := ctx.stmt.metadata
             unknownStatements := unknowns } : Enum), nextEnumValue, log)

structure BitBuilderState where
  ifFeatures : List String := []
  position : List Int := []   -- RequiredValueBuilder<number>(0)
  status : List Status := []
  reference : List String := []
  description : List String := []

/-- yang-ast-parser parseBit: returns the built bit and `nextPosition`. -/
def parseBit (ctx : Context) (currentPosition : Int) (log : Log) :
    Except String (Bit × Int × Log) := do
  let (identifier, log) := createBuilderName ctx log
  let rules : List (ParseRule BitBuilderState) :=
    [ { kw := "position", numberValueBuilder :=
          some ⟨.required, fun b v => { b with position := valueBuilderAdd b.position v }⟩ },
      { kw := "if-feature", stringValueBuilder :=
          some ⟨.multi, fun b v => { b with ifFeatures := valueBuilderAdd b.ifFeatures v }⟩ },
      { kw := "status", statusValueBuilder :=
          some ⟨.optional, fun b v => { b with status := valueBuilderAdd b.status v }⟩ },
      { kw := "description", stringValueBuilder :=
          some ⟨.optional, fun b v => { b with description := valueBuilderAdd b.description v }⟩ },
      { kw := "reference", stringValueBuilder :=
          some ⟨.optional, fun b v => { b with reference := valueBuilderAdd b.reference v }⟩ } ]
  let (unknowns, b, log) ← parseKeywordSubStatements ctx [] rules {} log
  let b := if ¬requiredValueIsSet b.position then
      { b with position := valueBuilderAdd b.position currentPosition }
    else b
  let nextPosition := requiredValueGet 0 b.position + 1
  return (({ identifier := identifier
             position := requiredValueBuild 0 b.position
             ifFeatures := multiValueBuild b.ifFeatures
             status := optionalValueBuild b.status
             description := optionalValueBuild b.description
             reference := optionalValueBuild b.reference
             metadata := ctx.stmt.metadata
             unknownStatements := unknowns } : Bit), nextPosition, log)

structure PatternBuilderState where
  modifier : List PatternModifier := []
  errorAppTag : List String := []
  errorMessage : List String := []
  reference : List String := []
  description : List String := []

/-- yang-ast-parser parsePattern. -/
def parsePattern (ctx : Context) (log : Log) : Except String (Pattern × Log) := do
  let (specification, log) := createBuilderName ctx log
  let rules : List (ParseRule PatternBuilderState) :=
    [ { kw := "modifier", patternModifierBuilder :=
          some ⟨.optional, fun b v => { b with modifier := valueBuilderAdd b.modifier v }⟩ },
      { kw := "error-app-tag", stringValueBuilder :=
          some ⟨.optional, fun b v => { b with errorAppTag := valueBuilderAdd b.errorAppTag v }⟩ },
      { kw := "error-message", stringValueBuilder :=
          some ⟨.optional, fun b v => { b with errorMessage := valueBuilderAdd b.errorMessage v }⟩ },
      { kw := "description", stringValueBuilder :=
          some ⟨.optional, fun b v => { b with description := valueBuilderAdd b.description v }⟩ },
      { kw := "reference", stringValueBuilder :=
          some ⟨.optional, fun b v => { b with reference := valueBuilderAdd b.reference v }⟩ } ]
  let (unknowns, b, log) ← parseKeywordSubStatements ctx [] rules {} log
  return ({ specification := specification
            modifier := optionalValueBuild b.modifier
            errorAppTag := optionalValueBuild b.errorAppTag
            errorMessage := optionalValueBuild b.errorMessage
            description := optionalValueBuild b.description
            reference := optionalValueBuild b.reference
            metadata := ctx.stmt.metadata
            unknownStatements := unknowns }, log)

/-! ### Length and range specifications (yang-ast-parser.ts lines 481-669) -/

/-- yang-ast-parser parseLengthBoundary: `min`, `max` or a non-negative
integer (`parseInt`; `NaN` or a negative value records an error and yields
`none`, the TS `undefined`). -/
def parseLengthBoundary (str : String) (ctx : Context) (log : Log) : Option Boundary × Log :=
  if toLowerJS str = "min" then (some .bmin, log)
  else if toLowerJS str = "max" then (some .bmax, log)
  else
    match parseIntJS str with
    | some num =>
      if num < 0 then
        (none, ctx.addError ("Invalid boundary number '" ++ str ++
          "' in length statement '" ++ ctx.name ++ "'.") log)
      else (some (.num num), log)
    | none =>
      (none, ctx.addError ("Invalid boundary number '" ++ str ++
        "' in length statement '" ++ ctx.name ++ "'.") log)

/-- yang-ast-parser parseLengthSpecification on one `|`-separated part.
The result distinguishes the TS `undefined` (dropped part, `none`) from a
parsed specification. The inner upper bound is `Option (Option Boundary)`:
the outer layer is the TS `undefined` (parse failure), the inner the TS
`null` (no `..`). -/
def parseLengthSpecification (part : String) (ctx : Context) (log : Log) :
    Option LengthSpecification × Log :=
  let boundaries := splitOnJS part ".."
  if boundaries.length = 0 ∨ boundaries.length > 2 then
    (none, ctx.addError ("Invalid length part '" ++ part ++
      "' for length statement in '" ++ ctx.name ++ "'.") log)
  else
    let (lowerBound, log) := parseLengthBoundary (boundaries.headD "") ctx log
    let (upperBound, log) : Option (Option Boundary) × Log :=
      if boundaries.length = 2 then
        let (u, log) := parseLengthBoundary ((boundaries.drop 1).headD "") ctx log
        (u.map some, log)
      else (some none, log)
    match lowerBound, upperBound with
    | some lb, some upper =>
      match upper with
      | some ub =>
        match lb, ub with
        | .num lo, .num hi =>
          if lo > hi then
            (none, ctx.addError ("Invalid interval '" ++ part ++
              "' for length statement in '" ++ ctx.name ++ "' (min mustn't > max).") log)
          else (some { lowerBound := lb, upperBound := some ub }, log)
        | .bmax, ub =>
          if ub ≠ .bmax then
            (none, ctx.addError ("Invalid interval '" ++ part ++
              "' for length statement in '" ++ ctx.name ++ "' (min mustn't > max).") log)
          else (some { lowerBound := .bmax, upperBound := some ub }, log)
        | _, _ => (some { lowerBound := lb, upperBound := some ub }, log)
      | none => (some { lowerBound := lb, upperBound := none }, log)
    | _, _ => (none, log)

/-- yang-ast-parser parseLengthSpecifications: split at `|`, parse each
trimmed part, drop malformed parts. -/
def parseLengthSpecifications (specs : String) (ctx : Context) (log : Log) :
    List LengthSpecification × Log :=
  (splitOnJS specs "|").foldl
    (fun acc part =>
      let (specOpt, log) := parseLengthSpecification (trimJS part) ctx acc.2
      match specOpt with
      | some s => (acc.1 ++ [s], log)
      | none => (acc.1, log))
    ([], log)

structure LengthBuilderState where
  errorAppTag : List String := []
  errorMessage : List String := []
  reference : List String := []
  description : List String := []

/-- yang-ast-parser parseLength. -/
def parseLength (ctx : Context) (log : Log) : Except String (Length × Log) := do
  let (lengthSpecifications, log) :=
    match ctx.stmt.arg with
    | some a =>
      if trimJS a = "" then
        (([] : List LengthSpecification),
          ctx.addError ("Expected a non-empty string argument for statement '" ++
            fqKeyword ctx.stmt ++ "' in " ++ ctx.name ++ ".") log)
      else parseLengthSpecifications (trimJS a) ctx log
    | none =>
      (([] : List LengthSpecification),
        ctx.addError ("Expected a non-empty string argument for statement '" ++
          fqKeyword ctx.stmt ++ "' in " ++ ctx.name ++ ".") log)
  let rules : List (ParseRule LengthBuilderState) :=
    [ { kw := "error-app-tag", stringValueBuilder :=
          some ⟨.optional, fun b v => { b with errorAppTag := valueBuilderAdd b.errorAppTag v }⟩ },
      { kw := "error-message", stringValueBuilder :=
          some ⟨.optional, fun b v => { b with errorMessage := valueBuilderAdd b.errorMessage v }⟩ },
      { kw := "description", stringValueBuilder :=
          some ⟨.optional, fun b v => { b with description := valueBuilderAdd b.description v }⟩ },
      { kw := "reference", stringValueBuilder :=
          some ⟨.optional, fun b v => { b with reference := valueBuilderAdd b.reference v }⟩ } ]
  let (unknowns, b, log) ← parseKeywordSubStatements ctx [] rules {} log
  return ({ specifications := lengthSpecifications
            errorAppTag := optionalValueBuild b.errorAppTag
            errorMessage := optionalValueBuild b.errorMessage
            description := optionalValueBuild b.description
            reference := optionalValueBuild b.reference
            metadata := ctx.stmt.metadata
            unknownStatements := unknowns }, log)

/-- yang-ast-parser parseRangeBoundary: `min`, `max` or a `parseFloat`
number (any sign). -/
def parseRangeBoundary (str : String) (ctx : Context) (log : Log) : Option Boundary × Log :=
  if toLowerJS str = "min" then (some .bmin, log)
  else if toLowerJS str = "max" then (some .bmax, log)
  else
    match parseFloatJS str with
    | some num => (some (.num num), log)
    | none =>
      (none, ctx.addError ("Invalid boundary number '" ++ str ++
        "' in range statement '" ++ ctx.name ++ "'.") log)

/-- yang-ast-parser parseRangeSpecification (same shape as the length
variant, with `range statement` messages and parseFloat boundaries). -/
def parseRangeSpecification (part : String) (ctx : Context) (log : Log) :
    Option RangeSpecification × Log :=
  let boundaries := splitOnJS part ".."
  if boundaries.length = 0 ∨ boundaries.length > 2 then
    (none, ctx.addError ("Invalid range part '" ++ part ++
      "' for range statement in '" ++ ctx.name ++ "'.") log)
  else
    let (lowerBound, log) := parseRangeBoundary (boundaries.headD "") ctx log
    let (upperBound, log) : Option (Option Boundary) × Log :=
      if boundaries.length = 2 then
        let (u, log) := parseRangeBoundary ((boundaries.drop 1).headD "") ctx log
        (u.map some, log)
      else (some none, log)
    match lowerBound, upperBound with
    | some lb, some upper =>
      match upper with
      | some ub =>
        match lb, ub with
        | .num lo, .num hi =>
          if lo > hi then
            (none, ctx.addError ("Invalid interval '" ++ part ++
              "' for range statement in '" ++ ctx.name ++ "' (min mustn't > max).") log)
          else (some { lowerBound := lb, upperBound := some ub }, log)
        | .bmax, ub =>
          if ub ≠ .bmax then
            (none, ctx.addError ("Invalid interval '" ++ part ++
              "' for range statement in '" ++ ctx.name ++ "' (min mustn't > max).") log)
          else (some { lowerBound := .bmax, upperBound := some ub }, log)
        | _, _ => (some { lowerBound := lb, upperBound := some ub }, log)
      | none => (some { lowerBound := lb, upperBound := none }, log)
    | _, _ => (none, log)

/-- yang-ast-parser parseRangeSpecifications. -/
def parseRangeSpecifications (specs : String) (ctx : Context) (log : Log) :
    List RangeSpecification × Log :=
  (splitOnJS specs "|").foldl
    (fun acc part =>
      let (specOpt, log) := parseRangeSpecification (trimJS part) ctx acc.2
      match specOpt with
      | some s => (acc.1 ++ [s], log)
      | none => (acc.1, log))
    ([], log)

structure RangeBuilderState where
  errorAppTag : List String := []
  errorMessage : List String := []
  reference : List String := []
  description : List String := []

/-- yang-ast-parser parseRange. -/
def parseRange (ctx : Context) (log : Log) : Except String (Range × Log) := do
  let (rangeSpecifications, log) :=
    match ctx.stmt.arg with
    | some a =>
      if trimJS a = "" then
        (([] : List RangeSpecification),
          ctx.addError ("Expected a non-empty string argument for statement '" ++
            fqKeyword ctx.stmt ++ "' in " ++ ctx.name ++ ".") log)
      else parseRangeSpecifications (trimJS a) ctx log
    | none =>
      (([] : List RangeSpecification),
        ctx.addError ("Expected a non-empty string argument for statement '" ++
          fqKeyword ctx.stmt ++ "' in " ++ ctx.name ++ ".") log)
  let rules : List (ParseRule RangeBuilderState) :=
    [ { kw := "error-app-tag", stringValueBuilder :=
          some ⟨.optional, fun b v => { b with errorAppTag := valueBuilderAdd b.errorAppTag v }⟩ },
      { kw := "error-message", stringValueBuilder :=
          some ⟨.optional, fun b v => { b with errorMessage := valueBuilderAdd b.errorMessage v }⟩ },
      { kw := "description", stringValueBuilder :=
          some ⟨.optional, fun b v => { b with description := valueBuilderAdd b.description v }⟩ },
      { kw := "reference", stringValueBuilder :=
          some ⟨.optional, fun b v => { b with reference := valueBuilderAdd b.reference v }⟩ } ]
  let (unknowns, b, log) ← parseKeywordSubStatements ctx [] rules {} log
  return ({ specifications := rangeSpecifications
            errorAppTag := optionalValueBuild b.errorAppTag
            errorMessage := optionalValueBuild b.errorMessage
            description := optionalValueBuild b.description
            reference := optionalValueBuild b.reference
            metadata := ctx.stmt.metadata
            unknownStatements := unknowns }, log)

/-! ### Type, typedef, refine, deviation and the leaf-like nodes -/

/-- yang-ast-builders invalidType: the sentinel Type of a RequiredBuilder. -/
def invalidType (ctx : Context) : YType :=
  .mk "__invalid__" none none none [] none [] [] [] [] none ctx.stmt.metadata []

/-- The state of parseType: the TypeBuilder fields plus the two local
auto-increment counters that the TS closure mutates across siblings. -/
structure TypeParseState where
  range : List Range := []           -- OptionalBuilder<Range>
  fractionDigits : List Int := []
  length : List Length := []         -- OptionalBuilder<Length>
  patterns : List Pattern := []
  path : List String := []
  bits : List Bit := []
  enums : List Enum := []
  bases : List String := []          -- MultiValueBuilder<string>
  unionTypes : List YType := []
  requireInstance : List Bool := []
  currentBitPosition : Int := 0
  currentEnumValue : Int := 0

/-- yang-ast-parser parseType. The `bit` and `enum` handlers thread the
auto-increment counters; the `type` handler recurses into union member
types (hence the fuel). -/
def parseType : Nat → Context → Log → Except String (YType × Log)
  | 0, ctx, _ => .error ("out of fuel in '" ++ ctx.name ++ "'")
  | fuel + 1, ctx, log => do
    let (identifier, log) := createBuilderName ctx log
    let rules : List (ParseRule TypeParseState) :=
      [ { kw := "range", parseZeroOrMore := some (fun ctx s log =>
            (parseRange ctx log).map (fun r =>
              ({ s with range := valueBuilderAdd s.range r.1 }, r.2))) },
        { kw := "fraction-digits", numberValueBuilder :=
            some ⟨.optional, fun b v => { b with fractionDigits := valueBuilderAdd b.fractionDigits v }⟩ },
        { kw := "length", parseZeroOrOne := some (fun ctx s log =>
            (parseLength ctx log).map (fun r =>
              ({ s with length := valueBuilderAdd s.length r.1 }, r.2))) },
        { kw := "pattern", parseZeroOrMore := some (fun ctx s log =>
            (parsePattern ctx log).map (fun r =>
              ({ s with patterns := s.patterns ++ [r.1] }, r.2))) },
        { kw := "path", stringValueBuilder :=
            some ⟨.optional, fun b v => { b with path := valueBuilderAdd b.path v }⟩ },
        { kw := "bit", parseZeroOrMore := some (fun ctx s log =>
            (parseBit ctx s.currentBitPosition log).map (fun r =>
              ({ s with bits := s.bits ++ [r.1], currentBitPosition := r.2.1 }, r.2.2))) },
        { kw := "enum", parseZeroOrMore := some (fun ctx s log =>
            (parseEnum ctx s.currentEnumValue log).map (fun r =>
              ({ s with enums := s.enums ++ [r.1], currentEnumValue := r.2.1 }, r.2.2))) },
        { kw := "base", stringValueBuilder :=
            some ⟨.multi, fun b v => { b with bases := valueBuilderAdd b.bases v }⟩ },
        { kw := "type", parseZeroOrMore := some (fun ctx s log =>
            (parseType fuel ctx log).map (fun r =>
              ({ s with unionTypes := s.unionTypes ++ [r.1] }, r.2))) },
        { kw := "require-instance", booleanValueBuilder :=
            some ⟨.optional, fun b v => { b with requireInstance := valueBuilderAdd b.requireInstance v }⟩ } ]
    let (unknowns, b, log) ← parseKeywordSubStatements ctx [] rules {} log
    return (YType.mk identifier (optionalBuilderBuild b.range)
      (optionalValueBuild b.fractionDigits) (optionalBuilderBuild b.length)
      b.patterns (optionalValueBuild b.path) b.bits b.enums
      (multiValueBuild b.bases) b.unionTypes (optionalValueBuild b.requireInstance)
      ctx.stmt.metadata unknowns, log)

structure TypedefBuilderState where
  type : List YType := []   -- RequiredBuilder<Type>(invalidType)
  units : List String := []
  dflt : List String := []   -- TS field: default
  status : List Status := []
  reference : List String := []
  description : List String := []

/-- yang-ast-parser parseTypedef. -/
def parseTypedef (fuel : Nat) (ctx : Context) (log : Log) : Except String (Typedef × Log) := do
  let (identifier, log) := createBuilderName ctx log
  let rules : List (ParseRule TypedefBuilderState) :=
    [ { kw := "type", parseOne := some (fun ctx s log =>
          (parseType fuel ctx log).map (fun r =>
            ({ s with type := valueBuilderAdd s.type r.1 }, r.2))) },
      { kw := "units", stringValueBuilder :=
          some ⟨.optional, fun b v => { b with units := valueBuilderAdd b.units v }⟩ },
      { kw := "default", stringValueBuilder :=
          some ⟨.optional, fun b v => { b with dflt := valueBuilderAdd b.dflt v }⟩ },
      { kw := "status", statusValueBuilder :=
          some ⟨.optional, fun b v => { b with status := valueBuilderAdd b.status v }⟩ },
      { kw := "description", stringValueBuilder :=
          some ⟨.optional, fun b v => { b with description := valueBuilderAdd b.description v }⟩ },
      { kw := "reference", stringValueBuilder :=
          some ⟨.optional, fun b v => { b with reference := valueBuilderAdd b.reference v }⟩ } ]
  let (unknowns, b, log) ← parseKeywordSubStatements ctx [] rules {} log
  return ({ identifier := identifier
            type := requiredBuilderBuild (invalidType ctx) b.type
            units := optionalValueBuild b.units
            dflt := optionalValueBuild b.dflt
            status := optionalValueBuild b.status
            description := optionalValueBuild b.description
            reference := optionalValueBuild b.reference
            metadata := ctx.stmt.metadata
            unknownStatements := unknowns }, log)

structure RefineBuilderState where
  ifFeatures : List String := []
  musts : List Must := []
  presence : List String := []
  defaults : List String := []   -- MultiValueBuilder<string>
  config : List Bool := []
  mandatory : List Bool := []
  minElements : List Int := []
  maxElements : List Int := []
  description : List String := []
  reference : List String := []

/-- yang-ast-parser parseRefine. -/
def parseRefine (ctx : Context) (log : Log) : Except String (Refine × Log) := do
  let (target, log) := createBuilderName ctx log
  let rules : List (ParseRule RefineBuilderState) :=
    [ { kw := "if-feature", stringValueBuilder :=
          some ⟨.multi, fun b v => { b with ifFeatures := valueBuilderAdd b.ifFeatures v }⟩ },
      { kw := "must", parseZeroOrMore := some (fun ctx s log =>
          (parseMust ctx log).map (fun r => ({ s with musts := s.musts ++ [r.1] }, r.2))) },
      { kw := "presence", stringValueBuilder :=
          some ⟨.optional, fun b v => { b with presence := valueBuilderAdd b.presence v }⟩ },
      { kw := "default", stringValueBuilder :=
          some ⟨.multi, fun b v => { b with defaults := valueBuilderAdd b.defaults v }⟩ },
      { kw := "config", booleanValueBuilder :=
          some ⟨.optional, fun b v => { b with config := valueBuilderAdd b.config v }⟩ },
      { kw := "mandatory", booleanValueBuilder :=
          some ⟨.optional, fun b v => { b with mandatory := valueBuilderAdd b.mandatory v }⟩ },
      { kw := "min-elements", numberValueBuilder :=
          some ⟨.optional, fun b v => { b with minElements := valueBuilderAdd b.minElements v }⟩ },
      { kw := "max-elements", numberValueBuilder :=
          some ⟨.optional, fun b v => { b with maxElements := valueBuilderAdd b.maxElements v }⟩ },
      { kw := "description", stringValueBuilder :=
          some ⟨.optional, fun b v => { b with description := valueBuilderAdd b.description v }⟩ },
      { kw := "reference", stringValueBuilder :=
          some ⟨.optional, fun b v => { b with reference := valueBuilderAdd b.reference v }⟩ } ]
  let (unknowns, b, log) ← parseKeywordSubStatements ctx [] rules {} log
  return ({ target := target
            ifFeatures := multiValueBuild b.ifFeatures
            musts := b.musts
            presence := optionalValueBuild b.presence
            defaults := multiValueBuild b.defaults
            config := optionalValueBuild b.config
            mandatory := optionalValueBuild b.mandatory
            minElements := optionalValueBuild b.minElements
            maxElements := optionalValueBuild b.maxElements
            description := optionalValueBuild b.description
            reference := optionalValueBuild b.reference
            metadata := ctx.stmt.metadata
            unknownStatements := unknowns }, log)

structure DeviationItemBuilderState where
  units : List String := []
  musts : List Must := []
  uniques : List String := []
  defaults : List String := []
  config : List Bool := []
  mandatory : List Bool := []
  minElements : List Int := []
  maxElements : List Int := []
  type : List YType := []   -- OptionalBuilder<Type>

/-- yang-ast-parser parseDeviationItem. -/
def parseDeviationItem (fuel : Nat) (ctx : Context) (log : Log) :
    Except String (DeviationItem × Log) := do
  let (code, log) := createBuilderName ctx log
  let rules : List (ParseRule DeviationItemBuilderState) :=
    [ { kw := "units", stringValueBuilder :=
          some ⟨.optional, fun b v => { b with units := valueBuilderAdd b.units v }⟩ },
      { kw := "must", parseZeroOrMore := some (fun ctx s log =>
          (parseMust ctx log).map (fun r => ({ s with musts := s.musts ++ [r.1] }, r.2))) },
      { kw := "unique", stringValueBuilder :=
          some ⟨.multi, fun b v => { b with uniques := valueBuilderAdd b.uniques v }⟩ },
      { kw := "default", stringValueBuilder :=
          some ⟨.multi, fun b v => { b with defaults := valueBuilderAdd b.defaults v }⟩ },
      { kw := "config", booleanValueBuilder :=
          some ⟨.optional, fun b v => { b with config := valueBuilderAdd b.config v }⟩ },
      { kw := "mandatory", booleanValueBuilder :=
          some ⟨.optional, fun b v => { b with mandatory := valueBuilderAdd b.mandatory v }⟩ },
      { kw := "min-elements", numberValueBuilder :=
          some ⟨.optional, fun b v => { b with minElements := valueBuilderAdd b.minElements v }⟩ },
      { kw := "max-elements", numberValueBuilder :=
          some ⟨.optional, fun b v => { b with maxElements := valueBuilderAdd b.maxElements v }⟩ },
      { kw := "type", parseZeroOrOne := some (fun ctx s log =>
          (parseType fuel ctx log).map (fun r =>
            ({ s with type := valueBuilderAdd s.type r.1 }, r.2))) } ]
  let (unknowns, b, log) ← parseKeywordSubStatements ctx [] rules {} log
  return ({ code := code
            units := optionalValueBuild b.units
            musts := b.musts
            uniques := multiValueBuild b.uniques
            defaults := multiValueBuild b.defaults
            config := optionalValueBuild b.config
            mandatory := optionalValueBuild b.mandatory
            minElements := optionalValueBuild b.minElements
            maxElements := optionalValueBuild b.maxElements
            type := optionalBuilderBuild b.type
            metadata := ctx.stmt.metadata
            unknownStatements := unknowns }, log)

structure DeviationBuilderState where
  description : List String := []
  reference : List String := []
  items : List DeviationItem := []

/-- yang-ast-parser parseDeviation. -/
def parseDeviation (fuel : Nat) (ctx : Context) (log : Log) :
    Except String (Deviation × Log) := do
  let (target, log) := createBuilderName ctx log
  let rules : List (ParseRule DeviationBuilderState) :=
    [ { kw := "description", stringValueBuilder :=
          some ⟨.optional, fun b v => { b with description := valueBuilderAdd b.description v }⟩ },
      { kw := "reference", stringValueBuilder :=
          some ⟨.optional, fun b v => { b with reference := valueBuilderAdd b.reference v }⟩ },
      { kw := "deviate", parseZeroOrMore := some (fun ctx s log =>
          (parseDeviationItem fuel ctx log).map (fun r =>
            ({ s with items := s.items ++ [r.1] }, r.2))) } ]
  let (unknowns, b, log) ← parseKeywordSubStatements ctx [] rules {} log
  return ({ target := target
            description := optionalValueBuild b.description
            reference := optionalValueBuild b.reference
            items := b.items
            metadata := ctx.stmt.metadata
            unknownStatements := unknowns }, log)

structure LeafBuilderState where
  when : List When := []   -- OptionalBuilder<When>
  ifFeatures : List String := []
  type : List YType := []   -- RequiredBuilder<Type>(invalidType)
  units : List String := []
  musts : List Must := []
  dflt : List String := []   -- TS field: default
  config : List Bool := []
  mandatory : List Bool := []
  status : List Status := []
  description : List String := []
  reference : List String := []

/-- yang-ast-parser parseLeaf. -/
def parseLeaf (fuel : Nat) (ctx : Context) (log : Log) : Except String (Leaf × Log) := do
  let (identifier, log) := createBuilderName ctx log
  let rules : List (ParseRule LeafBuilderState) :=
    [ { kw := "when", parseZeroOrOne := some (fun ctx s log =>
          (parseWhen ctx log).map (fun r =>
            ({ s with when := valueBuilderAdd s.when r.1 }, r.2))) },
      { kw := "if-feature", stringValueBuilder :=
          some ⟨.multi, fun b v => { b with ifFeatures := valueBuilderAdd b.ifFeatures v }⟩ },
      { kw := "type", parseOne := some (fun ctx s log =>
          (parseType fuel ctx log).map (fun r =>
            ({ s with type := valueBuilderAdd s.type r.1 }, r.2))) },
      { kw := "units", stringValueBuilder :=
          some ⟨.optional, fun b v => { b with units := valueBuilderAdd b.units v }⟩ },
      { kw := "must", parseZeroOrMore := some (fun ctx s log =>
          (parseMust ctx log).map (fun r => ({ s with musts := s.musts ++ [r.1] }, r.2))) },
      { kw := "default", stringValueBuilder :=
          some ⟨.optional, fun b v => { b with dflt := valueBuilderAdd b.dflt v }⟩ },
      { kw := "config", booleanValueBuilder :=
          some ⟨.optional, fun b v => { b with config := valueBuilderAdd b.config v }⟩ },
      { kw := "mandatory", booleanValueBuilder :=
          some ⟨.optional, fun b v => { b with mandatory := valueBuilderAdd b.mandatory v }⟩ },
      { kw := "status", statusValueBuilder :=
          some ⟨.optional, fun b v => { b with status := valueBuilderAdd b.status v }⟩ },
      { kw := "description", stringValueBuilder :=
          some ⟨.optional, fun b v => { b with description := valueBuilderAdd b.description v }⟩ },
      { kw := "reference", stringValueBuilder :=
          some ⟨.optional, fun b v => { b with reference := valueBuilderAdd b.reference v }⟩ } ]
  let (unknowns, b, log) ← parseKeywordSubStatements ctx [] rules {} log
  return ({ identifier := identifier
            when := optionalBuilderBuild b.when
            ifFeatures := multiValueBuild b.ifFeatures
            type := requiredBuilderBuild (invalidType ctx) b.type
            units := optionalValueBuild b.units
            musts := b.musts
            dflt := optionalValueBuild b.dflt
            config := optionalValueBuild b.config
            mandatory := optionalValueBuild b.mandatory
            status := optionalValueBuild b.status
            description := optionalValueBuild b.description
            reference := optionalValueBuild b.reference
            metadata := ctx.stmt.metadata
            unknownStatements := unknowns }, log)

structure LeafListBuilderState where
  when : List When := []
  ifFeatures : List String := []
  type : List YType := []
  units : List String := []
  musts : List Must := []
  dflt : List String := []   -- TS field: default (a MultiValueBuilder)
  config : List Bool := []
  minElements : List Int := []
  maxElements : List Int := []
  orderedBy : List String := []
  status : List Status := []
  description : List String := []
  reference : List String := []

/-- yang-ast-parser parseLeafList. -/
def parseLeafList (fuel : Nat) (ctx : Context) (log : Log) : Except String (LeafList × Log) := do
  let (identifier, log) := createBuilderName ctx log
  let rules : List (ParseRule LeafListBuilderState) :=
    [ { kw := "when", parseZeroOrOne := some (fun ctx s log =>
          (parseWhen ctx log).map (fun r =>
            ({ s with when := valueBuilderAdd s.when r.1 }, r.2))) },
      { kw := "if-feature", stringValueBuilder :=
          some ⟨.multi, fun b v => { b with ifFeatures := valueBuilderAdd b.ifFeatures v }⟩ },
      { kw := "type", parseOne := some (fun ctx s log =>
          (parseType fuel ctx log).map (fun r =>
            ({ s with type := valueBuilderAdd s.type r.1 }, r.2))) },
      { kw := "units", stringValueBuilder :=
          some ⟨.optional, fun b v => { b with units := valueBuilderAdd b.units v }⟩ },
      { kw := "must", parseZeroOrMore := some (fun ctx s log =>
          (parseMust ctx log).map (fun r => ({ s with musts := s.musts ++ [r.1] }, r.2))) },
      { kw := "default", stringValueBuilder :=
          some ⟨.multi, fun b v => { b with dflt := valueBuilderAdd b.dflt v }⟩ },
      { kw := "config", booleanValueBuilder :=
          some ⟨.optional, fun b v => { b with config := valueBuilderAdd b.config v }⟩ },
      { kw := "min-elements", numberValueBuilder :=
          some ⟨.optional, fun b v => { b with minElements := valueBuilderAdd b.minElements v }⟩ },
      { kw := "max-elements", numberValueBuilder :=
          some ⟨.optional, fun b v => { b with maxElements := valueBuilderAdd b.maxElements v }⟩ },
      { kw := "ordered-by", stringValueBuilder :=
          some ⟨.optional, fun b v => { b with orderedBy := valueBuilderAdd b.orderedBy v }⟩ },
      { kw := "status", statusValueBuilder :=
          some ⟨.optional, fun b v => { b with status := valueBuilderAdd b.status v }⟩ },
      { kw := "description", stringValueBuilder :=
          some ⟨.optional, fun b v => { b with description := valueBuilderAdd b.description v }⟩ },
      { kw := "reference", stringValueBuilder :=
          some ⟨.optional, fun b v => { b with reference := valueBuilderAdd b.reference v }⟩ } ]
  let (unknowns, b, log) ← parseKeywordSubStatements ctx [] rules {} log
  return ({ identifier := identifier
            when := optionalBuilderBuild b.when
            ifFeatures := multiValueBuild b.ifFeatures
            type := requiredBuilderBuild (invalidType ctx) b.type
            units := optionalValueBuild b.units
            musts := b.musts
            dflt := multiValueBuild b.dflt
            config := optionalValueBuild b.config
            minElements := optionalValueBuild b.minElements
            maxElements := optionalValueBuild b.maxElements
            orderedBy := optionalValueBuild b.orderedBy
            status := optionalValueBuild b.status
            description := optionalValueBuild b.description
            reference := optionalValueBuild b.reference
            metadata := ctx.stmt.metadata
            unknownStatements := unknowns }, log)

structure AnyDataBuilderState where
  when : List When := []
  ifFeatures : List String := []
  musts : List Must := []
  config : List Bool := []
  mandatory : List Bool := []
  status : List Status := []
  description : List String := []
  reference : List String := []

/-- yang-ast-parser parseAnyData (note: the `must` rule is declared with
parseZeroOrOne in the source, though it pushes onto an array). -/
def parseAnyData (ctx : Context) (log : Log) : Except String (AnyData × Log) := do
  let (identifier, log) := createBuilderName ctx log
  let rules : List (ParseRule AnyDataBuilderState) :=
    [ { kw := "when", parseZeroOrOne := some (fun ctx s log =>
          (parseWhen ctx log).map (fun r =>
            ({ s with when := valueBuilderAdd s.when r.1 }, r.2))) },
      { kw := "if-feature", stringValueBuilder :=
          some ⟨.multi, fun b v => { b with ifFeatures := valueBuilderAdd b.ifFeatures v }⟩ },
      { kw := "must", parseZeroOrOne := some (fun ctx s log =>
          (parseMust ctx log).map (fun r => ({ s with musts := s.musts ++ [r.1] }, r.2))) },
      { kw := "config", booleanValueBuilder :=
          some ⟨.optional, fun b v => { b with config := valueBuilderAdd b.config v }⟩ },
      { kw := "mandatory", booleanValueBuilder :=
          some ⟨.optional, fun b v => { b with mandatory := valueBuilderAdd b.mandatory v }⟩ },
      { kw := "status", statusValueBuilder :=
          some ⟨.optional, fun b v => { b with status := valueBuilderAdd b.status v }⟩ },
      { kw := "description", stringValueBuilder :=
          some ⟨.optional, fun b v => { b with description := valueBuilderAdd b.description v }⟩ },
      { kw := "reference", stringValueBuilder :=
          some ⟨.optional, fun b v => { b with reference := valueBuilderAdd b.reference v }⟩ } ]
  let (unknowns, b, log) ← parseKeywordSubStatements ctx [] rules {} log
  return ({ identifier := identifier
            when := optionalBuilderBuild b.when
            ifFeatures := multiValueBuild b.ifFeatures
            musts := b.musts
            config := optionalValueBuild b.config
            mandatory := optionalValueBuild b.mandatory
            status := optionalValueBuild b.status
            description := optionalValueBuild b.description
            reference := optionalValueBuild b.reference
            metadata := ctx.stmt.metadata
            unknownStatements := unknowns }, log)

structure AnyXmlBuilderState where
  when : List When := []
  ifFeatures : List String := []
  musts : List Must := []
  config : List Bool := []
  mandatory : List Bool := []
  status : List Status := []
  description : List String := []
  reference : List String := []

/-- yang-ast-parser parseAnyXml (same rule table shape as parseAnyData). -/
def parseAnyXml (ctx : Context) (log : Log) : Except String (AnyXml × Log) := do
  let (identifier, log) := createBuilderName ctx log
  let rules : List (ParseRule AnyXmlBuilderState) :=
    [ { kw := "when", parseZeroOrOne := some (fun ctx s log =>
          (parseWhen ctx log).map (fun r =>
            ({ s with when := valueBuilderAdd s.when r.1 }, r.2))) },
      { kw := "if-feature", stringValueBuilder :=
          some ⟨.multi, fun b v => { b with ifFeatures := valueBuilderAdd b.ifFeatures v }⟩ },
      { kw := "must", parseZeroOrOne := some (fun ctx s log =>
          (parseMust ctx log).map (fun r => ({ s with musts := s.musts ++ [r.1] }, r.2))) },
      { kw := "config", booleanValueBuilder :=
          some ⟨.optional, fun b v => { b with config := valueBuilderAdd b.config v }⟩ },
      { kw := "mandatory", booleanValueBuilder :=
          some ⟨.optional, fun b v => { b with mandatory := valueBuilderAdd b.mandatory v }⟩ },
      { kw := "status", statusValueBuilder :=
          some ⟨.optional, fun b v => { b with status := valueBuilderAdd b.status v }⟩ },
      { kw := "description", stringValueBuilder :=
          some ⟨.optional, fun b v => { b with description := valueBuilderAdd b.description v }⟩ },
      { kw := "reference", stringValueBuilder :=
          some ⟨.optional, fun b v => { b with reference := valueBuilderAdd b.reference v }⟩ } ]
  let (unknowns, b, log) ← parseKeywordSubStatements ctx [] rules {} log
  return ({ identifier := identifier
            when := optionalBuilderBuild b.when
            ifFeatures := multiValueBuild b.ifFeatures
            musts := b.musts
            config := optionalValueBuild b.config
            mandatory := optionalValueBuild b.mandatory
            status := optionalValueBuild b.status
            description := optionalValueBuild b.description
            reference := optionalValueBuild b.reference
            metadata := ctx.stmt.metadata
            unknownStatements := unknowns }, log)

/-! ### The mutually recursive mapping functions -/

structure UsesBuilderState where
  when : List When := []
  ifFeatures : List String := []
  status : List Status := []
  description : List String := []
  reference : List String := []
  refines : List Refine := []
  augmentations : List Augmentation := []

structure AugmentationBuilderState where
  when : List When := []
  ifFeatures : List String := []
  status : List Status := []
  description : List String := []
  reference : List String := []
  statements : List AugStatement := []

structure CaseBuilderState where
  when : List When := []
  ifFeatures : List String := []
  status : List Status := []
  description : List String := []
  reference : List String := []
  dataDefinitions : List DataDefinition := []

structure ActionBuilderState where
  ifFeatures : List String := []
  status : List Status := []
  description : List String := []
  reference : List String := []
  typedefsOrGroupings : List TypedefOrGrouping := []
  input : List Input := []    -- OptionalBuilder<Input>
  output : List Output := []  -- OptionalBuilder<Output>

structure RpcBuilderState where
  ifFeatures : List String := []
  status : List Status := []
  description : List String := []
  reference : List String := []
  typedefsOrGroupings : List TypedefOrGrouping := []
  input : List Input := []
  output : List Output := []

structure NotificationBuilderState where
  ifFeatures : List String := []
  musts : List Must := []
  status : List Status := []
  description : List String := []
  reference : List String := []
  typedefsOrGroupings : List TypedefOrGrouping := []
  dataDefinitions : List DataDefinition := []

structure GroupingBuilderState where
  status : List Status := []
  description : List String := []
  reference : List String := []
  typedefsOrGroupings : List TypedefOrGrouping := []
  dataDefinitions : List DataDefinition := []
  actions : List Action := []
  notifications : List Notification := []

structure InputBuilderState where
  musts : List Must := []
  typedefsOrGroupings : List TypedefOrGrouping := []
  dataDefinitions : List DataDefinition := []

structure OutputBuilderState where
  musts : List Must := []
  typedefsOrGroupings : List TypedefOrGrouping := []
  dataDefinitions : List DataDefinition := []

structure ContainerBuilderState where
  when : List When := []
  ifFeatures : List String := []
  presence : List String := []
  config : List Bool := []
  status : List Status := []
  description : List String := []
  reference : List String := []
  typedefsOrGroupings : List TypedefOrGrouping := []
  dataDefinitions : List DataDefinition := []
  actions : List Action := []
  notifications : List Notification := []

structure ListBuilderState where
  when : List When := []
  ifFeatures : List String := []
  musts : List Must := []
  key : List String := []
  uniques : List String := []
  config : List Bool := []
  minElements : List Int := []
  maxElements : List Int := []
  orderedBy : List String := []
  status : List Status := []
  description : List String := []
  reference : List String := []
  typedefsOrGroupings : List TypedefOrGrouping := []
  dataDefinitions : List DataDefinition := []
  actions : List Action := []
  notifications : List Notification := []

structure ChoiceBuilderState where
  when : List When := []
  ifFeatures : List String := []
  dflt : List String := []   -- TS field: default
  config : List Bool := []
  mandatory : List Bool := []
  status : List Status := []
  description : List String := []
  reference : List String := []
  cases : List ChoiceCase := []

mutual

/-- yang-ast-parser parseUses. -/
def parseUses : Nat → Context → Log → Except String (Uses × Log)
  | 0, ctx, _ => .error ("out of fuel in '" ++ ctx.name ++ "'")
  | fuel + 1, ctx, log => do
    let (grouping, log) := createBuilderName ctx log
    let rules : List (ParseRule UsesBuilderState) :=
      [ { kw := "when", parseZeroOrOne := some (fun ctx s log =>
            (parseWhen ctx log).map (fun r =>
              ({ s with when := valueBuilderAdd s.when r.1 }, r.2))) },
        { kw := "if-feature", stringValueBuilder :=
            some ⟨.multi, fun b v => { b with ifFeatures := valueBuilderAdd b.ifFeatures v }⟩ },
        { kw := "status", statusValueBuilder :=
            some ⟨.optional, fun b v => { b with status := valueBuilderAdd b.status v }⟩ },
        { kw := "description", stringValueBuilder :=
            some ⟨.optional, fun b v => { b with description := valueBuilderAdd b.description v }⟩ },
        { kw := "reference", stringValueBuilder :=
            some ⟨.optional, fun b v => { b with reference := valueBuilderAdd b.reference v }⟩ },
        { kw := "refine", parseZeroOrMore := some (fun ctx s log =>
            (parseRefine ctx log).map (fun r =>
              ({ s with refines := s.refines ++ [r.1] }, r.2))) },
        { kw := "augment", parseZeroOrMore := some (fun ctx s log =>
            (parseAugmentation fuel ctx log).map (fun r =>
              ({ s with augmentations := s.augmentations ++ [r.1] }, r.2))) } ]
    let (unknowns, b, log) ← parseKeywordSubStatements ctx [] rules {} log
    return (Uses.mk grouping (optionalBuilderBuild b.when) (multiValueBuild b.ifFeatures)
      (optionalValueBuild b.status) (optionalValueBuild b.description)
      (optionalValueBuild b.reference) b.refines b.augmentations
      ctx.stmt.metadata unknowns, log)

/-- yang-ast-parser parseAugmentation. -/
def parseAugmentation : Nat → Context → Log → Except String (Augmentation × Log)
  | 0, ctx, _ => .error ("out of fuel in '" ++ ctx.name ++ "'")
  | fuel + 1, ctx, log => do
    let (target, log) := createBuilderName ctx log
    let rules : List (ParseRule AugmentationBuilderState) :=
      [ { kw := "when", parseZeroOrOne := some (fun ctx s log =>
            (parseWhen ctx log).map (fun r =>
              ({ s with when := valueBuilderAdd s.when r.1 }, r.2))) },
        { kw := "if-feature", stringValueBuilder :=
            some ⟨.multi, fun b v => { b with ifFeatures := valueBuilderAdd b.ifFeatures v }⟩ },
        { kw := "status", statusValueBuilder :=
            some ⟨.optional, fun b v => { b with status := valueBuilderAdd b.status v }⟩ },
        { kw := "description", stringValueBuilder :=
            some ⟨.optional, fun b v => { b with description := valueBuilderAdd b.description v }⟩ },
        { kw := "reference", stringValueBuilder :=
            some ⟨.optional, fun b v => { b with reference := valueBuilderAdd b.reference v }⟩ },
        { kw := "uses", parseZeroOrMore := some (fun ctx s log =>
            (parseUses fuel ctx log).map (fun r =>
              ({ s with statements := s.statements ++ [.dataDef (.uses r.1)] }, r.2))) },
        { kw := "container", parseZeroOrMore := some (fun ctx s log =>
            (parseContainer fuel ctx log).map (fun r =>
              ({ s with statements := s.statements ++ [.dataDef (.container r.1)] }, r.2))) },
        { kw := "leaf", parseZeroOrMore := some (fun ctx s log =>
            (parseLeaf fuel ctx log).map (fun r =>
              ({ s with statements := s.statements ++ [.dataDef (.leaf r.1)] }, r.2))) },
        { kw := "leaf-list", parseZeroOrMore := some (fun ctx s log =>
            (parseLeafList fuel ctx log).map (fun r =>
              ({ s with statements := s.statements ++ [.dataDef (.leafList r.1)] }, r.2))) },
        { kw := "list", parseZeroOrMore := some (fun ctx s log =>
            (parseList fuel ctx log).map (fun r =>
              ({ s with statements := s.statements ++ [.dataDef (.list r.1)] }, r.2))) },
        { kw := "choice", parseZeroOrMore := some (fun ctx s log =>
            (parseChoice fuel ctx log).map (fun r =>
              ({ s with statements := s.statements ++ [.dataDef (.choice r.1)] }, r.2))) },
        { kw := "anydata", parseZeroOrMore := some (fun ctx s log =>
            (parseAnyData ctx log).map (fun r =>
              ({ s with statements := s.statements ++ [.dataDef (.anyData r.1)] }, r.2))) },
        { kw := "anyxml", parseZeroOrMore := some (fun ctx s log =>
            (parseAnyXml ctx log).map (fun r =>
              ({ s with statements := s.statements ++ [.dataDef (.anyXml r.1)] }, r.2))) },
        { kw := "case", parseZeroOrMore := some (fun ctx s log =>
            (parseCase fuel ctx log).map (fun r =>
              ({ s with statements := s.statements ++ [.case r.1] }, r.2))) },
        { kw := "action", parseZeroOrMore := some (fun ctx s log =>
            (parseAction fuel ctx log).map (fun r =>
              ({ s with statements := s.statements ++ [.action r.1] }, r.2))) },
        { kw := "notification", parseZeroOrMore := some (fun ctx s log =>
            (parseNotification fuel ctx log).map (fun r =>
              ({ s with statements := s.statements ++ [.notif r.1] }, r.2))) } ]
    let (unknowns, b, log) ← parseKeywordSubStatements ctx [] rules {} log
    return (Augmentation.mk target (optionalBuilderBuild b.when) (multiValueBuild b.ifFeatures)
      (optionalValueBuild b.status) (optionalValueBuild b.description)
      (optionalValueBuild b.reference) b.statements ctx.stmt.metadata unknowns, log)

/-- yang-ast-parser parseCase. -/
def parseCase : Nat → Context → Log → Except String (Case × Log)
  | 0, ctx, _ => .error ("out of fuel in '" ++ ctx.name ++ "'")
  | fuel + 1, ctx, log => do
    let (identifier, log) := createBuilderName ctx log
    let rules : List (ParseRule CaseBuilderState) :=
      [ { kw := "when", parseZeroOrOne := some (fun ctx s log =>
            (parseWhen ctx log).map (fun r =>
              ({ s with when := valueBuilderAdd s.when r.1 }, r.2))) },
        { kw := "if-feature", stringValueBuilder :=
            some ⟨.multi, fun b v => { b with ifFeatures := valueBuilderAdd b.ifFeatures v }⟩ },
        { kw := "status", statusValueBuilder :=
            some ⟨.optional, fun b v => { b with status := valueBuilderAdd b.status v }⟩ },
        { kw := "description", stringValueBuilder :=
            some ⟨.optional, fun b v => { b with description := valueBuilderAdd b.description v }⟩ },
        { kw := "reference", stringValueBuilder :=
            some ⟨.optional, fun b v => { b with reference := valueBuilderAdd b.reference v }⟩ },
        { kw := "uses", parseZeroOrMore := some (fun ctx s log =>
            (parseUses fuel ctx log).map (fun r =>
              ({ s with dataDefinitions := s.dataDefinitions ++ [.uses r.1] }, r.2))) },
        { kw := "container", parseZeroOrMore := some (fun ctx s log =>
            (parseContainer fuel ctx log).map (fun r =>
              ({ s with dataDefinitions := s.dataDefinitions ++ [.container r.1] }, r.2))) },
        { kw := "leaf", parseZeroOrMore := some (fun ctx s log =>
            (parseLeaf fuel ctx log).map (fun r =>
              ({ s with dataDefinitions := s.dataDefinitions ++ [.leaf r.1] }, r.2))) },
        { kw := "leaf-list", parseZeroOrMore := some (fun ctx s log =>
            (parseLeafList fuel ctx log).map (fun r =>
              ({ s with dataDefinitions := s.dataDefinitions ++ [.leafList r.1] }, r.2))) },
        { kw := "list", parseZeroOrMore := some (fun ctx s log =>
            (parseList fuel ctx log).map (fun r =>
              ({ s with dataDefinitions := s.dataDefinitions ++ [.list r.1] }, r.2))) },
        { kw := "choice", parseZeroOrMore := some (fun ctx s log =>
            (parseChoice fuel ctx log).map (fun r =>
              ({ s with dataDefinitions := s.dataDefinitions ++ [.choice r.1] }, r.2))) },
        { kw := "anydata", parseZeroOrMore := some (fun ctx s log =>
            (parseAnyData ctx log).map (fun r =>
              ({ s with dataDefinitions := s.dataDefinitions ++ [.anyData r.1] }, r.2))) },
        { kw := "anyxml", parseZeroOrMore := some (fun ctx s log =>
            (parseAnyXml ctx log).map (fun r =>
              ({ s with dataDefinitions := s.dataDefinitions ++ [.anyXml r.1] }, r.2))) } ]
    let (unknowns, b, log) ← parseKeywordSubStatements ctx [] rules {} log
    return (Case.mk identifier (optionalBuilderBuild b.when) (multiValueBuild b.ifFeatures)
      (optionalValueBuild b.status) (optionalValueBuild b.description)
      (optionalValueBuild b.reference) b.dataDefinitions ctx.stmt.metadata unknowns, log)

/-- yang-ast-parser parseAction. -/
def parseAction : Nat → Context → Log → Except String (Action × Log)
  | 0, ctx, _ => .error ("out of fuel in '" ++ ctx.name ++ "'")
  | fuel + 1, ctx, log => do
    let (identifier, log) := createBuilderName ctx log
    let rules : List (ParseRule ActionBuilderState) :=
      [ { kw := "if-feature", stringValueBuilder :=
            some ⟨.multi, fun b v => { b with ifFeatures := valueBuilderAdd b.ifFeatures v }⟩ },
        { kw := "status", statusValueBuilder :=
            some ⟨.optional, fun b v => { b with status := valueBuilderAdd b.status v }⟩ },
        { kw := "description", stringValueBuilder :=
            some ⟨.optional, fun b v => { b with description := valueBuilderAdd b.description v }⟩ },
        { kw := "reference", stringValueBuilder :=
            some ⟨.optional, fun b v => { b with reference := valueBuilderAdd b.reference v }⟩ },
        { kw := "typedef", parseZeroOrMore := some (fun ctx s log =>
            (parseTypedef fuel ctx log).map (fun r =>
              ({ s with typedefsOrGroupings := s.typedefsOrGroupings ++ [.typedef r.1] }, r.2))) },
        { kw := "grouping", parseZeroOrMore := some (fun ctx s log =>
            (parseGrouping fuel ctx log).map (fun r =>
              ({ s with typedefsOrGroupings := s.typedefsOrGroupings ++ [.grouping r.1] }, r.2))) },
        { kw := "input", parseZeroOrOne := some (fun ctx s log =>
            (parseInput fuel ctx log).map (fun r =>
              ({ s with input := valueBuilderAdd s.input r.1 }, r.2))) },
        { kw := "output", parseZeroOrOne := some (fun ctx s log =>
            (parseOutput fuel ctx log).map (fun r =>
              ({ s with output := valueBuilderAdd s.output r.1 }, r.2))) } ]
    let (unknowns, b, log) ← parseKeywordSubStatements ctx [] rules {} log
    return (Action.mk identifier (multiValueBuild b.ifFeatures) (optionalValueBuild b.status)
      (optionalValueBuild b.description) (optionalValueBuild b.reference)
      b.typedefsOrGroupings (optionalBuilderBuild b.input) (optionalBuilderBuild b.output)
      ctx.stmt.metadata unknowns, log)

/-- yang-ast-parser parseRpc. -/
def parseRpc : Nat → Context → Log → Except String (Rpc × Log)
  | 0, ctx, _ => .error ("out of fuel in '" ++ ctx.name ++ "'")
  | fuel + 1, ctx, log => do
    let (identifier, log) := createBuilderName ctx log
    let rules : List (ParseRule RpcBuilderState) :=
      [ { kw := "if-feature", stringValueBuilder :=
            some ⟨.multi, fun b v => { b with ifFeatures := valueBuilderAdd b.ifFeatures v }⟩ },
        { kw := "status", statusValueBuilder :=
            some ⟨.optional, fun b v => { b with status := valueBuilderAdd b.status v }⟩ },
        { kw := "description", stringValueBuilder :=
            some ⟨.optional, fun b v => { b with description := valueBuilderAdd b.description v }⟩ },
        { kw := "reference", stringValueBuilder :=
            some ⟨.optional, fun b v => { b with reference := valueBuilderAdd b.reference v }⟩ },
        { kw := "typedef", parseZeroOrMore := some (fun ctx s log =>
            (parseTypedef fuel ctx log).map (fun r =>
              ({ s with typedefsOrGroupings := s.typedefsOrGroupings ++ [.typedef r.1] }, r.2))) },
        { kw := "grouping", parseZeroOrMore := some (fun ctx s log =>
            (parseGrouping fuel ctx log).map (fun r =>
              ({ s with typedefsOrGroupings := s.typedefsOrGroupings ++ [.grouping r.1] }, r.2))) },
        { kw := "input", parseZeroOrOne := some (fun ctx s log =>
            (parseInput fuel ctx log).map (fun r =>
              ({ s with input := valueBuilderAdd s.input r.1 }, r.2))) },
        { kw := "output", parseZeroOrOne := some (fun ctx s log =>
            (parseOutput fuel ctx log).map (fun r =>
              ({ s with output := valueBuilderAdd s.output r.1 }, r.2))) } ]
    let (unknowns, b, log) ← parseKeywordSubStatements ctx [] rules {} log
    return (({ identifier := identifier
               ifFeatures := multiValueBuild b.ifFeatures
               status := optionalValueBuild b.status
               description := optionalValueBuild b.description
               reference := optionalValueBuild b.reference
               typedefsOrGroupings := b.typedefsOrGroupings
               input := optionalBuilderBuild b.input
               output := optionalBuilderBuild b.output
               metadata := ctx.stmt.metadata
               unknownStatements := unknowns } : Rpc), log)

/-- yang-ast-parser parseNotification. -/
def parseNotification : Nat → Context → Log → Except String (Notification × Log)
  | 0, ctx, _ => .error ("out of fuel in '" ++ ctx.name ++ "'")
  | fuel + 1, ctx, log => do
    let (identifier, log) := createBuilderName ctx log
    let rules : List (ParseRule NotificationBuilderState) :=
      [ { kw := "if-feature", stringValueBuilder :=
            some ⟨.multi, fun b v => { b with ifFeatures := valueBuilderAdd b.ifFeatures v }⟩ },
        { kw := "status", statusValueBuilder :=
            some ⟨.optional, fun b v => { b with status := valueBuilderAdd b.status v }⟩ },
        { kw := "description", stringValueBuilder :=
            some ⟨.optional, fun b v => { b with description := valueBuilderAdd b.description v }⟩ },
        { kw := "reference", stringValueBuilder :=
            some ⟨.optional, fun b v => { b with reference := valueBuilderAdd b.reference v }⟩ },
        { kw := "must", parseZeroOrMore := some (fun ctx s log =>
            (parseMust ctx log).map (fun r => ({ s with musts := s.musts ++ [r.1] }, r.2))) },
        { kw := "typedef", parseZeroOrMore := some (fun ctx s log =>
            (parseTypedef fuel ctx log).map (fun r =>
              ({ s with typedefsOrGroupings := s.typedefsOrGroupings ++ [.typedef r.1] }, r.2))) },
        { kw := "grouping", parseZeroOrMore := some (fun ctx s log =>
            (parseGrouping fuel ctx log).map (fun r =>
              ({ s with typedefsOrGroupings := s.typedefsOrGroupings ++ [.grouping r.1] }, r.2))) },
        { kw := "uses", parseZeroOrMore := some (fun ctx s log =>
            (parseUses fuel ctx log).map (fun r =>
              ({ s with dataDefinitions := s.dataDefinitions ++ [.uses r.1] }, r.2))) },
        { kw := "container", parseZeroOrMore := some (fun ctx s log =>
            (parseContainer fuel ctx log).map (fun r =>
              ({ s with dataDefinitions := s.dataDefinitions ++ [.container r.1] }, r.2))) },
        { kw := "leaf", parseZeroOrMore := some (fun ctx s log =>
            (parseLeaf fuel ctx log).map (fun r =>
              ({ s with dataDefinitions := s.dataDefinitions ++ [.leaf r.1] }, r.2))) },
        { kw := "leaf-list", parseZeroOrMore := some (fun ctx s log =>
            (parseLeafList fuel ctx log).map (fun r =>
              ({ s with dataDefinitions := s.dataDefinitions ++ [.leafList r.1] }, r.2))) },
        { kw := "list", parseZeroOrMore := some (fun ctx s log =>
            (parseList fuel ctx log).map (fun r =>
              ({ s with dataDefinitions := s.dataDefinitions ++ [.list r.1] }, r.2))) },
        { kw := "choice", parseZeroOrMore := some (fun ctx s log =>
            (parseChoice fuel ctx log).map (fun r =>
              ({ s with dataDefinitions := s.dataDefinitions ++ [.choice r.1] }, r.2))) },
        { kw := "anydata", parseZeroOrMore := some (fun ctx s log =>
            (parseAnyData ctx log).map (fun r =>
              ({ s with dataDefinitions := s.dataDefinitions ++ [.anyData r.1] }, r.2))) },
        { kw := "anyxml", parseZeroOrMore := some (fun ctx s log =>
            (parseAnyXml ctx log).map (fun r =>
              ({ s with dataDefinitions := s.dataDefinitions ++ [.anyXml r.1] }, r.2))) } ]
    let (unknowns, b, log) ← parseKeywordSubStatements ctx [] rules {} log
    return (Notification.mk identifier (multiValueBuild b.ifFeatures) b.musts
      (optionalValueBuild b.status) (optionalValueBuild b.description)
      (optionalValueBuild b.reference) b.typedefsOrGroupings b.dataDefinitions
      ctx.stmt.metadata unknowns, log)

/-- yang-ast-parser parseGrouping. -/
def parseGrouping : Nat → Context → Log → Except String (Grouping × Log)
  | 0, ctx, _ => .error ("out of fuel in '" ++ ctx.name ++ "'")
  | fuel + 1, ctx, log => do
    let (identifier, log) := createBuilderName ctx log
    let rules : List (ParseRule GroupingBuilderState) :=
      [ { kw := "status", statusValueBuilder :=
            some ⟨.optional, fun b v => { b with status := valueBuilderAdd b.status v }⟩ },
        { kw := "description", stringValueBuilder :=
            some ⟨.optional, fun b v => { b with description := valueBuilderAdd b.description v }⟩ },
        { kw := "reference", stringValueBuilder :=
            some ⟨.optional, fun b v => { b with reference := valueBuilderAdd b.reference v }⟩ },
        { kw := "typedef", parseZeroOrMore := some (fun ctx s log =>
            (parseTypedef fuel ctx log).map (fun r =>
              ({ s with typedefsOrGroupings := s.typedefsOrGroupings ++ [.typedef r.1] }, r.2))) },
        { kw := "grouping", parseZeroOrMore := some (fun ctx s log =>
            (parseGrouping fuel ctx log).map (fun r =>
              ({ s with typedefsOrGroupings := s.typedefsOrGroupings ++ [.grouping r.1] }, r.2))) },
        { kw := "uses", parseZeroOrMore := some (fun ctx s log =>
            (parseUses fuel ctx log).map (fun r =>
              ({ s with dataDefinitions := s.dataDefinitions ++ [.uses r.1] }, r.2))) },
        { kw := "container", parseZeroOrMore := some (fun ctx s log =>
            (parseContainer fuel ctx log).map (fun r =>
              ({ s with dataDefinitions := s.dataDefinitions ++ [.container r.1] }, r.2))) },
        { kw := "leaf", parseZeroOrMore := some (fun ctx s log =>
            (parseLeaf fuel ctx log).map (fun r =>
              ({ s with dataDefinitions := s.dataDefinitions ++ [.leaf r.1] }, r.2))) },
        { kw := "leaf-list", parseZeroOrMore := some (fun ctx s log =>
            (parseLeafList fuel ctx log).map (fun r =>
              ({ s with dataDefinitions := s.dataDefinitions ++ [.leafList r.1] }, r.2))) },
        { kw := "list", parseZeroOrMore := some (fun ctx s log =>
            (parseList fuel ctx log).map (fun r =>
              ({ s with dataDefinitions := s.dataDefinitions ++ [.list r.1] }, r.2))) },
        { kw := "choice", parseZeroOrMore := some (fun ctx s log =>
            (parseChoice fuel ctx log).map (fun r =>
              ({ s with dataDefinitions := s.dataDefinitions ++ [.choice r.1] }, r.2))) },
        { kw := "anydata", parseZeroOrMore := some (fun ctx s log =>
            (parseAnyData ctx log).map (fun r =>
              ({ s with dataDefinitions := s.dataDefinitions ++ [.anyData r.1] }, r.2))) },
        { kw := "anyxml", parseZeroOrMore := some (fun ctx s log =>
            (parseAnyXml ctx log).map (fun r =>
              ({ s with dataDefinitions := s.dataDefinitions ++ [.anyXml r.1] }, r.2))) },
        { kw := "action", parseZeroOrMore := some (fun ctx s log =>
            (parseAction fuel ctx log).map (fun r =>
              ({ s with actions := s.actions ++ [r.1] }, r.2))) },
        { kw := "notification", parseZeroOrMore := some (fun ctx s log =>
            (parseNotification fuel ctx log).map (fun r =>
              ({ s with notifications := s.notifications ++ [r.1] }, r.2))) } ]
    let (unknowns, b, log) ← parseKeywordSubStatements ctx [] rules {} log
    return (Grouping.mk identifier (optionalValueBuild b.status)
      (optionalValueBuild b.description) (optionalValueBuild b.reference)
      b.typedefsOrGroupings b.dataDefinitions b.actions b.notifications
      ctx.stmt.metadata unknowns, log)

/-- yang-ast-parser parseInput: built with createBuilderNoArg; afterwards at
least one data definition is required. -/
def parseInput : Nat → Context → Log → Except String (Input × Log)
  | 0, ctx, _ => .error ("out of fuel in '" ++ ctx.name ++ "'")
  | fuel + 1, ctx, log => do
    let log := createBuilderNoArgCheck ctx log
    let rules : List (ParseRule InputBuilderState) :=
      [ { kw := "must", parseZeroOrMore := some (fun ctx s log =>
            (parseMust ctx log).map (fun r => ({ s with musts := s.musts ++ [r.1] }, r.2))) },
        { kw := "typedef", parseZeroOrMore := some (fun ctx s log =>
            (parseTypedef fuel ctx log).map (fun r =>
              ({ s with typedefsOrGroupings := s.typedefsOrGroupings ++ [.typedef r.1] }, r.2))) },
        { kw := "grouping", parseZeroOrMore := some (fun ctx s log =>
            (parseGrouping fuel ctx log).map (fun r =>
              ({ s with typedefsOrGroupings := s.typedefsOrGroupings ++ [.grouping r.1] }, r.2))) },
        { kw := "uses", parseZeroOrMore := some (fun ctx s log =>
            (parseUses fuel ctx log).map (fun r =>
              ({ s with dataDefinitions := s.dataDefinitions ++ [.uses r.1] }, r.2))) },
        { kw := "container", parseZeroOrMore := some (fun ctx s log =>
            (parseContainer fuel ctx log).map (fun r =>
              ({ s with dataDefinitions := s.dataDefinitions ++ [.container r.1] }, r.2))) },
        { kw := "leaf", parseZeroOrMore := some (fun ctx s log =>
            (parseLeaf fuel ctx log).map (fun r =>
              ({ s with dataDefinitions := s.dataDefinitions ++ [.leaf r.1] }, r.2))) },
        { kw := "leaf-list", parseZeroOrMore := some (fun ctx s log =>
            (parseLeafList fuel ctx log).map (fun r =>
              ({ s with dataDefinitions := s.dataDefinitions ++ [.leafList r.1] }, r.2))) },
        { kw := "list", parseZeroOrMore := some (fun ctx s log =>
            (parseList fuel ctx log).map (fun r =>
              ({ s with dataDefinitions := s.dataDefinitions ++ [.list r.1] }, r.2))) },
        { kw := "choice", parseZeroOrMore := some (fun ctx s log =>
            (parseChoice fuel ctx log).map (fun r =>
              ({ s with dataDefinitions := s.dataDefinitions ++ [.choice r.1] }, r.2))) },
        { kw := "anydata", parseZeroOrMore := some (fun ctx s log =>
            (parseAnyData ctx log).map (fun r =>
              ({ s with dataDefinitions := s.dataDefinitions ++ [.anyData r.1] }, r.2))) },
        { kw := "anyxml", parseZeroOrMore := some (fun ctx s log =>
            (parseAnyXml ctx log).map (fun r =>
              ({ s with dataDefinitions := s.dataDefinitions ++ [.anyXml r.1] }, r.2))) } ]
    let (unknowns, b, log) ← parseKeywordSubStatements ctx [] rules {} log
    let log := if b.dataDefinitions.length < 1 then
        ctx.addError ("At least one data definition is missing in " ++ ctx.name ++ ".") log
      else log
    return (Input.mk b.musts b.typedefsOrGroupings b.dataDefinitions
      ctx.stmt.metadata unknowns, log)

/-- yang-ast-parser parseOutput (same shape as parseInput). -/
def parseOutput : Nat → Context → Log → Except String (Output × Log)
  | 0, ctx, _ => .error ("out of fuel in '" ++ ctx.name ++ "'")
  | fuel + 1, ctx, log => do
    let log := createBuilderNoArgCheck ctx log
    let rules : List (ParseRule OutputBuilderState) :=
      [ { kw := "must", parseZeroOrMore := some (fun ctx s log =>
            (parseMust ctx log).map (fun r => ({ s with musts := s.musts ++ [r.1] }, r.2))) },
        { kw := "typedef", parseZeroOrMore := some (fun ctx s log =>
            (parseTypedef fuel ctx log).map (fun r =>
              ({ s with typedefsOrGroupings := s.typedefsOrGroupings ++ [.typedef r.1] }, r.2))) },
        { kw := "grouping", parseZeroOrMore := some (fun ctx s log =>
            (parseGrouping fuel ctx log).map (fun r =>
              ({ s with typedefsOrGroupings := s.typedefsOrGroupings ++ [.grouping r.1] }, r.2))) },
        { kw := "uses", parseZeroOrMore := some (fun ctx s log =>
            (parseUses fuel ctx log).map (fun r =>
              ({ s with dataDefinitions := s.dataDefinitions ++ [.uses r.1] }, r.2))) },
        { kw := "container", parseZeroOrMore := some (fun ctx s log =>
            (parseContainer fuel ctx log).map (fun r =>
              ({ s with dataDefinitions := s.dataDefinitions ++ [.container r.1] }, r.2))) },
        { kw := "leaf", parseZeroOrMore := some (fun ctx s log =>
            (parseLeaf fuel ctx log).map (fun r =>
              ({ s with dataDefinitions := s.dataDefinitions ++ [.leaf r.1] }, r.2))) },
        { kw := "leaf-list", parseZeroOrMore := some (fun ctx s log =>
            (parseLeafList fuel ctx log).map (fun r =>
              ({ s with dataDefinitions := s.dataDefinitions ++ [.leafList r.1] }, r.2))) },
        { kw := "list", parseZeroOrMore := some (fun ctx s log =>
            (parseList fuel ctx log).map (fun r =>
              ({ s with dataDefinitions := s.dataDefinitions ++ [.list r.1] }, r.2))) },
        { kw := "choice", parseZeroOrMore := some (fun ctx s log =>
            (parseChoice fuel ctx log).map (fun r =>
              ({ s with dataDefinitions := s.dataDefinitions ++ [.choice r.1] }, r.2))) },
        { kw := "anydata", parseZeroOrMore := some (fun ctx s log =>
            (parseAnyData ctx log).map (fun r =>
              ({ s with dataDefinitions := s.dataDefinitions ++ [.anyData r.1] }, r.2))) },
        { kw := "anyxml", parseZeroOrMore := some (fun ctx s log =>
            (parseAnyXml ctx log).map (fun r =>
              ({ s with dataDefinitions := s.dataDefinitions ++ [.anyXml r.1] }, r.2))) } ]
    let (unknowns, b, log) ← parseKeywordSubStatements ctx [] rules {} log
    let log := if b.dataDefinitions.length < 1 then
        ctx.addError ("At least one data definition is missing in " ++ ctx.name ++ ".") log
      else log
    return (Output.mk b.musts b.typedefsOrGroupings b.dataDefinitions
      ctx.stmt.metadata unknowns, log)

/-- yang-ast-parser parseContainer. -/
def parseContainer : Nat → Context → Log → Except String (Container × Log)
  | 0, ctx, _ => .error ("out of fuel in '" ++ ctx.name ++ "'")
  | fuel + 1, ctx, log => do
    let (identifier, log) := createBuilderName ctx log
    let rules : List (ParseRule ContainerBuilderState) :=
      [ { kw := "when", parseZeroOrOne := some (fun ctx s log =>
            (parseWhen ctx log).map (fun r =>
              ({ s with when := valueBuilderAdd s.when r.1 }, r.2))) },
        { kw := "if-feature", stringValueBuilder :=
            some ⟨.multi, fun b v => { b with ifFeatures := valueBuilderAdd b.ifFeatures v }⟩ },
        { kw := "presence", stringValueBuilder :=
            some ⟨.optional, fun b v => { b with presence := valueBuilderAdd b.presence v }⟩ },
        { kw := "config", booleanValueBuilder :=
            some ⟨.optional, fun b v => { b with config := valueBuilderAdd b.config v }⟩ },
        { kw := "status", statusValueBuilder :=
            some ⟨.optional, fun b v => { b with status := valueBuilderAdd b.status v }⟩ },
        { kw := "description", stringValueBuilder :=
            some ⟨.optional, fun b v => { b with description := valueBuilderAdd b.description v }⟩ },
        { kw := "reference", stringValueBuilder :=
            some ⟨.optional, fun b v => { b with reference := valueBuilderAdd b.reference v }⟩ },
        { kw := "typedef", parseZeroOrMore := some (fun ctx s log =>
            (parseTypedef fuel ctx log).map (fun r =>
              ({ s with typedefsOrGroupings := s.typedefsOrGroupings ++ [.typedef r.1] }, r.2))) },
        { kw := "grouping", parseZeroOrMore := some (fun ctx s log =>
            (parseGrouping fuel ctx log).map (fun r =>
              ({ s with typedefsOrGroupings := s.typedefsOrGroupings ++ [.grouping r.1] }, r.2))) },
        { kw := "uses", parseZeroOrMore := some (fun ctx s log =>
            (parseUses fuel ctx log).map (fun r =>
              ({ s with dataDefinitions := s.dataDefinitions ++ [.uses r.1] }, r.2))) },
        { kw := "container", parseZeroOrMore := some (fun ctx s log =>
            (parseContainer fuel ctx log).map (fun r =>
              ({ s with dataDefinitions := s.dataDefinitions ++ [.container r.1] }, r.2))) },
        { kw := "leaf", parseZeroOrMore := some (fun ctx s log =>
            (parseLeaf fuel ctx log).map (fun r =>
              ({ s with dataDefinitions := s.dataDefinitions ++ [.leaf r.1] }, r.2))) },
        { kw := "leaf-list", parseZeroOrMore := some (fun ctx s log =>
            (parseLeafList fuel ctx log).map (fun r =>
              ({ s with dataDefinitions := s.dataDefinitions ++ [.leafList r.1] }, r.2))) },
        { kw := "list", parseZeroOrMore := some (fun ctx s log =>
            (parseList fuel ctx log).map (fun r =>
              ({ s with dataDefinitions := s.dataDefinitions ++ [.list r.1] }, r.2))) },
        { kw := "choice", parseZeroOrMore := some (fun ctx s log =>
            (parseChoice fuel ctx log).map (fun r =>
              ({ s with dataDefinitions := s.dataDefinitions ++ [.choice r.1] }, r.2))) },
        { kw := "anydata", parseZeroOrMore := some (fun ctx s log =>
            (parseAnyData ctx log).map (fun r =>
              ({ s with dataDefinitions := s.dataDefinitions ++ [.anyData r.1] }, r.2))) },
        { kw := "anyxml", parseZeroOrMore := some (fun ctx s log =>
            (parseAnyXml ctx log).map (fun r =>
              ({ s with dataDefinitions := s.dataDefinitions ++ [.anyXml r.1] }, r.2))) },
        { kw := "action", parseZeroOrMore := some (fun ctx s log =>
            (parseAction fuel ctx log).map (fun r =>
              ({ s with actions := s.actions ++ [r.1] }, r.2))) },
        { kw := "notification", parseZeroOrMore := some (fun ctx s log =>
            (parseNotification fuel ctx log).map (fun r =>
              ({ s with notifications := s.notifications ++ [r.1] }, r.2))) } ]
    let (unknowns, b, log) ← parseKeywordSubStatements ctx [] rules {} log
    return (Container.mk identifier (optionalBuilderBuild b.when) (multiValueBuild b.ifFeatures)
      (optionalValueBuild b.presence) (optionalValueBuild b.config)
      (optionalValueBuild b.status) (optionalValueBuild b.description)
      (optionalValueBuild b.reference) b.typedefsOrGroupings b.dataDefinitions
      b.actions b.notifications ctx.stmt.metadata unknowns, log)

/-- yang-ast-parser parseList. -/
def parseList : Nat → Context → Log → Except String (YList × Log)
  | 0, ctx, _ => .error ("out of fuel in '" ++ ctx.name ++ "'")
  | fuel + 1, ctx, log => do
    let (identifier, log) := createBuilderName ctx log
    let rules : List (ParseRule ListBuilderState) :=
      [ { kw := "when", parseZeroOrOne := some (fun ctx s log =>
            (parseWhen ctx log).map (fun r =>
              ({ s with when := valueBuilderAdd s.when r.1 }, r.2))) },
        { kw := "if-feature", stringValueBuilder :=
            some ⟨.multi, fun b v => { b with ifFeatures := valueBuilderAdd b.ifFeatures v }⟩ },
        { kw := "must", parseZeroOrMore := some (fun ctx s log =>
            (parseMust ctx log).map (fun r => ({ s with musts := s.musts ++ [r.1] }, r.2))) },
        { kw := "key", stringValueBuilder :=
            some ⟨.optional, fun b v => { b with key := valueBuilderAdd b.key v }⟩ },
        { kw := "unique", stringValueBuilder :=
            some ⟨.multi, fun b v => { b with uniques := valueBuilderAdd b.uniques v }⟩ },
        { kw := "config", booleanValueBuilder :=
            some ⟨.optional, fun b v => { b with config := valueBuilderAdd b.config v }⟩ },
        { kw := "min-elements", numberValueBuilder :=
            some ⟨.optional, fun b v => { b with minElements := valueBuilderAdd b.minElements v }⟩ },
        { kw := "max-elements", numberValueBuilder :=
            some ⟨.optional, fun b v => { b with maxElements := valueBuilderAdd b.maxElements v }⟩ },
        { kw := "ordered-by", stringValueBuilder :=
            some ⟨.optional, fun b v => { b with orderedBy := valueBuilderAdd b.orderedBy v }⟩ },
        { kw := "status", statusValueBuilder :=
            some ⟨.optional, fun b v => { b with status := valueBuilderAdd b.status v }⟩ },
        { kw := "description", stringValueBuilder :=
            some ⟨.optional, fun b v => { b with description := valueBuilderAdd b.description v }⟩ },
        { kw := "reference", stringValueBuilder :=
            some ⟨.optional, fun b v => { b with reference := valueBuilderAdd b.reference v }⟩ },
        { kw := "typedef", parseZeroOrMore := some (fun ctx s log =>
            (parseTypedef fuel ctx log).map (fun r =>
              ({ s with typedefsOrGroupings := s.typedefsOrGroupings ++ [.typedef r.1] }, r.2))) },
        { kw := "grouping", parseZeroOrMore := some (fun ctx s log =>
            (parseGrouping fuel ctx log).map (fun r =>
              ({ s with typedefsOrGroupings := s.typedefsOrGroupings ++ [.grouping r.1] }, r.2))) },
        { kw := "uses", parseZeroOrMore := some (fun ctx s log =>
            (parseUses fuel ctx log).map (fun r =>
              ({ s with dataDefinitions := s.dataDefinitions ++ [.uses r.1] }, r.2))) },
        { kw := "container", parseZeroOrMore := some (fun ctx s log =>
            (parseContainer fuel ctx log).map (fun r =>
              ({ s with dataDefinitions := s.dataDefinitions ++ [.container r.1] }, r.2))) },
        { kw := "leaf", parseZeroOrMore := some (fun ctx s log =>
            (parseLeaf fuel ctx log).map (fun r =>
              ({ s with dataDefinitions := s.dataDefinitions ++ [.leaf r.1] }, r.2))) },
        { kw := "leaf-list", parseZeroOrMore := some (fun ctx s log =>
            (parseLeafList fuel ctx log).map (fun r =>
              ({ s with dataDefinitions := s.dataDefinitions ++ [.leafList r.1] }, r.2))) },
        { kw := "list", parseZeroOrMore := some (fun ctx s log =>
            (parseList fuel ctx log).map (fun r =>
              ({ s with dataDefinitions := s.dataDefinitions ++ [.list r.1] }, r.2))) },
        { kw := "choice", parseZeroOrMore := some (fun ctx s log =>
            (parseChoice fuel ctx log).map (fun r =>
              ({ s with dataDefinitions := s.dataDefinitions ++ [.choice r.1] }, r.2))) },
        { kw := "anydata", parseZeroOrMore := some (fun ctx s log =>
            (parseAnyData ctx log).map (fun r =>
              ({ s with dataDefinitions := s.dataDefinitions ++ [.anyData r.1] }, r.2))) },
        { kw := "anyxml", parseZeroOrMore := some (fun ctx s log =>
            (parseAnyXml ctx log).map (fun r =>
              ({ s with dataDefinitions := s.dataDefinitions ++ [.anyXml r.1] }, r.2))) },
        { kw := "action", parseZeroOrMore := some (fun ctx s log =>
            (parseAction fuel ctx log).map (fun r =>
              ({ s with actions := s.actions ++ [r.1] }, r.2))) },
        { kw := "notification", parseZeroOrMore := some (fun ctx s log =>
            (parseNotification fuel ctx log).map (fun r =>
              ({ s with notifications := s.notifications ++ [r.1] }, r.2))) } ]
    let (unknowns, b, log) ← parseKeywordSubStatements ctx [] rules {} log
    return (YList.mk identifier (optionalBuilderBuild b.when) (multiValueBuild b.ifFeatures)
      b.musts (optionalValueBuild b.key) (multiValueBuild b.uniques)
      (optionalValueBuild b.config) (optionalValueBuild b.minElements)
      (optionalValueBuild b.maxElements) (optionalValueBuild b.orderedBy)
      (optionalValueBuild b.status) (optionalValueBuild b.description)
      (optionalValueBuild b.reference) b.typedefsOrGroupings b.dataDefinitions
      b.actions b.notifications ctx.stmt.metadata unknowns, log)

/-- yang-ast-parser parseChoice. -/
def parseChoice : Nat → Context → Log → Except String (Choice × Log)
  | 0, ctx, _ => .error ("out of fuel in '" ++ ctx.name ++ "'")
  | fuel + 1, ctx, log => do
    let (identifier, log) := createBuilderName ctx log
    let rules : List (ParseRule ChoiceBuilderState) :=
      [ { kw := "when", parseZeroOrOne := some (fun ctx s log =>
            (parseWhen ctx log).map (fun r =>
              ({ s with when := valueBuilderAdd s.when r.1 }, r.2))) },
        { kw := "if-feature", stringValueBuilder :=
            some ⟨.multi, fun b v => { b with ifFeatures := valueBuilderAdd b.ifFeatures v }⟩ },
        { kw := "default", stringValueBuilder :=
            some ⟨.optional, fun b v => { b with dflt := valueBuilderAdd b.dflt v }⟩ },
        { kw := "config", booleanValueBuilder :=
            some ⟨.optional, fun b v => { b with config := valueBuilderAdd b.config v }⟩ },
        { kw := "mandatory", booleanValueBuilder :=
            some ⟨.optional, fun b v => { b with mandatory := valueBuilderAdd b.mandatory v }⟩ },
        { kw := "status", statusValueBuilder :=
            some ⟨.optional, fun b v => { b with status := valueBuilderAdd b.status v }⟩ },
        { kw := "description", stringValueBuilder :=
            some ⟨.optional, fun b v => { b with description := valueBuilderAdd b.description v }⟩ },
        { kw := "reference", stringValueBuilder :=
            some ⟨.optional, fun b v => { b with reference := valueBuilderAdd b.reference v }⟩ },
        { kw := "case", parseZeroOrMore := some (fun ctx s log =>
            (parseCase fuel ctx log).map (fun r =>
              ({ s with cases := s.cases ++ [.case r.1] }, r.2))) },
        { kw := "choice", parseZeroOrMore := some (fun ctx s log =>
            (parseChoice fuel ctx log).map (fun r =>
              ({ s with cases := s.cases ++ [.choice r.1] }, r.2))) },
        { kw := "container", parseZeroOrMore := some (fun ctx s log =>
            (parseContainer fuel ctx log).map (fun r =>
              ({ s with cases := s.cases ++ [.container r.1] }, r.2))) },
        { kw := "leaf", parseZeroOrMore := some (fun ctx s log =>
            (parseLeaf fuel ctx log).map (fun r =>
              ({ s with cases := s.cases ++ [.leaf r.1] }, r.2))) },
        { kw := "leaf-list", parseZeroOrMore := some (fun ctx s log =>
            (parseLeafList fuel ctx log).map (fun r =>
              ({ s with cases := s.cases ++ [.leafList r.1] }, r.2))) },
        { kw := "list", parseZeroOrMore := some (fun ctx s log =>
            (parseList fuel ctx log).map (fun r =>
              ({ s with cases := s.cases ++ [.list r.1] }, r.2))) },
        { kw := "anydata", parseZeroOrMore := some (fun ctx s log =>
            (parseAnyData ctx log).map (fun r =>
              ({ s with cases := s.cases ++ [.anyData r.1] }, r.2))) },
        { kw := "anyxml", parseZeroOrMore := some (fun ctx s log =>
            (parseAnyXml ctx log).map (fun r =>
              ({ s with cases := s.cases ++ [.anyXml r.1] }, r.2))) } ]
    let (unknowns, b, log) ← parseKeywordSubStatements ctx [] rules {} log
    return (Choice.mk identifier (optionalBuilderBuild b.when) (multiValueBuild b.ifFeatures)
      (optionalValueBuild b.dflt) (optionalValueBuild b.config)
      (optionalValueBuild b.mandatory) (optionalValueBuild b.status)
      (optionalValueBuild b.description) (optionalValueBuild b.reference)
      b.cases ctx.stmt.metadata unknowns, log)

end

/-! ### Module, submodule and the parse entry point -/

structure ModuleBuilderState where
  pfx : List String := []          -- TS field: prefix (RequiredValueBuilder "")
  yangVersion : List String := []  -- RequiredValueBuilder ""
  namespace_ : List String := []   -- TS field: namespace (RequiredValueBuilder "")
  organization : List String := []
  contact : List String := []
  reference : List String := []
  description : List String := []
  revisions : List Revision := []
  imports : List Import := []
  includes : List Include := []
  body : List ModuleBodyElement := []

/-- yang-ast-parser parseModule (the body rules appear in source order;
`yang-version` carries the default literal `"1"`). -/
def parseModule (fuel : Nat) (ctx : Context) (log : Log) : Except String (Module × Log) := do
  let (name, log) := createBuilderName ctx log
  let rules : List (ParseRule ModuleBuilderState) :=
    [ { kw := "prefix", stringValueBuilder :=
          some ⟨.required, fun b v => { b with pfx := valueBuilderAdd b.pfx v }⟩ },
      { kw := "namespace", stringValueBuilder :=
          some ⟨.required, fun b v => { b with namespace_ := valueBuilderAdd b.namespace_ v }⟩ },
      { kw := "yang-version", stringValueBuilder :=
          some ⟨.required, fun b v => { b with yangVersion := valueBuilderAdd b.yangVersion v }⟩,
        defaultStringValue := some "1" },
      { kw := "organization", stringValueBuilder :=
          some ⟨.optional, fun b v => { b with organization := valueBuilderAdd b.organization v }⟩ },
      { kw := "contact", stringValueBuilder :=
          some ⟨.optional, fun b v => { b with contact := valueBuilderAdd b.contact v }⟩ },
      { kw := "reference", stringValueBuilder :=
          some ⟨.optional, fun b v => { b with reference := valueBuilderAdd b.reference v }⟩ },
      { kw := "description", stringValueBuilder :=
          some ⟨.optional, fun b v => { b with description := valueBuilderAdd b.description v }⟩ },
      { kw := "revision", parseZeroOrMore := some (fun ctx s log =>
          (parseRevision ctx log).map (fun r =>
            ({ s with revisions := s.revisions ++ [r.1] }, r.2))) },
      { kw := "import", parseZeroOrMore := some (fun ctx s log =>
          (parseImport ctx log).map (fun r =>
            ({ s with imports := s.imports ++ [r.1] }, r.2))) },
      { kw := "include", parseZeroOrMore := some (fun ctx s log =>
          (parseInclude ctx log).map (fun r =>
            ({ s with includes := s.includes ++ [r.1] }, r.2))) },
      { kw := "extension", parseZeroOrMore := some (fun ctx s log =>
          (parseExtension ctx log).map (fun r =>
            ({ s with body := s.body ++ [.extension r.1] }, r.2))) },
      { kw := "feature", parseZeroOrMore := some (fun ctx s log =>
          (parseFeature ctx log).map (fun r =>
            ({ s with body := s.body ++ [.feature r.1] }, r.2))) },
      { kw := "identity", parseZeroOrMore := some (fun ctx s log =>
          (parseIdentity ctx log).map (fun r =>
            ({ s with body := s.body ++ [.identity r.1] }, r.2))) },
      { kw := "typedef", parseZeroOrMore := some (fun ctx s log =>
          (parseTypedef fuel ctx log).map (fun r =>
            ({ s with body := s.body ++ [.typedef r.1] }, r.2))) },
      { kw := "grouping", parseZeroOrMore := some (fun ctx s log =>
          (parseGrouping fuel ctx log).map (fun r =>
            ({ s with body := s.body ++ [.grouping r.1] }, r.2))) },
      { kw := "uses", parseZeroOrMore := some (fun ctx s log =>
          (parseUses fuel ctx log).map (fun r =>
            ({ s with body := s.body ++ [.dataDef (.uses r.1)] }, r.2))) },
      { kw := "container", parseZeroOrMore := some (fun ctx s log =>
          (parseContainer fuel ctx log).map (fun r =>
            ({ s with body := s.body ++ [.dataDef (.container r.1)] }, r.2))) },
      { kw := "leaf", parseZeroOrMore := some (fun ctx s log =>
          (parseLeaf fuel ctx log).map (fun r =>
            ({ s with body := s.body ++ [.dataDef (.leaf r.1)] }, r.2))) },
      { kw := "leaf-list", parseZeroOrMore := some (fun ctx s log =>
          (parseLeafList fuel ctx log).map (fun r =>
            ({ s with body := s.body ++ [.dataDef (.leafList r.1)] }, r.2))) },
      { kw := "list", parseZeroOrMore := some (fun ctx s log =>
          (parseList fuel ctx log).map (fun r =>
            ({ s with body := s.body ++ [.dataDef (.list r.1)] }, r.2))) },
      { kw := "choice", parseZeroOrMore := some (fun ctx s log =>
          (parseChoice fuel ctx log).map (fun r =>
            ({ s with body := s.body ++ [.dataDef (.choice r.1)] }, r.2))) },
      { kw := "anydata", parseZeroOrMore := some (fun ctx s log =>
          (parseAnyData ctx log).map (fun r =>
            ({ s with body := s.body ++ [.dataDef (.anyData r.1)] }, r.2))) },
      { kw := "anyxml", parseZeroOrMore := some (fun ctx s log =>
          (parseAnyXml ctx log).map (fun r =>
            ({ s with body := s.body ++ [.dataDef (.anyXml r.1)] }, r.2))) },
      { kw := "augment", parseZeroOrMore := some (fun ctx s log =>
          (parseAugmentation fuel ctx log).map (fun r =>
            ({ s with body := s.body ++ [.augmentation r.1] }, r.2))) },
      { kw := "rpc", parseZeroOrMore := some (fun ctx s log =>
          (parseRpc fuel ctx log).map (fun r =>
            ({ s with body := s.body ++ [.rpc r.1] }, r.2))) },
      { kw := "notification", parseZeroOrMore := some (fun ctx s log =>
          (parseNotification fuel ctx log).map (fun r =>
            ({ s with body := s.body ++ [.notif r.1] }, r.2))) },
      { kw := "deviation", parseZeroOrMore := some (fun ctx s log =>
          (parseDeviation fuel ctx log).map (fun r =>
            ({ s with body := s.body ++ [.deviation r.1] }, r.2))) } ]
  let (unknowns, b, log) ← parseKeywordSubStatements ctx [] rules {} log
  return (({ name := name
             pfx := requiredValueBuild "" b.pfx
             yangVersion := requiredValueBuild "" b.yangVersion
             namespace_ := requiredValueBuild "" b.namespace_
             organization := optionalValueBuild b.organization
             contact := optionalValueBuild b.contact
             reference := optionalValueBuild b.reference
             description := optionalValueBuild b.description
             revisions := b.revisions
             imports := b.imports
             includes := b.includes
             body := b.body
             metadata := ctx.stmt.metadata
             unknownStatements := unknowns } : Module), log)

structure SubmoduleBuilderState where
  belongsTo : List String := []    -- RequiredValueBuilder ""
  yangVersion : List String := []  -- RequiredValueBuilder ""
  organization : List String := []
  contact : List String := []
  reference : List String := []
  description : List String := []
  revisions : List Revision := []
  imports : List Import := []
  includes : List Include := []
  body : List ModuleBodyElement := []

/-- yang-ast-parser parseSubmodule. -/
def parseSubmodule (fuel : Nat) (ctx : Context) (log : Log) :
    Except String (Submodule × Log) := do
  let (name, log) := createBuilderName ctx log
  let rules : List (ParseRule SubmoduleBuilderState) :=
    [ { kw := "belongs-to", stringValueBuilder :=
          some ⟨.required, fun b v => { b with belongsTo := valueBuilderAdd b.belongsTo v }⟩ },
      { kw := "yang-version", stringValueBuilder :=
          some ⟨.required, fun b v => { b with yangVersion := valueBuilderAdd b.yangVersion v }⟩,
        defaultStringValue := some "1" },
      { kw := "organization", stringValueBuilder :=
          some ⟨.optional, fun b v => { b with organization := valueBuilderAdd b.organization v }⟩ },
      { kw := "contact", stringValueBuilder :=
          some ⟨.optional, fun b v => { b with contact := valueBuilderAdd b.contact v }⟩ },
      { kw := "reference", stringValueBuilder :=
          some ⟨.optional, fun b v => { b with reference := valueBuilderAdd b.reference v }⟩ },
      { kw := "description", stringValueBuilder :=
          some ⟨.optional, fun b v => { b with description := valueBuilderAdd b.description v }⟩ },
      { kw := "revision", parseZeroOrMore := some (fun ctx s log =>
          (parseRevision ctx log).map (fun r =>
            ({ s with revisions := s.revisions ++ [r.1] }, r.2))) },
      { kw := "import", parseZeroOrMore := some (fun ctx s log =>
          (parseImport ctx log).map (fun r =>
            ({ s with imports := s.imports ++ [r.1] }, r.2))) },
      { kw := "include", parseZeroOrMore := some (fun ctx s log =>
          (parseInclude ctx log).map (fun r =>
            ({ s with includes := s.includes ++ [r.1] }, r.2))) },
      { kw := "extension", parseZeroOrMore := some (fun ctx s log =>
          (parseExtension ctx log).map (fun r =>
            ({ s with body := s.body ++ [.extension r.1] }, r.2))) },
      { kw := "feature", parseZeroOrMore := some (fun ctx s log =>
          (parseFeature ctx log).map (fun r =>
            ({ s with body := s.body ++ [.feature r.1] }, r.2))) },
      { kw := "identity", parseZeroOrMore := some (fun ctx s log =>
          (parseIdentity ctx log).map (fun r =>
            ({ s with body := s.body ++ [.identity r.1] }, r.2))) },
      { kw := "typedef", parseZeroOrMore := some (fun ctx s log =>
          (parseTypedef fuel ctx log).map (fun r =>
            ({ s with body := s.body ++ [.typedef r.1] }, r.2))) },
      { kw := "grouping", parseZeroOrMore := some (fun ctx s log =>
          (parseGrouping fuel ctx log).map (fun r =>
            ({ s with body := s.body ++ [.grouping r.1] }, r.2))) },
      { kw := "uses", parseZeroOrMore := some (fun ctx s log =>
          (parseUses fuel ctx log).map (fun r =>
            ({ s with body := s.body ++ [.dataDef (.uses r.1)] }, r.2))) },
      { kw := "container", parseZeroOrMore := some (fun ctx s log =>
          (parseContainer fuel ctx log).map (fun r =>
            ({ s with body := s.body ++ [.dataDef (.container r.1)] }, r.2))) },
      { kw := "leaf", parseZeroOrMore := some (fun ctx s log =>
          (parseLeaf fuel ctx log).map (fun r =>
            ({ s with body := s.body ++ [.dataDef (.leaf r.1)] }, r.2))) },
      { kw := "leaf-list", parseZeroOrMore := some (fun ctx s log =>
          (parseLeafList fuel ctx log).map (fun r =>
            ({ s with body := s.body ++ [.dataDef (.leafList r.1)] }, r.2))) },
      { kw := "list", parseZeroOrMore := some (fun ctx s log =>
          (parseList fuel ctx log).map (fun r =>
            ({ s with body := s.body ++ [.dataDef (.list r.1)] }, r.2))) },
      { kw := "choice", parseZeroOrMore := some (fun ctx s log =>
          (parseChoice fuel ctx log).map (fun r =>
            ({ s with body := s.body ++ [.dataDef (.choice r.1)] }, r.2))) },
      { kw := "anydata", parseZeroOrMore := some (fun ctx s log =>
          (parseAnyData ctx log).map (fun r =>
            ({ s with body := s.body ++ [.dataDef (.anyData r.1)] }, r.2))) },
      { kw := "anyxml", parseZeroOrMore := some (fun ctx s log =>
          (parseAnyXml ctx log).map (fun r =>
            ({ s with body := s.body ++ [.dataDef (.anyXml r.1)] }, r.2))) },
      { kw := "augment", parseZeroOrMore := some (fun ctx s log =>
          (parseAugmentation fuel ctx log).map (fun r =>
            ({ s with body := s.body ++ [.augmentation r.1] }, r.2))) },
      { kw := "rpc", parseZeroOrMore := some (fun ctx s log =>
          (parseRpc fuel ctx log).map (fun r =>
            ({ s with body := s.body ++ [.rpc r.1] }, r.2))) },
      { kw := "notification", parseZeroOrMore := some (fun ctx s log =>
          (parseNotification fuel ctx log).map (fun r =>
            ({ s with body := s.body ++ [.notif r.1] }, r.2))) },
      { kw := "deviation", parseZeroOrMore := some (fun ctx s log =>
          (parseDeviation fuel ctx log).map (fun r =>
            ({ s with body := s.body ++ [.deviation r.1] }, r.2))) } ]
  let (unknowns, b, log) ← parseKeywordSubStatements ctx [] rules {} log
  return (({ name := name
             yangVersion := requiredValueBuild "" b.yangVersion
             belongsTo := requiredValueBuild "" b.belongsTo
             organization := optionalValueBuild b.organization
             contact := optionalValueBuild b.contact
             reference := optionalValueBuild b.reference
             description := optionalValueBuild b.description
             revisions := b.revisions
             imports := b.imports
             includes := b.includes
             body := b.body
             metadata := ctx.stmt.metadata
             unknownStatements := unknowns } : Submodule), log)

/-- parser.ts ParseResult. -/
inductive ParseResult where
  | success (module : ModuleOrSubmodule)
  | warning (module : ModuleOrSubmodule) (warnings : List String)
  | error (errors : List String) (warnings : List String)

/-- parser.ts parse, modelled from the statement tree on (the text-to-tree
step is the statement parser of the previous section; a thrown mapper Error
is caught and becomes an error result with that single message, like the
`catch` branch). -/
def parseFromStatement (fuel : Nat) (stmt : YangStatement) : ParseResult :=
  let ctx := Context.mk stmt none
  if stmt.prf ≠ "" ∨ (stmt.kw ≠ "module" ∧ stmt.kw ≠ "submodule") then
    -- moduleOrSubmodule stays null and the context holds exactly this error
    let log := ctx.addError ("Expected to find a module or a submodule, but found " ++
      stmt.prf ++ (if stmt.prf ≠ "" then ":" else "") ++ stmt.kw ++ ".") {}
    .error log.errors log.warnings
  else
    let result : Except String (ModuleOrSubmodule × Log) :=
      if stmt.kw = "module" then
        (parseModule fuel ctx {}).map (fun r => (.module r.1, r.2))
      else
        (parseSubmodule fuel ctx {}).map (fun r => (.submodule r.1, r.2))
    match result with
    | .error message => .error [message] []
    | .ok (m, log) =>
      if log.errors.length > 0 then
        .error log.errors log.warnings
      else if log.warnings.length > 0 then
        .warning m log.warnings
      else
        .success m

/-! ## Module resolver (module-resolver.ts) -/

/-- module-resolver ResolutionStatus. -/
inductive ResolutionStatus where
  | unknown
  | beingResolved
  | failedToResolve
deriving DecidableEq, Repr

/-- An entry of the per-revision map: a loaded Module or a status marker. -/
inductive ModuleOrStatus where
  | mod (m : Module)
  | status (s : ResolutionStatus)

/-- module-resolver ResolutionContext. The JS
`Map<string, Map<string | null, Module | ResolutionStatus>>` becomes a
nested association list in insertion order (JS Map semantics: `set` of an
existing key replaces in place, a new key is appended). -/
structure ResolutionContext where
  warnings : List String := []
  errors : List String := []
  modules : List (String × List (Option String × ModuleOrStatus)) := []

def ResolutionContext.pushError (context : ResolutionContext) (message : String) :
    ResolutionContext :=
  { context with errors := context.errors ++ [message] }

/-- Inner-map `set` with JS Map replace-or-append semantics. -/
def revMapSet (m : List (Option String × ModuleOrStatus)) (k : Option String)
    (v : ModuleOrStatus) : List (Option String × ModuleOrStatus) :=
  match m with
  | [] => [(k, v)]
  | e :: rest => if e.1 = k then (k, v) :: rest else e :: revMapSet rest k v

/-- module-resolver setResolutionStatus. -/
def setResolutionStatus (moduleName : String) (revision : Option String)
    (moduleOrStatus : ModuleOrStatus) (context : ResolutionContext) : ResolutionContext :=
  let rec outerSet : List (String × List (Option String × ModuleOrStatus)) →
      List (String × List (Option String × ModuleOrStatus))
    | [] => [(moduleName, revMapSet [] revision moduleOrStatus)]
    | e :: rest =>
      if e.1 = moduleName then (moduleName, revMapSet e.2 revision moduleOrStatus) :: rest
      else e :: outerSet rest
  { context with modules := outerSet context.modules }

/-- module-resolver getResolutionStatus: Unknown when the name or revision
is absent, otherwise the stored module / status. -/
def getResolutionStatus (moduleName : String) (revision : Option String)
    (context : ResolutionContext) : ModuleOrStatus :=
  match context.modules.find? (fun e => e.1 == moduleName) with
  | none => .status .unknown
  | some e =>
    match e.2.find? (fun re => re.1 == revision) with
    | none => .status .unknown
    | some re => re.2

/-- module-resolver getModuleRevision, on the module's (or submodule's)
`revisions` list: the running maximum under JS string `<`. -/
def getModuleRevision (revisions : List Revision) : Option String :=
  revisions.foldl
    (fun latestRevision revision =>
      match latestRevision with
      | none => some revision.value
      | some latest => if strLtJS latest revision.value then some revision.value else some latest)
    none

/-- module-resolver makeFqModuleNamePrefix. -/
def makeFqModuleNamePrefix (moduleName : String) : String :=
  moduleName ++ "@"

/-- module-resolver makeFqModuleName: a null or empty (falsy) revision
renders as the empty string. -/
def makeFqModuleName (moduleName : String) (revision : Option String) : String :=
  makeFqModuleNamePrefix moduleName ++
    (match revision with
     | some r => if r = "" then "" else r
     | none => "")

/-- module-resolver makeFqModuleDisplayName. -/
def makeFqModuleDisplayName (moduleName : String) (revision : Option String) : String :=
  makeFqModuleName moduleName
    (some (match revision with | none => "<unspecified revision>" | some r => r))

/-- module-resolver merge: the owning module keeps all its fields except
that every submodule's imports and body are appended in load order. -/
def merge (module : Module) (submodules : List Submodule) : Module :=
  { module with
    imports := module.imports ++ submodules.flatMap (fun submodule => submodule.imports)
    body := module.body ++ submodules.flatMap (fun submodule => submodule.body) }

/-- The injected collaborators of ModuleResolverImplementation: the module
fetcher (kind, name, revision ↦ sourceRef and text — the TS version is
asynchronous, which a pure function models since resolution is strictly
sequential), the cache lookup, and the parse function. -/
structure ResolverConfig where
  moduleFetcher : String → String → Option String → String × String
  getFromCache : String → Option String → Option Module
  parse : String → String → ParseResult

mutual

/-- module-resolver ModuleResolverImplementation.resolveModule. The fuel
argument makes the unbounded import recursion total; every run appearing in
a theorem is given ample fuel, and the fuel-exhaustion branch simply fails
without recording anything. -/
def resolveModule (cfg : ResolverConfig) :
    Nat → String → Option String → ResolutionContext → Bool × ResolutionContext
  | 0, _, _, context => (false, context)
  | fuel + 1, moduleName, revision, context =>
    match cfg.getFromCache moduleName revision with
    | some _ => (true, context)
    | none =>
      match getResolutionStatus moduleName revision context with
      | .mod _ =>
        -- an already loaded module from the context
        (true, context)
      | .status st =>
        if st = .beingResolved then
          (false, (setResolutionStatus moduleName revision (.status .failedToResolve)
            context).pushError ("Detected an import loop for '" ++
              makeFqModuleDisplayName moduleName revision ++ "'!"))
        else if st = .failedToResolve then
          -- this error has already been reported once
          (false, context)
        else
          let context := setResolutionStatus moduleName revision (.status .beingResolved) context
          let fetched := cfg.moduleFetcher "module" moduleName revision
          let parseResult := cfg.parse fetched.1 fetched.2
          match parseResult with
          | .error errors warnings =>
            -- Bail instantly!
            (false, { context with warnings := context.warnings ++ warnings,
                                   errors := context.errors ++ errors })
          | .warning parsed warnings =>
            resolveParsedModule cfg fuel moduleName revision parsed
              { context with warnings := context.warnings ++ warnings }
          | .success parsed =>
            resolveParsedModule cfg fuel moduleName revision parsed context

/-- The sanity checks and the include/import recursion of resolveModule
(lines 126-165), shared by the success and success-with-warning branches. -/
def resolveParsedModule (cfg : ResolverConfig) :
    Nat → String → Option String → ModuleOrSubmodule → ResolutionContext →
    Bool × ResolutionContext
  | 0, _, _, _, context => (false, context)
  | fuel + 1, moduleName, revision, parsed, context =>
    match parsed with
    | .submodule _ =>
      (false, (setResolutionStatus moduleName revision (.status .failedToResolve)
        context).pushError ("'" ++ moduleName ++ "' is not a module, but a '" ++
          parsed.construct ++ "'."))
    | .module parsedModule =>
      if moduleName ≠ parsedModule.name then
        (false, (setResolutionStatus moduleName revision (.status .failedToResolve)
          context).pushError ("Module requested to be parsed was '" ++ moduleName ++
            "' but '" ++ parsedModule.name ++ "' was parsed."))
      else
        let parsedModuleRevision := getModuleRevision parsedModule.revisions
        if revision ≠ none ∧ parsedModuleRevision ≠ revision then
          (false, (setResolutionStatus moduleName parsedModuleRevision
            (.status .failedToResolve) context).pushError
              ("Module requested to be parsed was '" ++
                makeFqModuleDisplayName moduleName revision ++ "' but '" ++
                makeFqModuleDisplayName parsedModule.name parsedModuleRevision ++
                "' was parsed."))
        else
          -- First handle included submodules
          match loadSubmodules cfg fuel parsedModule parsedModuleRevision
              parsedModule.includes context with
          | (none, context) =>
            (false, setResolutionStatus moduleName parsedModuleRevision
              (.status .failedToResolve) context)
          | (some submodules, context) =>
            let completeModule := merge parsedModule submodules
            -- Now resolve imports
            match resolveImports cfg fuel completeModule.imports context with
            | (false, context) => (false, context)
            | (true, context) =>
              -- This module's loaded!
              (true, setResolutionStatus moduleName parsedModuleRevision
                (.mod completeModule) context)

/-- The sequential `for (const imp of completeModule.imports)` loop. -/
def resolveImports (cfg : ResolverConfig) :
    Nat → List Import → ResolutionContext → Bool × ResolutionContext
  | 0, _, context => (false, context)
  | fuel + 1, imports, context =>
    match imports with
    | [] => (true, context)
    | imp :: rest =>
      match resolveModule cfg fuel imp.identifier imp.revision context with
      | (false, context) => (false, context)
      | (true, context) => resolveImports cfg fuel rest context

/-- module-resolver loadSubmodules: fetch, parse and validate each include
in order, recursively flattening nested includes after their parent; any
failure aborts with `none` (the TS `null`). -/
def loadSubmodules (cfg : ResolverConfig) :
    Nat → Module → Option String → List Include → ResolutionContext →
    Option (List Submodule) × ResolutionContext
  | 0, _, _, _, context => (none, context)
  | fuel + 1, owningModule, owningModuleRevision, includes, context =>
    match includes with
    | [] => (some [], context)
    | inc :: rest =>
      let fetched := cfg.moduleFetcher "submodule" inc.identifier inc.revision
      let parseResult := cfg.parse fetched.1 fetched.2
      match parseResult with
      | .error errors warnings =>
        -- Bail instantly!
        (none, { context with warnings := context.warnings ++ warnings,
                              errors := context.errors ++ errors })
      | .warning parsed warnings =>
        loadOneSubmodule cfg fuel owningModule owningModuleRevision inc rest parsed
          { context with warnings := context.warnings ++ warnings }
      | .success parsed =>
        loadOneSubmodule cfg fuel owningModule owningModuleRevision inc rest parsed context

/-- The validation and recursion for one parsed include of loadSubmodules
(lines 185-216), shared by the success and success-with-warning branches. -/
def loadOneSubmodule (cfg : ResolverConfig) :
    Nat → Module → Option String → Include → List Include → ModuleOrSubmodule →
    ResolutionContext → Option (List Submodule) × ResolutionContext
  | 0, _, _, _, _, _, context => (none, context)
  | fuel + 1, owningModule, owningModuleRevision, inc, rest, parsed, context =>
    match parsed with
    | .module _ =>
      (none, context.pushError ("'" ++
        makeFqModuleDisplayName inc.identifier inc.revision ++
        "' is not a submodule, but a '" ++ parsed.construct ++ "'."))
    | .submodule parsedSubmodule =>
      let parsedSubmoduleRevision := getModuleRevision parsedSubmodule.revisions
      if parsedSubmodule.name ≠ inc.identifier then
        (none, context.pushError ("'" ++
          makeFqModuleDisplayName owningModule.name owningModuleRevision ++
          "' includes submodule " ++ makeFqModuleDisplayName inc.identifier inc.revision ++
          ", but it identifies itself as '" ++
          makeFqModuleDisplayName parsedSubmodule.name parsedSubmoduleRevision ++ "'."))
      else if inc.revision ≠ none ∧ parsedSubmoduleRevision ≠ inc.revision then
        (none, context.pushError ("Submodule requested to be parsed was '" ++
          makeFqModuleDisplayName inc.identifier inc.revision ++ "' but '" ++
          makeFqModuleDisplayName parsedSubmodule.name parsedSubmoduleRevision ++
          "' was parsed."))
      else if parsedSubmodule.belongsTo ≠ owningModule.name then
        -- Make sure the submodule belongs to this module!
        (none, context.pushError ("'" ++
          makeFqModuleDisplayName owningModule.name owningModuleRevision ++
          "' includes submodule " ++ makeFqModuleDisplayName inc.identifier inc.revision ++
          ", but it belongs to '" ++ parsedSubmodule.belongsTo ++ "'."))
      else
        -- Load nested submodules...
        match loadSubmodules cfg fuel owningModule owningModuleRevision
            parsedSubmodule.includes context with
        | (none, context) => (none, context)
        | (some nestedSubmodules, context) =>
          match loadSubmodules cfg fuel owningModule owningModuleRevision rest context with
          | (none, context) => (none, context)
          | (some restSubmodules, context) =>
            (some ([parsedSubmodule] ++ nestedSubmodules ++ restSubmodules), context)

end

/-- One entry of a successful resolution result. -/
structure ResolvedModuleEntry where
  name : String
  revision : Option String
  module : Module

/-- module-resolver ResolutionResult. -/
inductive ResolutionResult where
  | success (modules : List ResolvedModuleEntry)
  | warning (modules : List ResolvedModuleEntry) (warnings : List String)
  | failure (errors : List String) (warnings : List String)

def ResolutionResult.isFailure : ResolutionResult → Bool
  | .failure _ _ => true
  | _ => false

def ResolutionResult.errors : ResolutionResult → List String
  | .failure errors _ => errors
  | _ => []

def ResolutionResult.modules : ResolutionResult → List ResolvedModuleEntry
  | .success modules => modules
  | .warning modules _ => modules
  | .failure _ _ => []

/-- The module-collection loops of resolve (lines 67-73): every Module
entry of the context, in map insertion order. -/
def collectModules (modules : List (String × List (Option String × ModuleOrStatus))) :
    List ResolvedModuleEntry :=
  modules.foldl
    (fun acc e =>
      e.2.foldl
        (fun acc re =>
          match re.2 with
          | .mod m => acc ++ [{ name := e.1, revision := re.1, module := m }]
          | .status _ => acc)
        acc)
    []

/-- module-resolver ModuleResolverImplementation.resolve: run resolveModule
on a fresh context and aggregate errors, warnings and loaded modules. -/
def resolve (cfg : ResolverConfig) (fuel : Nat) (moduleName : String)
    (revision : Option String) : ResolutionResult :=
  let (_, resolutionContext) := resolveModule cfg fuel moduleName revision {}
  if resolutionContext.errors.length > 0 then
    .failure resolutionContext.errors resolutionContext.warnings
  else
    let modules := collectModules resolutionContext.modules
    if resolutionContext.warnings.length > 0 then
      .warning modules resolutionContext.warnings
    else
      .success modules

/-! ## Test fixtures

Concrete values mirroring the repository's own test fixtures
(makeFakeModule and friends in the resolver test suite, and the null
statement/context of the builder test suite). -/

/-- The metadata of the test fixtures (makeFakeMetadata). -/
def fakeMeta : Metadata := { source := "", length := 1, position := ⟨1, 1, 0⟩ }

/-- makeFakeModule with the varying fields explicit. -/
def makeFakeModule (name : String) (revisions : List Revision) (imports : List Import)
    (includes : List Include) (body : List ModuleBodyElement) : Module :=
  { name := name, namespace_ := "urn:westermo:test", pfx := "prefix", yangVersion := "1.1",
    organization := none, contact := none, body := body, description := none,
    imports := imports, includes := includes, metadata := fakeMeta, reference := none,
    unknownStatements := [], revisions := revisions }

/-- makeFakeSubmodule with the varying fields explicit. -/
def makeFakeSubmodule (name : String) (belongsTo : String) (revisions : List Revision)
    (imports : List Import) (includes : List Include) (body : List ModuleBodyElement) :
    Submodule :=
  { name := name, yangVersion := "1.1", belongsTo := belongsTo,
    organization := none, contact := none, body := body, description := none,
    imports := imports, includes := includes, metadata := fakeMeta, reference := none,
    unknownStatements := [], revisions := revisions }

/-- makeFakeImport. -/
def makeFakeImport (identifier : String) (revision : Option String) : Import :=
  { identifier := identifier, pfx := "pre", revision := revision, description := none,
    reference := none, metadata := fakeMeta, unknownStatements := [] }

/-- makeFakeInclude. -/
def makeFakeInclude (identifier : String) (revision : Option String) : Include :=
  { identifier := identifier, revision := revision, description := none,
    reference := none, metadata := fakeMeta, unknownStatements := [] }

/-- makeFakeRevision. -/
def makeFakeRevision (value : String) : Revision :=
  { value := value, description := none, reference := none, metadata := fakeMeta,
    unknownStatements := [] }

/-- The null statement of the builder test suite (createStatement with empty
keyword and argument, position 1:1). -/
def nullStatement : YangStatement :=
  ⟨"", "", some "", [], ⟨"<memory buffer>", ⟨1, 1, 0⟩, 0⟩⟩

/-- A root context over the null statement; its path name is `/`. -/
def nullContext : Context := .mk nullStatement none

/-- A statement with the fixture metadata (position 1:1). -/
def mkStmt (prf kw : String) (arg : Option String) (substmts : List YangStatement) :
    YangStatement :=
  ⟨prf, kw, arg, substmts, fakeMeta⟩

/-! ## Claims -/

/-! ### C1 — `+`-concatenated string arguments -/

/-- The token stream of the source text `foo "a" + "b";`. -/
def c1Tokens : List Token :=
  [ { symbol := .identifier, position := ⟨1, 1, 0⟩, length := 3, lexeme := "foo", value := "foo" },
    { symbol := .str, position := ⟨1, 5, 4⟩, length := 3, lexeme := "\"a\"", value := "a" },
    { symbol := .stringConcat, position := ⟨1, 9, 8⟩, length := 1, lexeme := "+", value := "+" },
    { symbol := .str, position := ⟨1, 11, 10⟩, length := 3, lexeme := "\"b\"", value := "b" },
    { symbol := .statementTerminator, position := ⟨1, 14, 13⟩, length := 1, lexeme := ";",
      value := ";" } ]

/-- C1: for the source text `foo "a" + "b";` (two string tokens joined by
the `+` operator), the statement parser produces the argument `"a,b"` — the
values are joined by `strings.join()` whose JavaScript default separator is
`","` — and not the claimed plain concatenation `"ab"`; in general the
argument of `foo s1 + s2;` is `s1 ++ "," ++ s2`. -/
theorem c1_string_concat_inserts_comma :
    (parseStmtTree 10 "<text buffer>" c1Tokens).map (fun stmt => stmt.arg) = .ok (some "a,b") ∧
    (∀ s1 s2 : String,
      (parseStmtTree 10 "<text buffer>"
        [ { symbol := .identifier, position := ⟨1, 1, 0⟩, length := 3, lexeme := "foo",
            value := "foo" },
          { symbol := .str, position := ⟨1, 5, 4⟩, length := s1.length, lexeme := s1,
            value := s1 },
          { symbol := .stringConcat, position := ⟨1, 9, 8⟩, length := 1, lexeme := "+",
            value := "+" },
          { symbol := .str, position := ⟨1, 11, 10⟩, length := s2.length, lexeme := s2,
            value := s2 },
          { symbol := .statementTerminator, position := ⟨1, 14, 13⟩, length := 1, lexeme := ";",
            value := ";" } ]).map (fun stmt => stmt.arg) = .ok (some (s1 ++ "," ++ s2))) ∧
    some "a,b" ≠ some "ab" := by
  refine ⟨rfl, fun s1 s2 => rfl, by decide⟩

/-! ### C2 — cyclic imports -/

/-- A module with the fixture fields, one import and no revisions. -/
def c2Module (name imp : String) : Module :=
  makeFakeModule name [] [makeFakeImport imp none] [] []

/-- A resolver configuration over two modules that import each other: the
fetcher hands back the module name as source reference, and parsing yields
module `a` importing `b` and module `b` importing `a`, both without
revisions (the cyclic-dependency scenario of the resolver test suite). -/
def cyclicCfg (a b : String) : ResolverConfig :=
  { moduleFetcher := fun _ name _ => (name, ""),
    getFromCache := fun _ _ => none,
    parse := fun sourceRef _ =>
      if sourceRef = a then .success (.module (c2Module a b))
      else if sourceRef = b then .success (.module (c2Module b a))
      else .error ["no module text for " ++ sourceRef] [] }

/-- C2, counterexample: resolving `A` in the cyclic configuration does fail
with exactly one error, but that error reads `Detected an import loop for
'A@<unspecified revision>'!` — it names the requested module `A`, whose
resolution was re-entered, not the imported module `B` as the claim
states. -/
theorem c2_loop_counterexample :
    (resolve (cyclicCfg "A" "B") 10 "A" none).isFailure = true ∧
    (resolve (cyclicCfg "A" "B") 10 "A" none).errors =
      ["Detected an import loop for 'A@<unspecified revision>'!"] ∧
    (resolve (cyclicCfg "A" "B") 10 "A" none).errors ≠
      ["Detected an import loop for 'B@<unspecified revision>'!"] := by
  refine ⟨rfl, rfl, by decide⟩

/-- C2, amended: for modules A and B importing each other (both revisions
unspecified), `resolve "A" none` returns failure with exactly one error,
`Detected an import loop for 'A@<unspecified revision>'!` — the loop error
names the module whose resolution was re-entered (here the requested module
A), which is also what the repository's own cyclic-dependency test
expects. -/
theorem c2_import_loop_names_requested_module :
    resolve (cyclicCfg "A" "B") 10 "A" none =
      .failure ["Detected an import loop for 'A@<unspecified revision>'!"] [] := by rfl

/-! ### C3 — unknown statements are preserved, scalar substatements are not -/

theorem makeUnknownStatements_eq_map (l : List YangStatement) :
    makeUnknownStatements l = l.map makeUnknownStatement := by
  induction l with
  | nil => rfl
  | cons s rest ih => simp [makeUnknownStatements, ih]

/-- A child is consumed by the rule table iff it is unprefixed and a rule
matches its keyword (the dispatch condition of parseKeywordSubStatements). -/
def childMatched {σ : Type} (rules : List (ParseRule σ)) (c : YangStatement) : Bool :=
  c.prf == "" && (rules.find? (fun r => r.kw == c.kw)).isSome

theorem dispatchChild_ok_unknowns {σ : Type} (ctx : Context) (rules : List (ParseRule σ))
    (c : YangStatement) (u : List UnknownStatement) (seen : List (String × Nat)) (s : σ)
    (log : Log) (out : List UnknownStatement × List (String × Nat) × σ × Log)
    (h : dispatchChild ctx rules c (u, seen, s, log) = .ok out) :
    out.1 = u ++ (if childMatched rules c then [] else [makeUnknownStatement c]) := by
  unfold dispatchChild at h
  by_cases hp : c.prf = ""
  · simp only [hp, if_pos rfl] at h
    cases hfind : rules.find? (fun r => r.kw == c.kw) with
    | none =>
      simp only [hfind] at h
      cases h
      simp [childMatched, hp, hfind]
    | some rule =>
      simp only [hfind] at h
      by_cases hc : rule.handlerCount ≠ 1
      · simp [hc] at h
      · rw [if_neg hc] at h
        cases hh : applyRuleHandlers rule (ctx.push c) s log with
        | error e => rw [hh] at h; exact absurd h (by simp)
        | ok p =>
          rw [hh] at h
          obtain ⟨s1, log1⟩ := p
          cases h
          simp [childMatched, hp, hfind]
  · simp only [if_neg hp] at h
    cases h
    simp [childMatched, hp]

theorem foldl_dispatch_unknowns {σ : Type} (ctx : Context) (rules : List (ParseRule σ)) :
    ∀ (children : List YangStatement) (u0 : List UnknownStatement)
      (seen : List (String × Nat)) (s : σ) (log : Log)
      (out : List UnknownStatement × List (String × Nat) × σ × Log),
      children.foldlM (fun acc subStmt => dispatchChild ctx rules subStmt acc)
          (u0, seen, s, log) = .ok out →
      out.1 = u0 ++
        (children.filter (fun c => !childMatched rules c)).map makeUnknownStatement := by
  intro children
  induction children with
  | nil =>
    intro u0 seen s log out h
    simp only [List.foldlM_nil] at h
    cases h
    simp
  | cons c rest ih =>
    intro u0 seen s log out h
    simp only [List.foldlM_cons] at h
    cases h1 : dispatchChild ctx rules c (u0, seen, s, log) with
    | error e =>
      rw [h1] at h
      simp only [bind, Except.bind] at h
      exact Except.noConfusion h
    | ok mid =>
      rw [h1] at h
      simp only [bind, Except.bind] at h
      obtain ⟨u1, seen1, s1, log1⟩ := mid
      have hu1 := dispatchChild_ok_unknowns ctx rules c u0 seen s log _ h1
      have hrest := ih u1 seen1 s1 log1 out h
      rw [hrest]
      rw [show (u1, seen1, s1, log1).1 = u1 from rfl] at hu1
      rw [hu1]
      by_cases hm : childMatched rules c
      · simp [hm]
      · simp [hm]

/-- C3 (amended): whenever the rule-table dispatch succeeds, the resulting
unknown-statement list is the initial one followed by exactly the children
that are NOT consumed by a matching rule (foreign prefix or no matching
keyword), each preserved recursively with all of its own substatements by
makeUnknownStatement; the substatements of a child that IS matched by a
rule — in particular by a scalar string/boolean/number/status/
pattern-modifier rule — are not recorded (see the counterexample). -/
theorem c3_unknowns_recorded_amended {σ : Type} (ctx : Context)
    (u0 : List UnknownStatement) (rules : List (ParseRule σ)) (s : σ) (log : Log)
    (out : List UnknownStatement × σ × Log)
    (h : parseKeywordSubStatements ctx u0 rules s log = .ok out) :
    out.1 = u0 ++ (ctx.stmt.substmts.filter
        (fun c => !childMatched rules c)).map makeUnknownStatement ∧
    (∀ stmt : YangStatement, makeUnknownStatement stmt =
      .mk stmt.metadata (if stmt.prf = "" then none else some stmt.prf) stmt.kw stmt.arg
        (stmt.substmts.map makeUnknownStatement)) := by
  constructor
  · unfold parseKeywordSubStatements at h
    cases hf : ctx.stmt.substmts.foldlM
        (fun acc subStmt => dispatchChild ctx rules subStmt acc)
        (u0, ([] : List (String × Nat)), s, log) with
    | error e => rw [hf] at h; exact absurd h (by simp)
    | ok mid =>
      rw [hf] at h
      obtain ⟨u1, seen1, s1, log1⟩ := mid
      cases h
      simpa using foldl_dispatch_unknowns ctx rules ctx.stmt.substmts u0 [] s log _ hf
  · intro stmt
    cases stmt with
    | mk prf kw arg substmts metadata =>
      simp [makeUnknownStatement, makeUnknownStatements_eq_map, YangStatement.metadata,
        YangStatement.prf, YangStatement.kw, YangStatement.arg, YangStatement.substmts]

/-- A revision statement with one foreign-prefixed child (which itself has a
substatement), dispatched against parseRevision's rule table. -/
def c3WitnessStmt : YangStatement :=
  mkStmt "" "revision" (some "2000-01-01")
    [mkStmt "foo" "bar" (some "z") [mkStmt "" "inner" none []]]

def c3WitnessRules : List (ParseRule RevisionBuilderState) :=
  [ { kw := "description", stringValueBuilder :=
        some ⟨.optional, fun b v => { b with description := valueBuilderAdd b.description v }⟩ },
    { kw := "reference", stringValueBuilder :=
        some ⟨.optional, fun b v => { b with reference := valueBuilderAdd b.reference v }⟩ } ]

def c3WitnessOut : List UnknownStatement × RevisionBuilderState × Log :=
  ([makeUnknownStatement (mkStmt "foo" "bar" (some "z") [mkStmt "" "inner" none []])],
    {}, {})

/-- Witness for C3's amended theorem at a concrete dispatch. -/
theorem c3_unknowns_recorded_witness :
    parseKeywordSubStatements (Context.mk c3WitnessStmt none) [] c3WitnessRules
        ({} : RevisionBuilderState) ({} : Log) = .ok c3WitnessOut ∧
    c3WitnessOut.1 = [] ++ (c3WitnessStmt.substmts.filter
        (fun c => !childMatched c3WitnessRules c)).map makeUnknownStatement :=
  ⟨rfl,
    (c3_unknowns_recorded_amended (Context.mk c3WitnessStmt none) [] c3WitnessRules
      {} {} c3WitnessOut rfl).1⟩

/-- The statement `revision 2000-01-01 { description "x" { weird-sub y; } }`:
the description child is matched by a scalar string rule, and its own
substatement `weird-sub` carries data the claim says can never be dropped. -/
def c3ScalarDropStmt : YangStatement :=
  mkStmt "" "revision" (some "2000-01-01")
    [mkStmt "" "description" (some "x") [mkStmt "" "weird-sub" (some "y") []]]

/-- C3 counterexample: the claim states that the substatements of a child
matched by a scalar rule are recorded (recursively) in the node's
unknownStatements. Mapping `revision 2000-01-01 { description "x" {
weird-sub y; } }` consumes the description child into the scalar field
(description = "x", no error, no warning) and produces an EMPTY
unknownStatements list: the grandchild `weird-sub` appears nowhere in the
built node, so it was silently discarded. -/
theorem c3_scalar_substatements_dropped :
    (parseRevision (Context.mk c3ScalarDropStmt none) {}).map
        (fun r => (r.1.unknownStatements, r.1.description, r.2)) =
      .ok ([], some "x", ({} : Log)) := by
  rfl

/-! ### C4 — required statements and default literals -/

/-- A `module` statement with `prefix` and `yang-version` children but no
`namespace` child. -/
def c4NoNamespaceStmt (n : String) : YangStatement :=
  mkStmt "" "module" (some n)
    [mkStmt "" "prefix" (some "pre") [],
     mkStmt "" "yang-version" (some "1.1") []]

/-- A `module` statement with `prefix` and `namespace` children but no
`yang-version` child. -/
def c4NoYangVersionStmt (n : String) : YangStatement :=
  mkStmt "" "module" (some n)
    [mkStmt "" "prefix" (some "pre") [],
     mkStmt "" "namespace" (some "urn:x") []]

/-- C4: in the cardinality re-check, a required string-valued rule that was
never seen records the `Required statement '<kw>' not found in '<path>'.`
error unless it declares a default literal, in which case the default is
added to the builder and only a `defaults to` warning is recorded; and
concretely, parsing a module without `namespace` returns an error result
whose single error is `1:1:Required statement 'namespace' not found in
'/module=<name>'.`, while parsing a module without `yang-version` returns a
warning result with yangVersion `"1"` and the single warning
`1:1:Statement 'yang-version' defaults to '1' in '/module=<name>'.`. -/
theorem c4_required_statement_and_default (n : String) :
    (∀ (σ : Type) (ctx : Context) (seen : List (String × Nat)) (s : σ) (log : Log)
        (rule : ParseRule σ) (vb : ScalarRule σ String),
        rule.stringValueBuilder = some vb → vb.kind = .required →
        rule.defaultStringValue = none → seenGetD seen rule.kw = 0 →
        checkRuleCardinality ctx seen (s, log) rule =
          (s, ctx.addError ("Required statement '" ++ rule.kw ++ "' not found in '" ++
            ctx.name ++ "'.") log)) ∧
    (∀ (σ : Type) (ctx : Context) (seen : List (String × Nat)) (s : σ) (log : Log)
        (rule : ParseRule σ) (vb : ScalarRule σ String) (d : String),
        rule.stringValueBuilder = some vb → vb.kind = .required →
        rule.defaultStringValue = some d → seenGetD seen rule.kw = 0 →
        checkRuleCardinality ctx seen (s, log) rule =
          (vb.add s d, ctx.addWarning ("Statement '" ++ rule.kw ++ "' defaults to '" ++ d ++
            "' in '" ++ ctx.name ++ "'.") log)) ∧
    (match parseFromStatement 5 (c4NoNamespaceStmt n) with
     | .error errors warnings => (errors, warnings)
     | _ => ([], ["not an error"])) =
      (["1:1:Required statement 'namespace' not found in '/module=" ++ trimJS n ++ "'."],
       []) ∧
    (match parseFromStatement 5 (c4NoYangVersionStmt n) with
     | .warning (.module m) warnings => (some m.yangVersion, warnings)
     | _ => (none, [])) =
      (some "1",
       ["1:1:Statement 'yang-version' defaults to '1' in '/module=" ++ trimJS n ++ "'."]) := by
  refine ⟨?_, ?_, ?_, ?_⟩
  · intro σ ctx seen s log rule vb h1 h2 h3 h4
    simp [checkRuleCardinality, h1, h2, h3, h4, isScalarBuilder]
  · intro σ ctx seen s log rule vb d h1 h2 h3 h4
    simp [checkRuleCardinality, h1, h2, h3, h4, isScalarBuilder]
  · rfl
  · rfl

/-- Witness: the missing-required error branch and the default-literal
warning branch of the cardinality re-check, each at a concrete rule over a
`List String` builder state. -/
theorem c4_required_statement_and_default_witness :
    checkRuleCardinality nullContext [] ((["seed"] : List String), ({} : Log))
        { kw := "namespace",
          stringValueBuilder := some ⟨.required, fun (b : List String) v => b ++ [v]⟩ } =
      (["seed"], nullContext.addError
        ("Required statement 'namespace' not found in '" ++ nullContext.name ++ "'.") {}) ∧
    checkRuleCardinality nullContext [] ((["seed"] : List String), ({} : Log))
        { kw := "yang-version",
          stringValueBuilder := some ⟨.required, fun (b : List String) v => b ++ [v]⟩,
          defaultStringValue := some "1" } =
      (["seed", "1"], nullContext.addWarning
        ("Statement 'yang-version' defaults to '1' in '" ++ nullContext.name ++ "'.") {}) :=
  ⟨(c4_required_statement_and_default "m").1 (List String) nullContext [] ["seed"] {}
      _ ⟨.required, fun b v => b ++ [v]⟩ rfl rfl rfl rfl,
   (c4_required_statement_and_default "m").2.1 (List String) nullContext [] ["seed"] {}
      _ ⟨.required, fun b v => b ++ [v]⟩ "1" rfl rfl rfl rfl⟩

/-! ### C5 — submodule merge -/

/-- A container with only an identifier (everything else absent/empty). -/
def c5Container (identifier : String) : Container :=
  .mk identifier none [] none none none none none [] [] [] [] fakeMeta []

/-- Module `m`: includes submodule `s` and declares `container bar`. -/
def c5Owning : Module :=
  makeFakeModule "m" [] [] [makeFakeInclude "s" none]
    [.dataDef (.container (c5Container "bar"))]

/-- Submodule `s` of `m`, declaring `container sub-bar`. -/
def c5Sub : Submodule :=
  makeFakeSubmodule "s" "m" [] [] [] [.dataDef (.container (c5Container "sub-bar"))]

/-- The resolver configuration serving `m` and its submodule `s`. -/
def c5Cfg : ResolverConfig :=
  { moduleFetcher := fun _ name _ => (name, ""),
    getFromCache := fun _ _ => none,
    parse := fun sourceRef _ =>
      if sourceRef = "m" then .success (.module c5Owning)
      else if sourceRef = "s" then .success (.submodule c5Sub)
      else .error ["no module text for " ++ sourceRef] [] }

/-- C5: for every module and submodule list, `merge` yields the module's own
imports followed by every submodule's imports in order, the module's own
body followed by every submodule's body in order, and leaves every other
field unchanged; and resolving module `m` (container `bar`, includes
submodule `s` with container `sub-bar`) succeeds with exactly the merged
module, whose body lists `bar` first and `sub-bar` second. -/
theorem c5_merge_appends_submodule_content :
    (∀ (m : Module) (subs : List Submodule),
      (merge m subs).imports = m.imports ++ subs.flatMap (fun s => s.imports) ∧
      (merge m subs).body = m.body ++ subs.flatMap (fun s => s.body) ∧
      (merge m subs).name = m.name ∧
      (merge m subs).pfx = m.pfx ∧
      (merge m subs).yangVersion = m.yangVersion ∧
      (merge m subs).namespace_ = m.namespace_ ∧
      (merge m subs).organization = m.organization ∧
      (merge m subs).contact = m.contact ∧
      (merge m subs).reference = m.reference ∧
      (merge m subs).description = m.description ∧
      (merge m subs).revisions = m.revisions ∧
      (merge m subs).includes = m.includes ∧
      (merge m subs).metadata = m.metadata ∧
      (merge m subs).unknownStatements = m.unknownStatements) ∧
    resolve c5Cfg 10 "m" none =
      .success [{ name := "m", revision := none, module := merge c5Owning [c5Sub] }] ∧
    (merge c5Owning [c5Sub]).body =
      [.dataDef (.container (c5Container "bar")),
       .dataDef (.container (c5Container "sub-bar"))] :=
  ⟨fun _ _ =>
    ⟨rfl, rfl, rfl, rfl, rfl, rfl, rfl, rfl, rfl, rfl, rfl, rfl, rfl, rfl⟩,
   rfl, rfl⟩

/-! ### C6 — parseLengthSpecification examples -/

/-- C6: `parseLengthSpecification "5..max"` yields lower bound 5 and upper
bound `max` with nothing logged; `"max..5"` yields no specification and
records exactly the interval error, whose text contains `mustn't > max`;
`"1..2..3"` yields no specification and records exactly the invalid-part
error, whose text contains `Invalid length part`. -/
theorem c6_parse_length_specification :
    parseLengthSpecification "5..max" nullContext {} =
      (some { lowerBound := .num 5, upperBound := some .bmax }, {}) ∧
    (parseLengthSpecification "max..5" nullContext {}).1 = none ∧
    (parseLengthSpecification "max..5" nullContext {}).2.errors =
      ["1:1:Invalid interval 'max..5' for length statement in '/' (min mustn't > max)."] ∧
    (∃ pre post,
      "1:1:Invalid interval 'max..5' for length statement in '/' (min mustn't > max)." =
        pre ++ "mustn't > max" ++ post) ∧
    (parseLengthSpecification "1..2..3" nullContext {}).1 = none ∧
    (parseLengthSpecification "1..2..3" nullContext {}).2.errors =
      ["1:1:Invalid length part '1..2..3' for length statement in '/'."] ∧
    (∃ pre post,
      "1:1:Invalid length part '1..2..3' for length statement in '/'." =
        pre ++ "Invalid length part" ++ post) := by
  refine ⟨by rfl, by rfl, by rfl, ⟨"1:1:Invalid interval 'max..5' for length statement in '/' (min ", ").", by rfl⟩,
    by rfl, by rfl, ⟨"1:1:", " '1..2..3' for length statement in '/'.", by rfl⟩⟩

/-! ### C7 — enum value and bit position auto-increment -/

/-- A `type enumeration` statement with three `enum` children, the middle
one carrying an explicit `value 5`. -/
def c7EnumTypeStmt : YangStatement :=
  mkStmt "" "type" (some "enumeration")
    [mkStmt "" "enum" (some "a") [],
     mkStmt "" "enum" (some "b") [mkStmt "" "value" (some "5") []],
     mkStmt "" "enum" (some "c") []]

/-- A `type bits` statement with three `bit` children, the middle one
carrying an explicit `position 5`. -/
def c7BitTypeStmt : YangStatement :=
  mkStmt "" "type" (some "bits")
    [mkStmt "" "bit" (some "x") [],
     mkStmt "" "bit" (some "y") [mkStmt "" "position" (some "5") []],
     mkStmt "" "bit" (some "z") []]

/-- C7: enum values and bit positions auto-increment across the siblings of
one `type` statement — the concrete trees `enum a; enum b {value 5}; enum c`
and `bit x; bit y {position 5}; bit z` map to values/positions 0, 5, 6; an
enum or bit without an explicit value receives the counter's current value
and hands `current + 1` to the next sibling; and an explicit value `v`
(any argument string parsing to `v`) makes the enum's value `v` and hands
`v + 1` to the next sibling. -/
theorem c7_auto_increment :
    (parseType 3 (Context.mk c7EnumTypeStmt none) {}).map
        (fun r => (r.1.enums.map (fun e => (e.name, e.value)), r.2)) =
      .ok ([("a", 0), ("b", 5), ("c", 6)], ({} : Log)) ∧
    (parseType 3 (Context.mk c7BitTypeStmt none) {}).map
        (fun r => (r.1.bits.map (fun b => (b.identifier, b.position)), r.2)) =
      .ok ([("x", 0), ("y", 5), ("z", 6)], ({} : Log)) ∧
    (∀ (cur : Int),
      (parseEnum (Context.mk (mkStmt "" "enum" (some "e") []) none) cur {}).map
        (fun r => (r.1.value, r.2.1)) = .ok (cur, cur + 1)) ∧
    (∀ (cur : Int),
      (parseBit (Context.mk (mkStmt "" "bit" (some "x") []) none) cur {}).map
        (fun r => (r.1.position, r.2.1)) = .ok (cur, cur + 1)) ∧
    (∀ (s : String) (v : Int) (cur : Int), parseFloatJS (trimJS s) = some v →
      (parseEnum (Context.mk (mkStmt "" "enum" (some "e")
          [mkStmt "" "value" (some s) []]) none) cur {}).map
        (fun r => (r.1.value, r.2.1)) = .ok (v, v + 1)) := by
  refine ⟨rfl, rfl, fun cur => rfl, fun cur => rfl, ?_⟩
  intro s v cur h
  simp [parseEnum, parseKeywordSubStatements, dispatchChild, applyRuleHandlers, expectNumber,
    createBuilderName, ParseRule.handlerCount, checkRuleCardinality, seenGetD, seenSet,
    Context.push, Context.stmt, Context.name, Context.argumentName, Context.parentName,
    Context.addError, Context.addWarning, fqKeyword, mkStmt, h, valueBuilderAdd,
    requiredValueIsSet, requiredValueGet, requiredValueBuild, optionalValueBuild,
    isScalarBuilder, multiValueBuild, Except.map]

/-- Witness: an enum with explicit `value 7` entered with counter 0 yields
value 7 and next counter 8. -/
theorem c7_auto_increment_witness :
    (parseEnum (Context.mk (mkStmt "" "enum" (some "e")
        [mkStmt "" "value" (some "7") []]) none) 0 {}).map
      (fun r => (r.1.value, r.2.1)) = .ok (7, 7 + 1) :=
  c7_auto_increment.2.2.2.2 "7" 7 0 rfl

/-! ### C8 — latest revision and the revision check -/

/-- JS `<` on code-unit lists is irreflexive. -/
lemma charListLt_irrefl : ∀ (a : List Char), charListLt a a = false
  | [] => rfl
  | c :: cs => by simp [charListLt, charListLt_irrefl cs]

/-- Unfolding of JS `<` on two nonempty code-unit lists. -/
lemma charListLt_cons_iff (x y : Char) (xs ys : List Char) :
    charListLt (x :: xs) (y :: ys) = true ↔
      x.toNat < y.toNat ∨ (x.toNat = y.toNat ∧ charListLt xs ys = true) := by
  simp only [charListLt]
  split_ifs with h1 h2
  · simp [h1]
  · simp only [Bool.false_eq_true, false_iff]
    rintro (h | ⟨h, _⟩) <;> omega
  · have he : x.toNat = y.toNat := by omega
    simp [he, h1]

/-- JS `<` on code-unit lists is transitive. -/
lemma charListLt_trans (a : List Char) : ∀ (b c : List Char),
    charListLt a b = true → charListLt b c = true → charListLt a c = true := by
  induction a with
  | nil =>
    intro b c hab hbc
    cases b with
    | nil => simp [charListLt] at hab
    | cons y ys =>
      cases c with
      | nil => simp [charListLt] at hbc
      | cons z zs => simp [charListLt]
  | cons x xs ih =>
    intro b c hab hbc
    cases b with
    | nil => simp [charListLt] at hab
    | cons y ys =>
      cases c with
      | nil => simp [charListLt] at hbc
      | cons z zs =>
        rw [charListLt_cons_iff] at hab hbc ⊢
        rcases hab with h1 | ⟨h1, h1'⟩ <;> rcases hbc with h2 | ⟨h2, h2'⟩
        · exact .inl (by omega)
        · exact .inl (by omega)
        · exact .inl (by omega)
        · exact .inr ⟨by omega, ih ys zs h1' h2'⟩

/-- JS string `<` is irreflexive. -/
lemma strLtJS_irrefl (a : String) : strLtJS a a = false := charListLt_irrefl a.data

/-- JS string `<` is transitive. -/
lemma strLtJS_trans {a b c : String} (hab : strLtJS a b = true)
    (hbc : strLtJS b c = true) : strLtJS a c = true :=
  charListLt_trans a.data b.data c.data hab hbc

/-- Invariant of the running-maximum fold of getModuleRevision, starting
from a seed value: the fold yields a value that is the seed or a list
element, is not below the seed, and is not below any list element. -/
lemma getModuleRevision_fold (revs : List Revision) : ∀ (v : String),
    ∃ m, revs.foldl (fun latestRevision revision =>
        match latestRevision with
        | none => some revision.value
        | some latest => if strLtJS latest revision.value then some revision.value
            else some latest) (some v) = some m ∧
      (m = v ∨ m ∈ revs.map Revision.value) ∧
      (m = v ∨ strLtJS v m = true) ∧
      strLtJS m v = false ∧
      (∀ u ∈ revs.map Revision.value, strLtJS m u = false) := by
  induction revs with
  | nil =>
    intro v
    exact ⟨v, rfl, .inl rfl, .inl rfl, strLtJS_irrefl v, by simp⟩
  | cons r rest ih =>
    intro v
    by_cases h : strLtJS v r.value = true
    · obtain ⟨m, hm, hmem, hge, hnotlt, hall⟩ := ih r.value
      have hge' : strLtJS v m = true := by
        rcases hge with rfl | hlt
        · exact h
        · exact strLtJS_trans h hlt
      refine ⟨m, ?_, ?_, .inr hge', ?_, ?_⟩
      · simpa [List.foldl_cons, h] using hm
      · rcases hmem with rfl | hmem
        · exact .inr (by simp)
        · exact .inr (by simp [hmem])
      · by_contra hc
        have hc' : strLtJS m v = true := by
          cases hmv : strLtJS m v
          · exact absurd hmv hc
          · rfl
        have : strLtJS v v = true := strLtJS_trans hge' hc'
        rw [strLtJS_irrefl] at this
        exact Bool.noConfusion this
      · intro u hu
        have hu2 : u = r.value ∨ u ∈ rest.map Revision.value := by simpa using hu
        rcases hu2 with rfl | hu'
        · exact hnotlt
        · exact hall u hu'
    · have h' : strLtJS v r.value = false := by
        cases hmv : strLtJS v r.value
        · rfl
        · exact absurd hmv h
      obtain ⟨m, hm, hmem, hge, hnotlt, hall⟩ := ih v
      have hhead : strLtJS m r.value = false := by
        rcases hge with rfl | hlt
        · exact h'
        · by_contra hc
          have hc' : strLtJS m r.value = true := by
            cases hmv : strLtJS m r.value
            · exact absurd hmv hc
            · rfl
          have : strLtJS v r.value = true := strLtJS_trans hlt hc'
          rw [h'] at this
          exact Bool.noConfusion this
      refine ⟨m, ?_, ?_, hge, hnotlt, ?_⟩
      · simpa [List.foldl_cons, h'] using hm
      · rcases hmem with rfl | hmem
        · exact .inl rfl
        · exact .inr (by simp [hmem])
      · intro u hu
        have hu2 : u = r.value ∨ u ∈ rest.map Revision.value := by simpa using hu
        rcases hu2 with rfl | hu'
        · exact hhead
        · exact hall u hu'

/-- getModuleRevision of a list it resolves to `some m` returns a member
of the `revision` values that no other member exceeds under JS string
`<` - the lexicographic maximum. -/
lemma getModuleRevision_max (revs : List Revision) (m : String)
    (h : getModuleRevision revs = some m) :
    m ∈ revs.map Revision.value ∧
      ∀ u ∈ revs.map Revision.value, strLtJS m u = false := by
  cases revs with
  | nil => exact Option.noConfusion h
  | cons r rest =>
    obtain ⟨m', hm', hmem, _, hnotlt, hall⟩ := getModuleRevision_fold rest r.value
    rw [getModuleRevision, List.foldl_cons] at h
    rw [hm'] at h
    obtain rfl : m' = m := Option.some.inj h
    refine ⟨?_, ?_⟩
    · rcases hmem with rfl | hmem
      · simp
      · simp [hmem]
    · intro u hu
      have hu2 : u = r.value ∨ u ∈ rest.map Revision.value := by simpa using hu
      rcases hu2 with rfl | hu'
      · exact hnotlt
      · exact hall u hu'

/-- A resolver configuration whose parse step always yields module `A`
with the given revisions and no imports or includes. -/
def c8Cfg (revs : List Revision) : ResolverConfig :=
  { moduleFetcher := fun _ name _ => (name, ""),
    getFromCache := fun _ _ => none,
    parse := fun _ _ => .success (.module (makeFakeModule "A" revs [] [] [])) }

/-- C8: getModuleRevision of an empty revisions list is `none`; when it is
`some m`, `m` is among the declared revision values and no declared value
exceeds it under JS string `<` (the lexicographically maximal value); and
for every requested revision `r`, resolving module `A` (which parses with
the given revisions list) fails if and only if the module's latest declared
revision differs from `some r`. -/
theorem c8_latest_revision_and_check :
    getModuleRevision ([] : List Revision) = none ∧
    (∀ (revs : List Revision) (m : String), getModuleRevision revs = some m →
      m ∈ revs.map Revision.value ∧
        ∀ u ∈ revs.map Revision.value, strLtJS m u = false) ∧
    (∀ (revs : List Revision) (r : String) (f : Nat),
      (resolve (c8Cfg revs) (f + 1 + 1 + 1) "A" (some r)).isFailure = true ↔
        getModuleRevision revs ≠ some r) := by
  refine ⟨rfl, getModuleRevision_max, ?_⟩
  intro revs r f
  by_cases h : getModuleRevision revs = some r
  · simp [resolve, resolveModule, resolveParsedModule, loadSubmodules, resolveImports,
      getResolutionStatus, setResolutionStatus, merge, collectModules, c8Cfg,
      makeFakeModule, h, ResolutionResult.isFailure, ResolutionContext.pushError]
  · simp [resolve, resolveModule, resolveParsedModule, loadSubmodules, resolveImports,
      getResolutionStatus, setResolutionStatus, merge, collectModules, c8Cfg,
      makeFakeModule, h, ResolutionResult.isFailure, ResolutionContext.pushError]

/-- Witness: on the concrete revisions 2020-01-01, 2022-02-02, 2021-03-03
the latest revision 2022-02-02 is a member that no value exceeds. -/
theorem c8_latest_revision_and_check_witness :
    "2022-02-02" ∈ ([makeFakeRevision "2020-01-01", makeFakeRevision "2022-02-02",
        makeFakeRevision "2021-03-03"].map Revision.value) ∧
      ∀ u ∈ ([makeFakeRevision "2020-01-01", makeFakeRevision "2022-02-02",
        makeFakeRevision "2021-03-03"].map Revision.value),
        strLtJS "2022-02-02" u = false :=
  c8_latest_revision_and_check.2.1
    [makeFakeRevision "2020-01-01", makeFakeRevision "2022-02-02",
     makeFakeRevision "2021-03-03"] "2022-02-02" rfl

/-! ### C9 — value accumulators -/

/-- Adding values one by one to an empty accumulator state leaves exactly
that list of values, in add order. -/
theorem foldl_valueBuilderAdd (xs acc : List α) :
    xs.foldl valueBuilderAdd acc = acc ++ xs := by
  induction xs generalizing acc with
  | nil => simp
  | cons x rest ih => simp [valueBuilderAdd, ih]

/-- C9: the accumulator state reached by adding the values `xs` in order is
`xs` itself (Multi builds to exactly that list); an Optional accumulator
builds to the value when exactly one value was added and to null otherwise
(also for more than one); a Required accumulator builds to the value when
exactly one value was added and to its caller-supplied sentinel otherwise. -/
theorem c9_value_accumulators {α : Type} (sentinel x : α) (xs : List α) :
    optionalValueBuild (List.foldl valueBuilderAdd [] [x]) = some x ∧
    (xs.length ≠ 1 → optionalValueBuild (List.foldl valueBuilderAdd [] xs) = none) ∧
    requiredValueBuild sentinel (List.foldl valueBuilderAdd [] [x]) = x ∧
    (xs.length ≠ 1 → requiredValueBuild sentinel (List.foldl valueBuilderAdd [] xs) = sentinel) ∧
    multiValueBuild (List.foldl valueBuilderAdd [] xs) = xs := by
  have hfold : List.foldl valueBuilderAdd ([] : List α) xs = xs := by
    simpa using foldl_valueBuilderAdd xs []
  refine ⟨rfl, fun h => ?_, rfl, fun h => ?_, by simpa [multiValueBuild] using hfold⟩
  · rw [hfold]
    match xs, h with
    | [], _ => rfl
    | _ :: _ :: _, _ => rfl
  · rw [hfold]
    match xs, h with
    | [], _ => rfl
    | _ :: _ :: _, _ => rfl

/-- Witness for C9 at concrete inputs: two added values resolve to absent
for Optional and to the sentinel for Required. -/
theorem c9_value_accumulators_witness :
    (["foo", "bar"].length ≠ 1) ∧
    (optionalValueBuild (List.foldl valueBuilderAdd [] ["foo", "bar"]) = none ∧
      requiredValueBuild "error" (List.foldl valueBuilderAdd [] ["foo", "bar"]) = "error") := by
  refine ⟨by decide, ?_, ?_⟩
  · exact (c9_value_accumulators "error" "foo" ["foo", "bar"]).2.1 (by decide)
  · exact (c9_value_accumulators "error" "foo" ["foo", "bar"]).2.2.2.1 (by decide)

/-! ### C10 — repeated zero-or-one nested child -/

/-- The statement `container <c> { when <w1>; when <w2>; }`. -/
def c10ContainerStmt (c w1 w2 : String) : YangStatement :=
  mkStmt "" "container" (some c)
    [mkStmt "" "when" (some w1) [], mkStmt "" "when" (some w2) []]

/-- C10: a `container` whose rule table declares `when` as a zero-or-one
nested child accepts an input containing two `when` children with no error
and no warning (the cardinality re-check does not classify zero-or-one
handler rules as scalar, due to the missing `||` before
`rule.parseZeroOrOne !== undefined`), and the built container's `when`
field silently collapses to null. -/
theorem c10_repeated_zero_or_one_collapses (c w1 w2 : String) :
    (parseContainer 3 (Context.mk (c10ContainerStmt c w1 w2) none) {}).map
        (fun r => (r.1.when, r.2)) =
      .ok (none, ({} : Log)) := by
  rfl

end YangTools
